import Mathlib

/-!
# Command dispatch of the worker: a shallow embedding

The development follows `event/commandexecutor.go` (`executeCommand`).  External
collaborators (database, providers, blacklist cache, the interaction context and the
command handler) are fields of an environment `Env`; every call the code makes to one
of them, every value it sends on the response channel and the closing of that channel is
recorded, in program order, as an `Event`.  Deadlines and context cancellation are not
part of the model: a provider that times out is a provider that returns an error.

Two further models follow the same pattern: the goroutine of `executeCommand` once more,
with calls that may panic (`dispatchUnitRun`), and the role synchronisation
`assignOnCallRole` of `bot/command/impl/tickets/oncall.go`, whose collaborators may answer
differently from one call to the next (`RoleEnv`).
-/

namespace Worker

/-! ## Data model -/

/-- Modelled from the spec: the permission levels of the external package
`common/permission` (`Everyone`, `Support`, `Admin`, declared in this order with `iota`). -/
inductive PermissionLevel where
  | Everyone
  | Support
  | Admin
  deriving DecidableEq, Repr

/-- Integer value of a permission level (its `iota` index). -/
def PermissionLevel.rank : PermissionLevel → Nat
  | .Everyone => 0
  | .Support => 1
  | .Admin => 2

/-- Modelled from the spec: the premium tiers of the external package `common/premium`;
`None` is the lowest tier. -/
inductive PremiumTier where
  | None
  | Premium
  | Whitelabel
  deriving DecidableEq, Repr

/-- The `interaction.InteractionContextType` values of the platform library. -/
inductive InteractionContextType where
  | Guild
  | BotDM
  | PrivateChannel
  deriving DecidableEq, Repr

/-- The `registry.Properties` fields read by `executeCommand`, over the type `C` of
commands (the children are commands again). -/
structure Properties (C : Type) where
  Name : String
  PermissionLevel : PermissionLevel
  Children : List C
  PremiumOnly : Bool
  AdminOnly : Bool
  HelperOnly : Bool
  DefaultEphemeral : Bool
  Timeout : Nat
  IgnoreBlacklist : Bool
  Contexts : List InteractionContextType
  DisableAutoDefer : Bool

/-- A registered command: `registry.Command`, reduced to what `Properties()` returns. -/
inductive Command where
  | mk (properties : Properties Command)

/-- The method `cmd.Properties()`. -/
def Command.Properties : Command → Properties Command
  | .mk p => p

/-- An option node of the invocation (`ApplicationCommandInteractionDataOption`):
`Value` is `none` for the Go `nil`. -/
inductive CommandOption where
  | mk (Name : String) (Value : Option String) (Options : List CommandOption)

/-- The field `Name` of an option node. -/
def CommandOption.Name : CommandOption → String
  | .mk n _ _ => n

/-- The field `Value` of an option node. -/
def CommandOption.Value : CommandOption → Option String
  | .mk _ v _ => v

/-- The field `Options` of an option node. -/
def CommandOption.Options : CommandOption → List CommandOption
  | .mk _ _ os => os

/-- A Go `error` value: a formatted message, the sentinel `ErrArgumentNotFound`, a
`request.RestError` with its `ApiError.Code`, or another error produced by a collaborator
(identified by a number). -/
inductive Err where
  | text (msg : String)
  | argumentNotFound
  | deadlineExceeded
  | external (id : Nat)
  | rest (code : Nat)
  deriving DecidableEq, Repr

/-- The inbound `interaction.ApplicationCommandInteraction`: `GuildId` is
`data.GuildId.Value` (0 when absent), `Member` is `data.Member` (`none` for `nil`; the
snapshot is identified by a number), `UserId` is what `interactionContext.UserId()`
returns, `Name`, `Id`, `Options` are the fields of `data.Data`. -/
structure Interaction where
  GuildId : Nat
  Member : Option Nat
  UserId : Nat
  Name : String
  Id : Nat
  Options : List CommandOption

/-- The colours of `customisation` used by the dispatcher. -/
inductive Colour where
  | Red
  | Green
  deriving DecidableEq, Repr

/-- The `i18n` message identifiers used by the dispatcher. -/
inductive MessageId where
  | Error
  | TitleBlacklisted
  | TitlePremiumOnly
  | MessageGuildBlacklisted
  | MessageNoPermission
  | MessageOwnerOnly
  | MessagePremium
  | MessageUserBlacklisted
  | MessageBlacklisted
  deriving DecidableEq, Repr

/-- What a call of `callCommand` does: it returns `nil`, returns an error, or panics. -/
inductive HandlerOutcome where
  | ok
  | error (e : Err)
  | panic
  deriving DecidableEq, Repr

/-- The statsd keys incremented by the dispatcher. -/
inductive StatsdKey where
  | KeySlashCommands
  | KeyCommands
  deriving DecidableEq, Repr

/-- One observable step of `executeCommand`: a call of a collaborator, a value sent on
`responseCh`, the closing of `responseCh`, or the recovery of a panic. -/
inductive Event where
  | getByApplicationCommandId (guildId id : Nat)
  | sentryError (e : Err)
  | send (content : String)
  | sendEmbed (title content : String)
  | getTierByGuildId (guildId : Nat)
  | getPermissionLevel (member guildId : Nat)
  | isGuildBlacklisted (guildId : Nat)
  | isBotAdmin (userId : Nat)
  | isBotHelper (userId : Nat)
  | isBlacklisted
  | isUserBlacklisted (userId : Nat)
  | reply (colour : Colour) (title content : MessageId) (format : List String)
  | handleError (e : Err)
  | incrementKey (key : StatsdKey)
  | logCommand (name : String)
  | callCommand (cmd : Command) (options : List CommandOption)
  | closeResponseCh
  | recovered

/-- The collaborators and process-wide settings `executeCommand` depends on. -/
structure Env where
  /-- The flag `config.Conf.PremiumOnly`. -/
  confPremiumOnly : Bool
  /-- The setting `config.Conf.Bot.VoteUrl`. -/
  voteUrl : String
  /-- The flag `worker.IsWhitelabel`. -/
  isWhitelabel : Bool
  /-- The lookup `dbclient.Client.Tag.GetByApplicationCommandId` followed by
  `tags.NewTagAliasCommand`: an error, no alias, or the alias command. -/
  getByApplicationCommandId : Nat → Nat → Except Err (Option Command)
  /-- The provider `utils.PremiumClient.GetTierByGuildId`. -/
  getTierByGuildId : Nat → Except Err PremiumTier
  /-- The provider `permission.GetPermissionLevel` (member, guild). -/
  getPermissionLevel : Nat → Nat → Except Err PermissionLevel
  /-- The error id returned by `sentry.Error`. -/
  sentryError : Err → String
  /-- The cache lookup `blacklist.IsGuildBlacklisted`. -/
  isGuildBlacklisted : Nat → Bool
  /-- The allowlist check `utils.IsBotAdmin`. -/
  isBotAdmin : Nat → Bool
  /-- The allowlist check `utils.IsBotHelper`. -/
  isBotHelper : Nat → Bool
  /-- The method `interactionContext.IsBlacklisted`. -/
  isBlacklisted : Interaction → Except Err Bool
  /-- The cache lookup `blacklist.IsUserBlacklisted`. -/
  isUserBlacklisted : Nat → Bool
  /-- The handler invocation `callCommand(cmd, &interactionContext, options)`. -/
  callCommand : Command → List CommandOption → HandlerOutcome

/-! ## Operations (`event/commandexecutor.go`) -/

/-- What `executeCommand` returns, together with what it did: `sync` are the events
before it returns, `unit` the events of the goroutine it started (`none` when no
goroutine was started). -/
structure Result where
  disableAutoDefer : Bool
  defaultEphemeral : Bool
  err : Option Err
  sync : List Event
  unit : Option (List Event)

/-- Lines 39-55: registry lookup with the tag-alias fallback. -/
def lookupCommand (env : Env) (registry : String → Option Command) (data : Interaction) :
    List Event × Except Err Command :=
  match registry data.Name with
  | some cmd => ([], .ok cmd)
  | none =>
    match env.getByApplicationCommandId data.GuildId data.Id with
    | .error err =>
      ([.getByApplicationCommandId data.GuildId data.Id, .sentryError err], .error err)
    | .ok none =>
      ([.getByApplicationCommandId data.GuildId data.Id],
        .error (.text ("command " ++ data.Name ++ " does not exist")))
    | .ok (some tagCmd) => ([.getByApplicationCommandId data.GuildId data.Id], .ok tagCmd)

/-- Lines 61-68: the first child, in declared order, whose name is `name`. -/
def findChild (children : List Command) (name : String) : Option Command :=
  children.find? (fun child => child.Properties.Name == name)

/-- Lines 57-75: subcommand descent.  While there is a first option and it has no value,
the child named like it becomes the command and its options the options. -/
def descend (cmd : Command) : List CommandOption → Except Err (Command × List CommandOption)
  | [] => .ok (cmd, [])
  | .mk name (some v) subOptions :: rest => .ok (cmd, .mk name (some v) subOptions :: rest)
  | .mk name none subOptions :: _ =>
    match findChild cmd.Properties.Children name with
    | none =>
      .error (.text ("subcommand " ++ name ++ " does not exist for command "
        ++ cmd.Properties.Name))
    | some child => descend child subOptions

/-- Lines 80-85: the interaction context of the invocation. -/
def currentContext (data : Interaction) : InteractionContextType :=
  if data.GuildId = 0 ∨ data.Member = none then .BotDM else .Guild

/-- Lines 90-96: the loop that looks for the current context among the declared ones. -/
def contextListed (contexts : List InteractionContextType) (current : InteractionContextType) :
    Bool :=
  contexts.any (fun ctx => ctx == current)

/-- Lines 88-117: the message sent when the context check fails, `none` when it passes. -/
def contextDenial (properties : Properties Command) (current : InteractionContextType) :
    Option String :=
  if properties.Contexts.length > 0 then
    if ! contextListed properties.Contexts current then
      if current = .BotDM then some "This command can only be used in servers."
      else some "This command can only be used in DMs."
    else none
  else
    if current = .BotDM then some "This command can only be used in servers."
    else none

/-- Lines 229-252: metrics, the deferred close of the response channel, the handler call
and the handling of its result.  A panic of the handler runs the deferred close and is
then recovered by the deferred function of lines 120-125. -/
def invokeHandler (env : Env) (cmd : Command) (options : List CommandOption)
    (data : Interaction) : List Event :=
  [.incrementKey .KeySlashCommands, .incrementKey .KeyCommands, .logCommand data.Name,
    .callCommand cmd options] ++
  match env.callCommand cmd options with
  | .ok => [.closeResponseCh]
  | .error err =>
    if err = .argumentNotFound then
      if env.isWhitelabel then
        [.sendEmbed "Outdated Command"
          "This command registration is outdated. Please ask the server administrators to visit the whitelabel dashboard and press \"Create Slash Commands\" again.",
          .closeResponseCh]
      else [.send "argument is missing", .closeResponseCh]
    else [.handleError err, .closeResponseCh]
  | .panic => [.closeResponseCh, .recovered]

/-- Lines 205-252: the user/guild blacklist gate and what follows it. -/
def userBlacklistGate (env : Env) (cmd : Command) (options : List CommandOption)
    (data : Interaction) : List Event :=
  if ! cmd.Properties.IgnoreBlacklist then
    .isBlacklisted ::
    match env.isBlacklisted data with
    | .error err => [.handleError err]
    | .ok blacklisted =>
      if blacklisted then
        if data.GuildId = 0 then
          [.reply .Red .TitleBlacklisted .MessageUserBlacklisted []]
        else
          .isUserBlacklisted data.UserId ::
          (if env.isUserBlacklisted data.UserId then
            [.reply .Red .TitleBlacklisted .MessageUserBlacklisted []]
          else [.reply .Red .TitleBlacklisted .MessageBlacklisted []])
      else invokeHandler env cmd options data
  else invokeHandler env cmd options data

/-- Lines 200-252: the premium-only gate and what follows it. -/
def premiumOnlyGate (env : Env) (cmd : Command) (options : List CommandOption)
    (data : Interaction) (premiumLevel : PremiumTier) : List Event :=
  if cmd.Properties.PremiumOnly && premiumLevel == .None then
    [.reply .Red .TitlePremiumOnly .MessagePremium
      ["https://www.patreon.com/ticketsbot-cloud", env.voteUrl]]
  else userBlacklistGate env cmd options data

/-- Lines 195-252: the helper-only gate and what follows it. -/
def helperOnlyGate (env : Env) (cmd : Command) (options : List CommandOption)
    (data : Interaction) (premiumLevel : PremiumTier) : List Event :=
  if cmd.Properties.HelperOnly then
    .isBotHelper data.UserId ::
    (if ! env.isBotHelper data.UserId then [.reply .Red .Error .MessageNoPermission []]
    else premiumOnlyGate env cmd options data premiumLevel)
  else premiumOnlyGate env cmd options data premiumLevel

/-- Lines 190-252: the admin-only gate and what follows it. -/
def adminOnlyGate (env : Env) (cmd : Command) (options : List CommandOption)
    (data : Interaction) (premiumLevel : PremiumTier) : List Event :=
  if cmd.Properties.AdminOnly then
    .isBotAdmin data.UserId ::
    (if ! env.isBotAdmin data.UserId then [.reply .Red .Error .MessageOwnerOnly []]
    else helperOnlyGate env cmd options data premiumLevel)
  else helperOnlyGate env cmd options data premiumLevel

/-- Lines 185-252: the permission-level gate and what follows it. -/
def permissionGate (env : Env) (cmd : Command) (options : List CommandOption)
    (data : Interaction) (permLevel : PermissionLevel) (premiumLevel : PremiumTier) :
    List Event :=
  if cmd.Properties.PermissionLevel.rank > permLevel.rank then
    [.reply .Red .Error .MessageNoPermission []]
  else adminOnlyGate env cmd options data premiumLevel

/-- Lines 179-252: the guild-blacklist gate and what follows it. -/
def guildBlacklistGate (env : Env) (cmd : Command) (options : List CommandOption)
    (data : Interaction) (permLevel : PermissionLevel) (premiumLevel : PremiumTier) :
    List Event :=
  if data.GuildId ≠ 0 then
    .isGuildBlacklisted data.GuildId ::
    (if env.isGuildBlacklisted data.GuildId then
      [.reply .Red .TitleBlacklisted .MessageGuildBlacklisted []]
    else permissionGate env cmd options data permLevel premiumLevel)
  else permissionGate env cmd options data permLevel premiumLevel

/-- Lines 170-252: the process-wide premium-only switch, then the gates. -/
def afterAuthorization (env : Env) (cmd : Command) (options : List CommandOption)
    (data : Interaction) (permLevel : PermissionLevel) (premiumLevel : PremiumTier) :
    List Event :=
  if premiumLevel == .None && env.confPremiumOnly then []
  else guildBlacklistGate env cmd options data permLevel premiumLevel

/-- Lines 137-148: the premium-tier fetch; an error is reported to sentry and the tier
stays `None`. -/
def fetchPremium (env : Env) (guildId : Nat) : List Event × PremiumTier :=
  match env.getTierByGuildId guildId with
  | .error err => ([.getTierByGuildId guildId, .sentryError err], .None)
  | .ok tier => ([.getTierByGuildId guildId], tier)

/-- Lines 127-168: the two fetches of a guild invocation, joined by `group.Wait()`.  The
two goroutines run concurrently; their events are listed premium first.  The result is
the error of the permission fetch, or the pair of facts; outside a guild no fetch is made
and the facts keep their initial values. -/
def authorize (env : Env) (data : Interaction) :
    List Event × Except Err (PermissionLevel × PremiumTier) :=
  match data.Member with
  | some member =>
    if data.GuildId ≠ 0 then
      match env.getPermissionLevel member data.GuildId with
      | .error err =>
        ((fetchPremium env data.GuildId).1 ++ [.getPermissionLevel member data.GuildId],
          .error err)
      | .ok res =>
        ((fetchPremium env data.GuildId).1 ++ [.getPermissionLevel member data.GuildId],
          .ok (res, (fetchPremium env data.GuildId).2))
    else ([], .ok (.Everyone, .None))
  | none => ([], .ok (.Everyone, .None))

/-- Lines 119-253: the goroutine started for an invocation that passed the context
check. -/
def dispatchUnit (env : Env) (cmd : Command) (options : List CommandOption)
    (data : Interaction) : List Event :=
  match authorize env data with
  | (fetches, .error err) =>
    fetches ++ [.sentryError err,
      .send ("An error occurred while processing this request (Error ID `"
        ++ env.sentryError err ++ "`)")]
  | (fetches, .ok (permLevel, premiumLevel)) =>
    fetches ++ afterAuthorization env cmd options data permLevel premiumLevel

/-- The function `executeCommand` (lines 32-256). -/
def executeCommand (env : Env) (registry : String → Option Command) (data : Interaction) :
    Result :=
  match lookupCommand env registry data with
  | (looked, .error err) => ⟨false, false, some err, looked, none⟩
  | (looked, .ok cmd0) =>
    match descend cmd0 data.Options with
    | .error err => ⟨false, false, some err, looked, none⟩
    | .ok (cmd, options) =>
      match contextDenial cmd.Properties (currentContext data) with
      | some message => ⟨false, false, none, looked ++ [.send message], none⟩
      | none =>
        ⟨cmd.Properties.DisableAutoDefer, cmd.Properties.DefaultEphemeral, none, looked,
          some (dispatchUnit env cmd options data)⟩

/-- The properties of the on-call command (`impl/tickets/oncall.go`, lines 25-35). -/
def OnCallCommand : Command :=
  .mk { Name := "on-call", PermissionLevel := .Support, Children := [],
        PremiumOnly := false, AdminOnly := false, HelperOnly := false,
        DefaultEphemeral := true, Timeout := 8, IgnoreBlacklist := false, Contexts := [],
        DisableAutoDefer := false }

/-! ## Observations on traces -/

/-- Whether the event is a call of the command handler. -/
def Event.isCallCommand : Event → Bool
  | .callCommand _ _ => true
  | _ => false

/-- Whether the event is a call of `interactionContext.Reply`. -/
def Event.isReply : Event → Bool
  | .reply _ _ _ _ => true
  | _ => false

/-- Whether the event is a value sent on the response channel by `executeCommand`. -/
def Event.isSend : Event → Bool
  | .send _ => true
  | .sendEmbed _ _ => true
  | _ => false

/-- Whether the event is a call of the premium-tier or the permission-level provider. -/
def Event.isProviderCall : Event → Bool
  | .getTierByGuildId _ => true
  | .getPermissionLevel _ _ => true
  | _ => false

/-- Whether the event is a call of a collaborator consulted by a gate. -/
def Event.isGateCall : Event → Bool
  | .isGuildBlacklisted _ => true
  | .isBotAdmin _ => true
  | .isBotHelper _ => true
  | .isBlacklisted => true
  | .isUserBlacklisted _ => true
  | _ => false

/-- Whether the event is a call of `interactionContext.IsBlacklisted`. -/
def Event.isBlacklistedCall : Event → Bool
  | .isBlacklisted => true
  | _ => false

/-- How often the handler is called in a trace. -/
def handlerCalls (trace : List Event) : Nat :=
  trace.countP Event.isCallCommand

/-- The conditions of the six gates of lines 179-227, as conditions on the collaborators:
every gate lets the invocation through. -/
def gatesPass (env : Env) (cmd : Command) (data : Interaction)
    (permLevel : PermissionLevel) (premiumLevel : PremiumTier) : Prop :=
  (data.GuildId ≠ 0 → env.isGuildBlacklisted data.GuildId = false) ∧
  cmd.Properties.PermissionLevel.rank ≤ permLevel.rank ∧
  (cmd.Properties.AdminOnly = true → env.isBotAdmin data.UserId = true) ∧
  (cmd.Properties.HelperOnly = true → env.isBotHelper data.UserId = true) ∧
  (cmd.Properties.PremiumOnly = true → premiumLevel ≠ .None) ∧
  (cmd.Properties.IgnoreBlacklist = false → env.isBlacklisted data = .ok false)

/-- The collaborator calls made by the gates of lines 179-227 when every gate lets the
invocation through. -/
def passingGateCalls (cmd : Command) (data : Interaction) : List Event :=
  (if data.GuildId ≠ 0 then [Event.isGuildBlacklisted data.GuildId] else []) ++
  (if cmd.Properties.AdminOnly then [Event.isBotAdmin data.UserId] else []) ++
  (if cmd.Properties.HelperOnly then [Event.isBotHelper data.UserId] else []) ++
  (if cmd.Properties.IgnoreBlacklist then [] else [Event.isBlacklisted])


/-- The call made by the guild-blacklist gate (line 180): none without a guild id. -/
def guildBlacklistCalls (data : Interaction) : List Event :=
  if data.GuildId ≠ 0 then [Event.isGuildBlacklisted data.GuildId] else []

/-- The call made by the admin-only gate (line 190): none unless `AdminOnly` is set. -/
def adminOnlyCalls (cmd : Command) (data : Interaction) : List Event :=
  if cmd.Properties.AdminOnly then [Event.isBotAdmin data.UserId] else []

/-- The call made by the helper-only gate (line 195): none unless `HelperOnly` is set. -/
def helperOnlyCalls (cmd : Command) (data : Interaction) : List Event :=
  if cmd.Properties.HelperOnly then [Event.isBotHelper data.UserId] else []

/-! ## Concrete invocations -/

/-- A guild-only command that sets every flag: it needs `Support`, a bot admin, a bot
helper and a premium tier. -/
def exampleCommand : Command :=
  .mk { Name := "setup", PermissionLevel := .Support, Children := [],
        PremiumOnly := true, AdminOnly := true, HelperOnly := true,
        DefaultEphemeral := false, Timeout := 10, IgnoreBlacklist := false,
        Contexts := [.Guild], DisableAutoDefer := false }

/-- Collaborators that let everything through: the guild has tier `Premium`, the member
level `Support`, nobody is blacklisted, the actor is bot admin and bot helper, the handler
returns `nil`. -/
def exampleEnv : Env :=
  { confPremiumOnly := false, voteUrl := "https://vote.example", isWhitelabel := false,
    getByApplicationCommandId := fun _ _ => .ok none,
    getTierByGuildId := fun _ => .ok .Premium,
    getPermissionLevel := fun _ _ => .ok .Support,
    sentryError := fun _ => "e1",
    isGuildBlacklisted := fun _ => false,
    isBotAdmin := fun _ => true,
    isBotHelper := fun _ => true,
    isBlacklisted := fun _ => .ok false,
    isUserBlacklisted := fun _ => false,
    callCommand := fun _ _ => .ok }

/-- A registry that holds `exampleCommand` under its name. -/
def exampleRegistry : String → Option Command :=
  fun name => if name = "setup" then some exampleCommand else none

/-- An invocation of `setup` by member 1 (user 7) in guild 5. -/
def exampleData : Interaction :=
  { GuildId := 5, Member := some 1, UserId := 7, Name := "setup", Id := 1, Options := [] }

/-- A command without any requirement and without declared contexts. -/
def pingCommand : Command :=
  .mk { Name := "ping", PermissionLevel := .Everyone, Children := [],
        PremiumOnly := false, AdminOnly := false, HelperOnly := false,
        DefaultEphemeral := false, Timeout := 10, IgnoreBlacklist := false,
        Contexts := [], DisableAutoDefer := false }

/-- A registry that holds `pingCommand` under its name. -/
def pingRegistry : String → Option Command :=
  fun name => if name = "ping" then some pingCommand else none

/-- An invocation of `ping` by member 1 (user 7) in guild 5. -/
def pingData : Interaction :=
  { GuildId := 5, Member := some 1, UserId := 7, Name := "ping", Id := 2, Options := [] }

/-- The collaborators of `exampleEnv` in a process started with `PremiumOnly`, for a guild
without a premium tier. -/
def premiumOnlyEnv : Env :=
  { exampleEnv with confPremiumOnly := true, getTierByGuildId := fun _ => .ok .None }

/-- A command declared for direct messages only. -/
def directCommand : Command :=
  .mk { Name := "about", PermissionLevel := .Everyone, Children := [],
        PremiumOnly := false, AdminOnly := false, HelperOnly := false,
        DefaultEphemeral := false, Timeout := 10, IgnoreBlacklist := false,
        Contexts := [.BotDM], DisableAutoDefer := false }

/-- A registry that holds `directCommand` under its name. -/
def directRegistry : String → Option Command :=
  fun name => if name = "about" then some directCommand else none

/-- An invocation of `about` that carries guild id 5 but no member snapshot. -/
def memberlessData : Interaction :=
  { GuildId := 5, Member := none, UserId := 7, Name := "about", Id := 3, Options := [] }

/-- The collaborators of `exampleEnv` with every guild blacklisted. -/
def guildBlacklistedEnv : Env :=
  { exampleEnv with isGuildBlacklisted := fun _ => true }

/-- The collaborators of `exampleEnv` with an actor who is not a bot admin. -/
def notAdminEnv : Env :=
  { exampleEnv with isBotAdmin := fun _ => false }

/-- The collaborators of `exampleEnv` with a member resolved at `Everyone`. -/
def everyoneEnv : Env :=
  { exampleEnv with getPermissionLevel := fun _ _ => .ok .Everyone }

/-- A registry that holds the on-call command under its name. -/
def onCallRegistry : String → Option Command :=
  fun name => if name = "on-call" then some OnCallCommand else none

/-- An invocation of `on-call` by member 1 (user 7) in guild 5. -/
def onCallData : Interaction :=
  { GuildId := 5, Member := some 1, UserId := 7, Name := "on-call", Id := 4, Options := [] }

/-- The collaborators of `exampleEnv` with an actor reported blacklisted. -/
def userBlacklistedEnv : Env :=
  { exampleEnv with isBlacklisted := fun _ => .ok true }

/-- The collaborators of `exampleEnv` with a failing permission provider. -/
def failingPermissionEnv : Env :=
  { exampleEnv with getPermissionLevel := fun _ _ => .error (.external 1) }

/-- The collaborators of `exampleEnv` with a premium provider that times out. -/
def degradedPremiumEnv : Env :=
  { exampleEnv with getTierByGuildId := fun _ => .error .deadlineExceeded }

/-- The collaborators of `degradedPremiumEnv` in a process started with `PremiumOnly`. -/
def degradedPremiumOnlyEnv : Env :=
  { degradedPremiumEnv with confPremiumOnly := true }

/-! ## Further observations on traces -/

/-- Whether the event is a call of the tag-alias lookup. -/
def Event.isAliasLookup : Event → Bool
  | .getByApplicationCommandId _ _ => true
  | _ => false

/-- Whether the event is the closing of the response channel. -/
def Event.isClose : Event → Bool
  | .closeResponseCh => true
  | _ => false

/-- Whether the event is one of those the goroutine produces before line 229: a fetch, a
report to sentry, a message, a call of a gate collaborator, a `Reply` or a `HandleError`. -/
def Event.isPreHandler : Event → Bool
  | .sentryError _ => true
  | .send _ => true
  | .getTierByGuildId _ => true
  | .getPermissionLevel _ _ => true
  | .isGuildBlacklisted _ => true
  | .isBotAdmin _ => true
  | .isBotHelper _ => true
  | .isBlacklisted => true
  | .isUserBlacklisted _ => true
  | .reply _ _ _ _ => true
  | .handleError _ => true
  | _ => false

/-- A trace that consists of events of the kind `isPreHandler`, followed or not by the
trace `handler`. -/
def StopsOrReaches (handler trace : List Event) : Prop :=
  ∃ pre, (∀ e ∈ pre, e.isPreHandler = true) ∧ (trace = pre ∨ trace = pre ++ handler)

/-! ## Subcommand chains -/

/-- Lines 57-75 once more, with the number of times the loop body is entered. -/
def descendSteps (cmd : Command) :
    List CommandOption → Nat × Except Err (Command × List CommandOption)
  | [] => (0, .ok (cmd, []))
  | .mk name (some v) subOptions :: rest =>
    (0, .ok (cmd, .mk name (some v) subOptions :: rest))
  | .mk name none subOptions :: _ =>
    match findChild cmd.Properties.Children name with
    | none =>
      (1, .error (.text ("subcommand " ++ name ++ " does not exist for command "
        ++ cmd.Properties.Name)))
    | some child => ((descendSteps child subOptions).1 + 1, (descendSteps child subOptions).2)

/-- The option list of a chain of value-less first options: every level gives the name of
the first option and the options that follow it on its level; `final` are the options of
the last option of the chain. -/
def chainOptions : List (String × List CommandOption) → List CommandOption →
    List CommandOption
  | [], final => final
  | (name, siblings) :: levels, final =>
    .mk name none (chainOptions levels final) :: siblings

/-- An option list at which the descent stops: it is empty or its first option carries a
value. -/
def stopsDescent (options : List CommandOption) : Prop :=
  options = [] ∨ ∃ name v subOptions rest, options = .mk name (some v) subOptions :: rest

/-- The command `child` is the first child of `cmd`, in declared order, whose name is
`name`. -/
def IsFirstChildNamed (cmd : Command) (name : String) (child : Command) : Prop :=
  ∃ before after, cmd.Properties.Children = before ++ child :: after ∧
    child.Properties.Name = name ∧ ∀ c ∈ before, c.Properties.Name ≠ name

/-- The command `target` is reached from `cmd` by following, for every name of the list in
turn, the first child with that name. -/
def followsChain : Command → List String → Command → Prop
  | cmd, [], target => target = cmd
  | cmd, name :: names, target =>
    ∃ child, IsFirstChildNamed cmd name child ∧ followsChain child names target

/-- Every name of the list is the name of some child of the command resolved so far. -/
def chainMatches : Command → List String → Prop
  | _, [] => True
  | cmd, name :: names =>
    (∃ c ∈ cmd.Properties.Children, c.Properties.Name = name) ∧
    ∀ child, IsFirstChildNamed cmd name child → chainMatches child names

/-! ## Returned flags and further invocations -/

/-- Whether the caller should auto-defer an invocation of a command with these properties,
in the spec's words (`shouldAutoDefer`): it should, unless the descriptor disables the
auto-deferral. -/
def shouldAutoDefer (properties : Properties Command) : Bool :=
  ! properties.DisableAutoDefer

/-- The properties of the debug-server command (`impl/admin/debug/debugserver.go`,
lines 32-46). -/
def AdminDebugServerCommand : Command :=
  .mk { Name := "server", PermissionLevel := .Everyone, Children := [],
        PremiumOnly := false, AdminOnly := false, HelperOnly := true,
        DefaultEphemeral := false, Timeout := 10, IgnoreBlacklist := false, Contexts := [],
        DisableAutoDefer := true }

/-- A command group that has the debug-server command as its only child. -/
def debugGroupCommand : Command :=
  .mk { Name := "debug", PermissionLevel := .Everyone, Children := [AdminDebugServerCommand],
        PremiumOnly := false, AdminOnly := false, HelperOnly := false,
        DefaultEphemeral := true, Timeout := 10, IgnoreBlacklist := false, Contexts := [],
        DisableAutoDefer := false }

/-- A registry that holds `debugGroupCommand` under its name. -/
def debugRegistry : String → Option Command :=
  fun name => if name = "debug" then some debugGroupCommand else none

/-- An invocation of `debug server guild_id:1` by member 1 (user 7) in guild 5. -/
def debugServerData : Interaction :=
  { GuildId := 5, Member := some 1, UserId := 7, Name := "debug", Id := 5,
    Options := [.mk "server" none [.mk "guild_id" (some "1") []]] }

/-- An invocation of `debug user`, a subcommand that does not exist. -/
def debugUserData : Interaction :=
  { GuildId := 5, Member := some 1, UserId := 7, Name := "debug", Id := 5,
    Options := [.mk "user" none []] }

/-- An invocation of a command that is neither registered nor a tag alias. -/
def unknownData : Interaction :=
  { GuildId := 5, Member := some 1, UserId := 7, Name := "unknown", Id := 6, Options := [] }

/-- All events of an invocation, in order: those before `executeCommand` returns, then
those of the goroutine it started. -/
def Result.trace (r : Result) : List Event :=
  r.sync ++ r.unit.getD []

/-- The events that follow the first closing of the response channel in a trace. -/
def afterClose : List Event → List Event
  | [] => []
  | e :: rest => if e.isClose then rest else afterClose rest

/-- An invocation of `ping` that carries no member snapshot. -/
def memberlessPingData : Interaction :=
  { pingData with Member := none }

/-- The collaborators of `exampleEnv` with a handler that panics. -/
def panickingHandlerEnv : Env :=
  { exampleEnv with callCommand := fun _ _ => .panic }

/-! ## The dispatch unit with panics -/

/-- The events of a part of the goroutine, and whether that part ended in a panic. -/
structure Run where
  events : List Event
  panicked : Bool

/-- A part that makes no call. -/
def Run.done : Run :=
  ⟨[], false⟩

/-- A call followed by the rest of the part: the call is recorded; when it panics the part
ends there, in a panic, and the rest does not run. -/
def Run.step (panics : Event → Bool) (e : Event) (rest : Run) : Run :=
  if panics e then ⟨[e], true⟩ else ⟨e :: rest.events, rest.panicked⟩

/-- Events that have happened before a part runs. -/
def Run.after (pre : List Event) (rest : Run) : Run :=
  ⟨pre ++ rest.events, rest.panicked⟩

/-- The statement `defer close(responseCh)` (line 233) around what follows it: the close
runs when the body has returned or panicked, and a panic goes on after it. -/
def Run.deferClose (body : Run) : Run :=
  ⟨body.events ++ [.closeResponseCh], body.panicked⟩

/-- The deferred function of lines 120-125 around the body of the goroutine: `recover()`
ends a panic of the body. -/
def Run.deferRecover (body : Run) : Run :=
  ⟨body.events ++ (if body.panicked then [.recovered] else []), false⟩

/-- Lines 229-252, where every call may panic (`panics` tells which ones do). -/
def invokeHandlerRun (panics : Event → Bool) (env : Env) (cmd : Command)
    (options : List CommandOption) (data : Interaction) : Run :=
  .step panics (.incrementKey .KeySlashCommands) <|
  .step panics (.incrementKey .KeyCommands) <|
  .step panics (.logCommand data.Name) <|
  .deferClose <|
  .step panics (.callCommand cmd options) <|
    match env.callCommand cmd options with
    | .ok => .done
    | .error err =>
      if err = .argumentNotFound then
        if env.isWhitelabel then
          .step panics (.sendEmbed "Outdated Command"
            "This command registration is outdated. Please ask the server administrators to visit the whitelabel dashboard and press \"Create Slash Commands\" again.")
            .done
        else .step panics (.send "argument is missing") .done
      else .step panics (.handleError err) .done
    | .panic => ⟨[], true⟩

/-- Lines 205-252, where every call may panic. -/
def userBlacklistGateRun (panics : Event → Bool) (env : Env) (cmd : Command)
    (options : List CommandOption) (data : Interaction) : Run :=
  if ! cmd.Properties.IgnoreBlacklist then
    .step panics .isBlacklisted <|
    match env.isBlacklisted data with
    | .error err => .step panics (.handleError err) .done
    | .ok blacklisted =>
      if blacklisted then
        if data.GuildId = 0 then
          .step panics (.reply .Red .TitleBlacklisted .MessageUserBlacklisted []) .done
        else
          .step panics (.isUserBlacklisted data.UserId) <|
          (if env.isUserBlacklisted data.UserId then
            .step panics (.reply .Red .TitleBlacklisted .MessageUserBlacklisted []) .done
          else .step panics (.reply .Red .TitleBlacklisted .MessageBlacklisted []) .done)
      else invokeHandlerRun panics env cmd options data
  else invokeHandlerRun panics env cmd options data

/-- Lines 200-252, where every call may panic. -/
def premiumOnlyGateRun (panics : Event → Bool) (env : Env) (cmd : Command)
    (options : List CommandOption) (data : Interaction) (premiumLevel : PremiumTier) : Run :=
  if cmd.Properties.PremiumOnly && premiumLevel == .None then
    .step panics (.reply .Red .TitlePremiumOnly .MessagePremium
      ["https://www.patreon.com/ticketsbot-cloud", env.voteUrl]) .done
  else userBlacklistGateRun panics env cmd options data

/-- Lines 195-252, where every call may panic. -/
def helperOnlyGateRun (panics : Event → Bool) (env : Env) (cmd : Command)
    (options : List CommandOption) (data : Interaction) (premiumLevel : PremiumTier) : Run :=
  if cmd.Properties.HelperOnly then
    .step panics (.isBotHelper data.UserId) <|
    (if ! env.isBotHelper data.UserId then
      .step panics (.reply .Red .Error .MessageNoPermission []) .done
    else premiumOnlyGateRun panics env cmd options data premiumLevel)
  else premiumOnlyGateRun panics env cmd options data premiumLevel

/-- Lines 190-252, where every call may panic. -/
def adminOnlyGateRun (panics : Event → Bool) (env : Env) (cmd : Command)
    (options : List CommandOption) (data : Interaction) (premiumLevel : PremiumTier) : Run :=
  if cmd.Properties.AdminOnly then
    .step panics (.isBotAdmin data.UserId) <|
    (if ! env.isBotAdmin data.UserId then
      .step panics (.reply .Red .Error .MessageOwnerOnly []) .done
    else helperOnlyGateRun panics env cmd options data premiumLevel)
  else helperOnlyGateRun panics env cmd options data premiumLevel

/-- Lines 185-252, where every call may panic. -/
def permissionGateRun (panics : Event → Bool) (env : Env) (cmd : Command)
    (options : List CommandOption) (data : Interaction) (permLevel : PermissionLevel)
    (premiumLevel : PremiumTier) : Run :=
  if cmd.Properties.PermissionLevel.rank > permLevel.rank then
    .step panics (.reply .Red .Error .MessageNoPermission []) .done
  else adminOnlyGateRun panics env cmd options data premiumLevel

/-- Lines 179-252, where every call may panic. -/
def guildBlacklistGateRun (panics : Event → Bool) (env : Env) (cmd : Command)
    (options : List CommandOption) (data : Interaction) (permLevel : PermissionLevel)
    (premiumLevel : PremiumTier) : Run :=
  if data.GuildId ≠ 0 then
    .step panics (.isGuildBlacklisted data.GuildId) <|
    (if env.isGuildBlacklisted data.GuildId then
      .step panics (.reply .Red .TitleBlacklisted .MessageGuildBlacklisted []) .done
    else permissionGateRun panics env cmd options data permLevel premiumLevel)
  else permissionGateRun panics env cmd options data permLevel premiumLevel

/-- Lines 170-252, where every call may panic. -/
def afterAuthorizationRun (panics : Event → Bool) (env : Env) (cmd : Command)
    (options : List CommandOption) (data : Interaction) (permLevel : PermissionLevel)
    (premiumLevel : PremiumTier) : Run :=
  if premiumLevel == .None && env.confPremiumOnly then .done
  else guildBlacklistGateRun panics env cmd options data permLevel premiumLevel

/-- Lines 127-252, the body of the goroutine, where every call it makes may panic and the
join `group.Wait()` of a guild invocation may panic (`joinPanics`).  The two fetches run in
goroutines of the errgroup, not in this one: their events come first, as in `authorize`. -/
def dispatchBodyRun (panics : Event → Bool) (joinPanics : Bool) (env : Env) (cmd : Command)
    (options : List CommandOption) (data : Interaction) : Run :=
  if (data.GuildId ≠ 0 ∧ data.Member ≠ none) ∧ joinPanics = true then
    ⟨(authorize env data).1, true⟩
  else
    match authorize env data with
    | (fetches, .error err) =>
      .after fetches <|
      .step panics (.sentryError err) <|
      .step panics (.send ("An error occurred while processing this request (Error ID `"
        ++ env.sentryError err ++ "`)")) .done
    | (fetches, .ok (permLevel, premiumLevel)) =>
      .after fetches (afterAuthorizationRun panics env cmd options data permLevel premiumLevel)

/-- Lines 119-253: the goroutine, its body run under the deferred `recover()`. -/
def dispatchUnitRun (panics : Event → Bool) (joinPanics : Bool) (env : Env) (cmd : Command)
    (options : List CommandOption) (data : Interaction) : Run :=
  .deferRecover (dispatchBodyRun panics joinPanics env cmd options data)

/-- The events of a part followed by the recovery, when the part ended in a panic. -/
def Run.finished (r : Run) : List Event :=
  r.events ++ (if r.panicked then [.recovered] else [])

/-- A part that makes no handler call before it either ends or goes on as `handler`. -/
def RunStopsOrReaches (handler r : Run) : Prop :=
  ∃ pre, pre.countP Event.isCallCommand = 0 ∧ (r.events = pre ∨ r = Run.after pre handler)

/-- The calls that panic when the handler does: the handler calls. -/
def handlerPanics : Event → Bool :=
  Event.isCallCommand

/-! ## On-call role synchronisation (`impl/tickets/oncall.go`) -/

/-- A support team (`database.SupportTeam`), reduced to its id and its on-call role. -/
structure SupportTeam where
  Id : Nat
  OnCallRole : Option Nat
  deriving DecidableEq, Repr

/-- One call of a collaborator made by `assignOnCallRole`: `logic.CreateOnCallRole`, the
REST call `AddGuildMemberRole`, and the two setters `GuildMetadata.SetOnCallRole` and
`SupportTeam.SetOnCallRole` with the role they store (`none` for `nil`). -/
inductive RoleEvent where
  | createOnCallRole (team : Option SupportTeam)
  | addGuildMemberRole (guildId userId roleId : Nat)
  | setGuildOnCallRole (guildId : Nat) (role : Option Nat)
  | setTeamOnCallRole (teamId : Nat) (role : Option Nat)
  deriving DecidableEq, Repr

/-- Whether the event is a role creation. -/
def RoleEvent.isCreate : RoleEvent → Bool
  | .createOnCallRole _ => true
  | _ => false

/-- Whether the event is a role assignment. -/
def RoleEvent.isAssign : RoleEvent → Bool
  | .addGuildMemberRole _ _ _ => true
  | _ => false

/-- Whether the event is a call of the setter of the guild-wide on-call role. -/
def RoleEvent.isSetGuild : RoleEvent → Bool
  | .setGuildOnCallRole _ _ => true
  | _ => false

/-- Whether the event is a call of the setter of a team's on-call role. -/
def RoleEvent.isSetTeam : RoleEvent → Bool
  | .setTeamOnCallRole _ _ => true
  | _ => false

/-- The collaborators of `assignOnCallRole`.  A collaborator may answer differently each
time it is called: the first argument is the number of calls of it made before. -/
structure RoleEnv where
  /-- The call `logic.CreateOnCallRole(ctx, ctx, team)`: the id of the new role. -/
  createOnCallRole : Nat → Option SupportTeam → Except Err Nat
  /-- The call `ctx.Worker().AddGuildMemberRole(ctx, guildId, userId, roleId)`. -/
  addGuildMemberRole : Nat → Nat → Nat → Nat → Except Err Unit
  /-- The call `dbclient.Client.GuildMetadata.SetOnCallRole(ctx, guildId, nil)`. -/
  setGuildOnCallRole : Nat → Nat → Except Err Unit
  /-- The call `dbclient.Client.SupportTeam.SetOnCallRole(ctx, team.Id, nil)`. -/
  setTeamOnCallRole : Nat → Nat → Except Err Unit

/-- How one pass through the body of `assignOnCallRole` ends: with a return value (`none`
for `nil`), or with the recursive call of line 191. -/
inductive AttemptEnd where
  | returned (err : Option Err)
  | retry
  deriving DecidableEq, Repr

/-- Lines 181-189: the stored role id of the target is cleared, the guild-wide one when
`team` is `nil` and the one of the team otherwise. -/
def clearStoredRole (env : RoleEnv) (guildId : Nat) (team : Option SupportTeam)
    (history : List RoleEvent) : List RoleEvent × Except Err Unit :=
  match team with
  | none =>
    (history ++ [.setGuildOnCallRole guildId none],
      env.setGuildOnCallRole (history.countP RoleEvent.isSetGuild) guildId)
  | some t =>
    (history ++ [.setTeamOnCallRole t.Id none],
      env.setTeamOnCallRole (history.countP RoleEvent.isSetTeam) t.Id)

/-- Line 180: the variable `err` that `if err, ok := err.(request.RestError); ...`
declares.  It shadows the error of the assignment in both branches of that `if`: it is
the REST error itself when the type assertion succeeds, and the zero value
`request.RestError{}`, whose code is 0, when the error is no `request.RestError`. -/
def shadowedRestError : Err → Err
  | .rest code => .rest code
  | _ => .rest 0

/-- Lines 167-197: one pass through the body of `assignOnCallRole` after the check of the
attempt counter.  The role is created if there is none, then assigned; when the assignment
fails with the REST error 10011 (unknown role) the stored id is cleared and the function
calls itself; otherwise line 193 returns the variable `err` of line 180, not the error of
the assignment.  `history` are the calls made so far. -/
def attemptOnce (env : RoleEnv) (guildId userId : Nat) (roleId : Option Nat)
    (team : Option SupportTeam) (history : List RoleEvent) : List RoleEvent × AttemptEnd :=
  let created : List RoleEvent × Except Err Nat :=
    match roleId with
    | some id => (history, .ok id)
    | none =>
      (history ++ [.createOnCallRole team],
        env.createOnCallRole (history.countP RoleEvent.isCreate) team)
  match created with
  | (history1, .error err) => (history1, .returned (some err))
  | (history1, .ok id) =>
    match env.addGuildMemberRole (history1.countP RoleEvent.isAssign) guildId userId id with
    | .ok _ => (history1 ++ [.addGuildMemberRole guildId userId id], .returned none)
    | .error err =>
      if err = .rest 10011 then
        match clearStoredRole env guildId team
            (history1 ++ [.addGuildMemberRole guildId userId id]) with
        | (history2, .error err2) => (history2, .returned (some err2))
        | (history2, .ok _) => (history2, .retry)
      else
        (history1 ++ [.addGuildMemberRole guildId userId id],
          .returned (some (shadowedRestError err)))

/-- The function `assignOnCallRole` (lines 161-198): the calls it makes, after those of
`history`, and the error it returns (`none` for `nil`). -/
def assignOnCallRole (env : RoleEnv) (guildId userId : Nat) (roleId : Option Nat)
    (team : Option SupportTeam) (attempt : Int) (history : List RoleEvent) :
    List RoleEvent × Option Err :=
  if attempt ≥ 2 then (history, some (.text "reached retry limit"))
  else
    match attemptOnce env guildId userId roleId team history with
    | (history1, .returned err) => (history1, err)
    | (history1, .retry) => assignOnCallRole env guildId userId none team (attempt + 1) history1
termination_by (2 - attempt).toNat
decreasing_by
  omega

/-- Collaborators for which every role assignment fails with the REST error 10011 while
creations (role 100, 101, ...) and clears succeed. -/
def roleAlwaysMissingEnv : RoleEnv :=
  { createOnCallRole := fun n _ => .ok (100 + n),
    addGuildMemberRole := fun _ _ _ _ => .error (.rest 10011),
    setGuildOnCallRole := fun _ _ => .ok (),
    setTeamOnCallRole := fun _ _ => .ok () }

/-- Collaborators for which the first role assignment fails with the REST error 10011 and
the later ones succeed, while creations (role 100, 101, ...) and clears succeed. -/
def roleDeletedOnceEnv : RoleEnv :=
  { roleAlwaysMissingEnv with
    addGuildMemberRole := fun n _ _ _ => if n = 0 then .error (.rest 10011) else .ok () }

/-- Collaborators for which every role assignment fails with the REST error 50013
(missing permissions) while creations (role 100, 101, ...) and clears succeed. -/
def roleForbiddenEnv : RoleEnv :=
  { roleAlwaysMissingEnv with
    addGuildMemberRole := fun _ _ _ _ => .error (.rest 50013) }

/-- Collaborators for which every role assignment fails with an exceeded deadline, which
is no `request.RestError`, while creations (role 100, 101, ...) and clears succeed. -/
def roleTimeoutEnv : RoleEnv :=
  { roleAlwaysMissingEnv with
    addGuildMemberRole := fun _ _ _ _ => .error .deadlineExceeded }

/-- The collaborators of `degradedPremiumOnlyEnv` with a failing permission provider: both
fetches of a guild invocation fail, in a process started with `PremiumOnly`. -/
def bothFetchesFailingEnv : Env :=
  { degradedPremiumOnlyEnv with getPermissionLevel := fun _ _ => .error (.external 1) }

/-! ## The on-call command (`impl/tickets/oncall.go`, `Execute`) -/

/-- The `i18n` message identifiers used by the on-call command. -/
inductive OnCallMessage where
  | Error
  | Success
  | MessageOnCallChannelMode
  | MessageOnCallSuccess
  | MessageOnCallRemoveSuccess
  deriving DecidableEq, Repr

/-- One call made by `OnCallCommand.Execute`: the reads of lines 42-82, the calls made by
`assignOnCallRole` and the setters (`role`), the REST call `RemoveGuildMemberRole`, and
the calls `ctx.HandleError` and `ctx.Reply`. -/
inductive OnCallEvent where
  | settings
  | member
  | toggle (guildId userId : Nat)
  | getMemberTeamsWithMember (guildId userId : Nat)
  | getMulti (guildId : Nat) (teamIds : List Nat)
  | getGuildMetadata (guildId : Nat)
  | role (e : RoleEvent)
  | removeGuildMemberRole (guildId userId roleId : Nat)
  | handleError (err : Err)
  | reply (colour : Colour) (title content : OnCallMessage) (format : List String)
  deriving DecidableEq, Repr

/-- Whether the event is a call of `RemoveGuildMemberRole`. -/
def OnCallEvent.isRemove : OnCallEvent → Bool
  | .removeGuildMemberRole _ _ _ => true
  | _ => false

/-- Whether the event is a call of the setter of the guild-wide on-call role. -/
def OnCallEvent.isSetGuild : OnCallEvent → Bool
  | .role (.setGuildOnCallRole _ _) => true
  | _ => false

/-- Whether the event is a call of the setter of a team's on-call role. -/
def OnCallEvent.isSetTeam : OnCallEvent → Bool
  | .role (.setTeamOnCallRole _ _) => true
  | _ => false

/-- Whether the event is a call of `ctx.HandleError`. -/
def OnCallEvent.isHandleError : OnCallEvent → Bool
  | .handleError _ => true
  | _ => false

/-- Whether the event is a call of `ctx.Reply`. -/
def OnCallEvent.isReply : OnCallEvent → Bool
  | .reply _ _ _ _ => true
  | _ => false

/-- The collaborators of `OnCallCommand.Execute`.  `settings` is the field `UseThreads`
of `ctx.Settings()`; `toggle` returns the new on-call state; `getMemberTeamsWithMember`
returns `defaultTeam` and `teamIds`; `getMulti` returns the map `teams`; `getGuildMetadata`
returns the field `OnCallRole` of the metadata.  `removeGuildMemberRole` takes the number
of calls of it made before as its first argument, as the collaborators of `roles` do. -/
structure OnCallEnv where
  docsUrl : String
  settings : Except Err Bool
  member : Except Err Unit
  toggle : Nat → Nat → Except Err Bool
  getMemberTeamsWithMember : Nat → Nat → Except Err (Bool × List Nat)
  getMulti : Nat → List Nat → Except Err (Nat → Option SupportTeam)
  getGuildMetadata : Nat → Except Err (Option Nat)
  roles : RoleEnv
  removeGuildMemberRole : Nat → Nat → Nat → Nat → Except Err Unit

/-- Lines 114-126 and 145-156: the removal of the role `roleId` of one target from the
member.  The two copies of this code differ in the setter only: the one of the guild-wide
role when `team` is `nil` (lines 117-120), the one of the team otherwise (lines 147-150).
`trace` are the calls made so far; the flag tells whether `Execute` has returned. -/
def removeOnCallRole (env : OnCallEnv) (guildId userId roleId : Nat)
    (team : Option SupportTeam) (trace : List OnCallEvent) : List OnCallEvent × Bool :=
  match env.removeGuildMemberRole (trace.countP OnCallEvent.isRemove) guildId userId
      roleId with
  | .ok _ => (trace ++ [.removeGuildMemberRole guildId userId roleId], false)
  | .error err =>
    if err = .rest 10011 then
      match team with
      | none =>
        match env.roles.setGuildOnCallRole (trace.countP OnCallEvent.isSetGuild) guildId with
        | .error err2 =>
          (trace ++ [.removeGuildMemberRole guildId userId roleId,
            .role (.setGuildOnCallRole guildId none), .handleError err2], true)
        | .ok _ =>
          (trace ++ [.removeGuildMemberRole guildId userId roleId,
            .role (.setGuildOnCallRole guildId none)], false)
      | some t =>
        match env.roles.setTeamOnCallRole (trace.countP OnCallEvent.isSetTeam) t.Id with
        | .error err2 =>
          (trace ++ [.removeGuildMemberRole guildId userId roleId,
            .role (.setTeamOnCallRole t.Id none), .handleError err2], true)
        | .ok _ =>
          (trace ++ [.removeGuildMemberRole guildId userId roleId,
            .role (.setTeamOnCallRole t.Id none)], false)
    else
      (trace ++ [.removeGuildMemberRole guildId userId roleId, .handleError err], true)

/-- Lines 130-156: the loop over `teamIds` of the off-call path, from index `i` on. -/
def removeTeamRoles (env : OnCallEnv) (guildId userId : Nat)
    (teams : Nat → Option SupportTeam) :
    Nat → List Nat → List OnCallEvent → List OnCallEvent × Bool
  | _, [], trace => (trace, false)
  | i, teamId :: rest, trace =>
    if i ≥ 5 then (trace, false)
    else
      match teams teamId with
      | none => removeTeamRoles env guildId userId teams (i + 1) rest trace
      | some team =>
        match team.OnCallRole with
        | none => removeTeamRoles env guildId userId teams (i + 1) rest trace
        | some roleId =>
          if (removeOnCallRole env guildId userId roleId (some team) trace).2 then
            removeOnCallRole env guildId userId roleId (some team) trace
          else
            removeTeamRoles env guildId userId teams (i + 1) rest
              (removeOnCallRole env guildId userId roleId (some team) trace).1

/-- The reply of line 158. -/
def removeSuccessReply : OnCallEvent :=
  .reply .Green .Success .MessageOnCallRemoveSuccess []

/-- Line 158: the success reply, unless `Execute` has returned before. -/
def finishOffCall (r : List OnCallEvent × Bool) : List OnCallEvent :=
  if r.2 then r.1 else r.1 ++ [removeSuccessReply]

/-- Lines 111-127: the removal of the guild-wide role. -/
def removeDefaultRole (env : OnCallEnv) (guildId userId : Nat) (defaultTeam : Bool)
    (metadataOnCallRole : Option Nat) (trace : List OnCallEvent) :
    List OnCallEvent × Bool :=
  if defaultTeam then
    match metadataOnCallRole with
    | some roleId => removeOnCallRole env guildId userId roleId none trace
    | none => (trace, false)
  else (trace, false)

/-- Lines 110-158: the off-call path of `Execute`, after the calls of `trace`. -/
def offCallPath (env : OnCallEnv) (guildId userId : Nat) (defaultTeam : Bool)
    (metadataOnCallRole : Option Nat) (teamIds : List Nat)
    (teams : Nat → Option SupportTeam) (trace : List OnCallEvent) : List OnCallEvent :=
  if (removeDefaultRole env guildId userId defaultTeam metadataOnCallRole trace).2 then
    (removeDefaultRole env guildId userId defaultTeam metadataOnCallRole trace).1
  else
    finishOffCall (removeTeamRoles env guildId userId teams 0 teamIds
      (removeDefaultRole env guildId userId defaultTeam metadataOnCallRole trace).1)

/-- Lines 92-105: the loop over `teamIds` of the on-call path, from index `i` on. -/
def assignTeamRoles (env : RoleEnv) (guildId userId : Nat)
    (teams : Nat → Option SupportTeam) :
    Nat → List Nat → List RoleEvent → List RoleEvent × Option Err
  | _, [], history => (history, none)
  | i, teamId :: rest, history =>
    if i ≥ 5 then (history, none)
    else
      match teams teamId with
      | none => assignTeamRoles env guildId userId teams (i + 1) rest history
      | some team =>
        match assignOnCallRole env guildId userId team.OnCallRole (some team) 0 history with
        | (history1, some err) => (history1, some err)
        | (history1, none) => assignTeamRoles env guildId userId teams (i + 1) rest history1

/-- Lines 84-109: the on-call path of `Execute`, after the calls of `trace`. -/
def onCallPath (env : OnCallEnv) (guildId userId : Nat) (defaultTeam : Bool)
    (metadataOnCallRole : Option Nat) (teamIds : List Nat)
    (teams : Nat → Option SupportTeam) (trace : List OnCallEvent) : List OnCallEvent :=
  let first : List RoleEvent × Option Err :=
    if defaultTeam then
      assignOnCallRole env.roles guildId userId metadataOnCallRole none 0 []
    else ([], none)
  match first with
  | (history, some err) => trace ++ history.map .role ++ [.handleError err]
  | (history, none) =>
    match assignTeamRoles env.roles guildId userId teams 0 teamIds history with
    | (history1, some err) => trace ++ history1.map .role ++ [.handleError err]
    | (history1, none) =>
      trace ++ history1.map .role ++ [.reply .Green .Success .MessageOnCallSuccess []]

/-- The function `OnCallCommand.Execute` (lines 41-160) for the member `userId` of the
guild `guildId`. -/
def OnCallCommand.Execute (env : OnCallEnv) (guildId userId : Nat) : List OnCallEvent :=
  match env.settings with
  | .error err => [.settings, .handleError err]
  | .ok useThreads =>
    if !useThreads then
      [.settings, .reply .Red .Error .MessageOnCallChannelMode
        ["/on-call", env.docsUrl ++ "/features/thread-mode"]]
    else
      match env.member with
      | .error err => [.settings, .member, .handleError err]
      | .ok _ =>
        match env.toggle guildId userId with
        | .error err => [.settings, .member, .toggle guildId userId, .handleError err]
        | .ok onCall =>
          match env.getMemberTeamsWithMember guildId userId with
          | .error err =>
            [.settings, .member, .toggle guildId userId,
              .getMemberTeamsWithMember guildId userId, .handleError err]
          | .ok (defaultTeam, teamIds) =>
            match env.getMulti guildId teamIds with
            | .error err =>
              [.settings, .member, .toggle guildId userId,
                .getMemberTeamsWithMember guildId userId, .getMulti guildId teamIds,
                .handleError err]
            | .ok teams =>
              match env.getGuildMetadata guildId with
              | .error err =>
                [.settings, .member, .toggle guildId userId,
                  .getMemberTeamsWithMember guildId userId, .getMulti guildId teamIds,
                  .getGuildMetadata guildId, .handleError err]
              | .ok metadataOnCallRole =>
                if onCall then
                  onCallPath env guildId userId defaultTeam metadataOnCallRole teamIds teams
                    [.settings, .member, .toggle guildId userId,
                      .getMemberTeamsWithMember guildId userId, .getMulti guildId teamIds,
                      .getGuildMetadata guildId]
                else
                  offCallPath env guildId userId defaultTeam metadataOnCallRole teamIds
                    teams
                    [.settings, .member, .toggle guildId userId,
                      .getMemberTeamsWithMember guildId userId, .getMulti guildId teamIds,
                      .getGuildMetadata guildId]

/-- The targets of the off-call path in the words of the specification: the guild-wide
role when the member is in the default team and a guild-wide role id is recorded, then,
among the first five team ids, the teams that are found and have a role id recorded.  A
target is the team (`none` for the guild-wide role) and the recorded role id. -/
def offCallTargets (defaultTeam : Bool) (metadataOnCallRole : Option Nat)
    (teamIds : List Nat) (teams : Nat → Option SupportTeam) :
    List (Option SupportTeam × Nat) :=
  (if defaultTeam then
    match metadataOnCallRole with
    | some roleId => [(none, roleId)]
    | none => []
  else []) ++
  (teamIds.take 5).filterMap (fun teamId =>
    match teams teamId with
    | none => none
    | some team =>
      match team.OnCallRole with
      | none => none
      | some roleId => some (some team, roleId))

/-- The targets are processed in order, each by `removeOnCallRole`, until one of them
makes `Execute` return. -/
def processTargets (env : OnCallEnv) (guildId userId : Nat) :
    List (Option SupportTeam × Nat) → List OnCallEvent → List OnCallEvent × Bool
  | [], trace => (trace, false)
  | (team, roleId) :: rest, trace =>
    if (removeOnCallRole env guildId userId roleId team trace).2 then
      removeOnCallRole env guildId userId roleId team trace
    else
      processTargets env guildId userId rest
        (removeOnCallRole env guildId userId roleId team trace).1

/-- Whether a trace has no `HandleError` and no `Reply` yet. -/
def OnCallOpen (trace : List OnCallEvent) : Prop :=
  trace.countP OnCallEvent.isHandleError = 0 ∧ trace.countP OnCallEvent.isReply = 0

/-- What holds of a trace and the flag telling whether `Execute` has returned: no `Reply`
was made; with the flag, the last call is the only `HandleError`; without it, there is no
`HandleError`. -/
def OnCallSettled (r : List OnCallEvent × Bool) : Prop :=
  r.1.countP OnCallEvent.isReply = 0 ∧
  (r.2 = true → r.1.countP OnCallEvent.isHandleError = 1 ∧
    ∃ err, r.1.getLast? = some (.handleError err)) ∧
  (r.2 = false → r.1.countP OnCallEvent.isHandleError = 0)

/-- Collaborators of a guild whose guild-wide on-call role was deleted: the member is in
the default team and in the teams 1, 2 and 3; team 1 has the role 61, team 2 has none,
team 3 is not found; the guild-wide role 50 is recorded; the removal of role 50 fails
with the REST error 10011, every other call succeeds; the toggle returns off-call. -/
def staleGuildRoleEnv : OnCallEnv :=
  { docsUrl := "https://docs.example",
    settings := .ok true,
    member := .ok (),
    toggle := fun _ _ => .ok false,
    getMemberTeamsWithMember := fun _ _ => .ok (true, [1, 2, 3]),
    getMulti := fun _ _ => .ok (fun teamId =>
      if teamId = 1 then some ⟨1, some 61⟩
      else if teamId = 2 then some ⟨2, none⟩
      else none),
    getGuildMetadata := fun _ => .ok (some 50),
    roles := roleAlwaysMissingEnv,
    removeGuildMemberRole := fun _ _ _ roleId =>
      if roleId = 50 then .error (.rest 10011) else .ok () }

/-! ## Error replies (`bot/command/context/replyable.go`) -/

/-- The `i18n` message identifiers used by `HandleError` and `buildErrorResponse`. -/
inductive ErrorMessageId where
  | Error
  | MessageErrorUnknownChannel
  | MessageErrorUnknownGuild
  | MessageErrorUnknownMember
  | MessageErrorUnknownMessage
  | MessageErrorUnknownRole
  | MessageErrorUnknownUser
  | MessageErrorUnknownCategory
  | MessageErrorUnknownInteraction
  | MessageErrorMaxWebhooks
  | MessageErrorMaxChannels
  | MessageErrorInteractionAcknowledged
  | MessageErrorMissingPermissionsTitle
  | MessageErrorMissingPermissionsBody
  | MessageErrorMissingAccess
  | MessageErrorInvalidLength
  | MessageErrorRequiredField
  | MessageErrorInvalidChannelType
  | MessageErrorInvalidCategory
  | MessageErrorInvalidId
  | MessageErrorInvalidCharacters
  | MessageErrorInvalidChoice
  | MessageErrorInvalidForm
  | MessageErrorThreadLocked
  | MessageErrorMaxActiveThreads
  | MessageErrorMaxActiveAnnouncementThreads
  | MessageErrorRateLimitedGlobal
  | MessageErrorRateLimited
  | MessageErrorTimeout
  | MessageErrorGeneral
  | MessageErrorId
  deriving DecidableEq, Repr

/-- The struct `rateLimitResponse` (lines 37-41), without its message. -/
structure RateLimitResponse where
  RetryAfter : Rat
  Global : Bool
  deriving DecidableEq

/-- What `buildErrorResponse` reads of a `request.RestError`: `ApiError.Code`,
`ApiError.FirstErrorCode()`, `StatusCode`, the outcome of `json.Unmarshal(restError.Raw,
&rateLimit)` (`none` when it fails), and the text `restError.Error()`. -/
structure RestError where
  Code : Nat
  FirstErrorCode : String
  StatusCode : Nat
  RateLimit : Option RateLimitResponse
  Error : String
  deriving DecidableEq

/-- What `HandleError` and `buildErrorResponse` read of the `error` they get: its text
`err.Error()`, whether `errors.Is(err, ErrReplyLimitReached)` holds, the `RestError` that
`errors.As` finds (`none` when there is none), and whether
`errors.Is(err, context.DeadlineExceeded)` holds. -/
structure ErrorValue where
  Error : String
  IsReplyLimitReached : Bool
  AsRestError : Option RestError
  IsDeadlineExceeded : Bool
  deriving DecidableEq

/-- The collaborators of `HandleError`: the localisation `r.GetMessage`, the configured
URLs, `r.ctx.Worker().IsWhitelabel`, `sentry.ErrorWithContext` with the event id it
returns, `r.ctx.UserPermissionLevel`, `findMissingPermissions` (`none` when `r.ctx` is not
an `InteractionContext`; a permission is given by its name `perm.String()`), and
`formatTimestamp`, which reads the clock. -/
structure ReplyEnv where
  getMessage : ErrorMessageId → List String → String
  dashboardUrl : String
  docsUrl : String
  isWhitelabel : Bool
  errorWithContext : ErrorValue → String
  userPermissionLevel : Except Err PermissionLevel
  findMissingPermissions : Option (Except ErrorValue (List String))
  formatTimestamp : Rat → String

/-- The `command.MessageResponse` that `buildErrorResponse` returns: `Ephemeral` tells
that it was made by `command.NewEphemeralEmbedMessageResponse`; `Colour`, `Title` and
`Description` are the arguments of `buildEmbedRaw`; `InviteLink` tells whether the link
button to the support server was added. -/
structure MessageResponse where
  Ephemeral : Bool
  Colour : Colour
  Title : String
  Description : String
  InviteLink : Bool
  deriving DecidableEq, Repr

/-- One call made by `HandleError`. -/
inductive ReplyEvent where
  | errorWithContext (err : ErrorValue)
  | userPermissionLevel
  | replyWith (res : MessageResponse)
  deriving DecidableEq

/-- The method `formatDiscordError` (lines 307-311). -/
def Replyable.formatDiscordError (env : ReplyEnv) (restError : RestError)
    (eventId : String) : String :=
  env.getMessage .MessageErrorGeneral [] ++ ":\n```\n" ++
    restError.Error ++ "\n```\n" ++
    env.getMessage .MessageErrorId [] ++ ": `" ++ eventId ++ "`"

/-- Lines 212-233: the message for the REST errors 50001 and 50013. -/
def missingPermissionsMessage (env : ReplyEnv) : String :=
  match env.findMissingPermissions with
  | some (.ok missingPermissions) =>
    if missingPermissions.length > 0 then
      env.getMessage .MessageErrorMissingPermissionsTitle [] ++ ":\n" ++
        String.join (missingPermissions.map (fun perm => "* `" ++ perm ++ "`\n")) ++
        "\n" ++ env.getMessage .MessageErrorMissingPermissionsBody
          [env.docsUrl ++ "/miscellaneous/permissions-explained"]
    else
      env.getMessage .MessageErrorMissingAccess
        [env.docsUrl ++ "/miscellaneous/permissions-explained"]
  | some (.error _) =>
    env.getMessage .MessageErrorMissingAccess
      [env.docsUrl ++ "/miscellaneous/permissions-explained"]
  | none =>
    env.getMessage .MessageErrorMissingAccess
      [env.docsUrl ++ "/miscellaneous/permissions-explained"]

/-- Lines 234-254: the message for the REST error 50035 (invalid form body). -/
def invalidFormMessage (env : ReplyEnv) (restError : RestError) (eventId : String) :
    String :=
  if restError.FirstErrorCode = "BASE_TYPE_BAD_LENGTH" then
    env.getMessage .MessageErrorInvalidLength [env.dashboardUrl]
  else if restError.FirstErrorCode = "BASE_TYPE_REQUIRED" then
    env.getMessage .MessageErrorRequiredField [env.dashboardUrl]
  else if restError.FirstErrorCode = "CHANNEL_INVALID_TYPE" then
    env.getMessage .MessageErrorInvalidChannelType [env.dashboardUrl]
  else if restError.FirstErrorCode = "CHANNEL_PARENT_INVALID" then
    env.getMessage .MessageErrorInvalidCategory [env.dashboardUrl]
  else if restError.FirstErrorCode = "NUMBER_TYPE_COERCE" then
    env.getMessage .MessageErrorInvalidId [env.dashboardUrl]
  else if restError.FirstErrorCode = "STRING_TYPE_REGEX" then
    env.getMessage .MessageErrorInvalidCharacters []
  else if restError.FirstErrorCode = "UNION_TYPE_CHOICES" then
    env.getMessage .MessageErrorInvalidChoice [env.dashboardUrl]
  else
    env.getMessage .MessageErrorInvalidForm [] ++ "\n\n" ++
      Replyable.formatDiscordError env restError eventId

/-- Lines 261-275: the message for a REST error with status 429 (too many requests). -/
def rateLimitMessage (env : ReplyEnv) (restError : RestError) : String :=
  match restError.RateLimit with
  | some rateLimit =>
    if rateLimit.RetryAfter > 0 then
      if rateLimit.Global then
        env.getMessage .MessageErrorRateLimitedGlobal
          [env.formatTimestamp rateLimit.RetryAfter]
      else
        env.getMessage .MessageErrorRateLimited [env.formatTimestamp rateLimit.RetryAfter]
    else env.getMessage .MessageErrorRateLimited ["soon"]
  | none => env.getMessage .MessageErrorRateLimited ["soon"]

/-- Lines 188-278: the message for an error in which `errors.As` finds a `RestError`. -/
def restErrorMessage (env : ReplyEnv) (restError : RestError) (eventId : String) : String :=
  if restError.Code = 10003 then
    env.getMessage .MessageErrorUnknownChannel [env.dashboardUrl]
  else if restError.Code = 10004 then env.getMessage .MessageErrorUnknownGuild []
  else if restError.Code = 10007 then env.getMessage .MessageErrorUnknownMember []
  else if restError.Code = 10008 then env.getMessage .MessageErrorUnknownMessage []
  else if restError.Code = 10011 then
    env.getMessage .MessageErrorUnknownRole [env.dashboardUrl]
  else if restError.Code = 10013 then env.getMessage .MessageErrorUnknownUser []
  else if restError.Code = 10059 then
    env.getMessage .MessageErrorUnknownCategory [env.dashboardUrl]
  else if restError.Code = 10062 then env.getMessage .MessageErrorUnknownInteraction []
  else if restError.Code = 30007 then env.getMessage .MessageErrorMaxWebhooks []
  else if restError.Code = 30013 then env.getMessage .MessageErrorMaxChannels []
  else if restError.Code = 40060 then
    env.getMessage .MessageErrorInteractionAcknowledged []
  else if restError.Code = 50001 ∨ restError.Code = 50013 then
    missingPermissionsMessage env
  else if restError.Code = 50035 then invalidFormMessage env restError eventId
  else if restError.Code = 160005 then env.getMessage .MessageErrorThreadLocked []
  else if restError.Code = 160006 then env.getMessage .MessageErrorMaxActiveThreads []
  else if restError.Code = 160007 then
    env.getMessage .MessageErrorMaxActiveAnnouncementThreads []
  else if restError.StatusCode = 429 then rateLimitMessage env restError
  else Replyable.formatDiscordError env restError eventId

/-- Lines 184-282: the text `message` of `buildErrorResponse`. -/
def errorMessage (env : ReplyEnv) (err : ErrorValue) (eventId : String) : String :=
  match err.AsRestError with
  | some restError => restErrorMessage env restError eventId
  | none =>
    if err.IsDeadlineExceeded then env.getMessage .MessageErrorTimeout []
    else
      env.getMessage .MessageErrorGeneral [] ++ "\n" ++
        env.getMessage .MessageErrorId [] ++ ": `" ++ eventId ++ "`"

/-- The method `buildErrorResponse` (lines 183-305). -/
def Replyable.buildErrorResponse (env : ReplyEnv) (err : ErrorValue) (eventId : String)
    (includeInviteLink : Bool) : MessageResponse :=
  { Ephemeral := true, Colour := .Red, Title := env.getMessage .Error [],
    Description := errorMessage env err eventId, InviteLink := includeInviteLink }

/-- Line 226: the report to sentry that `buildErrorResponse` makes when
`findMissingPermissions` fails, for the REST errors 50001 and 50013. -/
def buildErrorReports (env : ReplyEnv) (err : ErrorValue) : List ReplyEvent :=
  match err.AsRestError with
  | some restError =>
    if restError.Code = 50001 ∨ restError.Code = 50013 then
      match env.findMissingPermissions with
      | some (.error err2) => [.errorWithContext err2]
      | _ => []
    else []
  | none => []

/-- Line 146: whether the invite link is shown. -/
def showInviteLink (env : ReplyEnv) : Bool :=
  !env.isWhitelabel &&
    (match env.userPermissionLevel with
      | .error _ => true
      | .ok permLevel => decide (permLevel.rank > PermissionLevel.Everyone.rank))

/-- The method `HandleError` (lines 131-151): the calls it makes.  The print of the debug
mode (lines 132-134) goes to the standard output of the process and is left out. -/
def Replyable.HandleError (env : ReplyEnv) (err : ErrorValue) : List ReplyEvent :=
  if err.IsReplyLimitReached then [.errorWithContext err]
  else
    [.errorWithContext err, .userPermissionLevel] ++ buildErrorReports env err ++
      [.replyWith
        (Replyable.buildErrorResponse env err (env.errorWithContext err) (showInviteLink env))]

/-- Whether the text `part` occurs in the text `whole`. -/
def occursIn (part : List Char) : List Char → Bool
  | [] => part.isPrefixOf []
  | c :: rest => part.isPrefixOf (c :: rest) || occursIn part rest

/-- Whether the text `part` occurs in the text `whole`. -/
def containsText (whole part : String) : Bool :=
  occursIn part.data whole.data

/-- Whether `buildErrorResponse` has a message of its own for the REST error: one of the
listed codes, the code 50035 with one of the listed first error codes, or the status
429. -/
def RestError.hasDedicatedMessage (restError : RestError) : Bool :=
  decide (restError.Code ∈ [10003, 10004, 10007, 10008, 10011, 10013, 10059, 10062, 30007,
    30013, 40060, 50001, 50013, 160005, 160006, 160007]) ||
  (decide (restError.Code = 50035) &&
    decide (restError.FirstErrorCode ∈ ["BASE_TYPE_BAD_LENGTH", "BASE_TYPE_REQUIRED",
      "CHANNEL_INVALID_TYPE", "CHANNEL_PARENT_INVALID", "NUMBER_TYPE_COERCE",
      "STRING_TYPE_REGEX", "UNION_TYPE_CHOICES"])) ||
  (decide (restError.Code ≠ 50035) && decide (restError.StatusCode = 429))

/-- Whether `buildErrorResponse` has a message of its own for the error: a REST error with
a dedicated message, or an exceeded deadline that is no REST error. -/
def ErrorValue.hasDedicatedMessage (err : ErrorValue) : Bool :=
  match err.AsRestError with
  | some restError => restError.hasDedicatedMessage
  | none => err.IsDeadlineExceeded

/-- The error with the texts `err.Error()` and `restError.Error()` replaced. -/
def ErrorValue.withText (err : ErrorValue) (text restText : String) : ErrorValue :=
  { err with
    Error := text,
    AsRestError := err.AsRestError.map (fun restError => { restError with Error := restText }) }

/-- Collaborators of `HandleError` in the main bot for an actor at level `Everyone`; every
error gets the event id `abc123`. -/
def exampleReplyEnv : ReplyEnv :=
  { getMessage := fun id _ =>
      match id with
      | .Error => "Error"
      | .MessageErrorTimeout => "The request timed out"
      | .MessageErrorGeneral => "An error occurred"
      | .MessageErrorId => "Error ID"
      | _ => "Something went wrong",
    dashboardUrl := "https://dashboard.example",
    docsUrl := "https://docs.example",
    isWhitelabel := false,
    errorWithContext := fun _ => "abc123",
    userPermissionLevel := .ok .Everyone,
    findMissingPermissions := none,
    formatTimestamp := fun _ => "<t:0:R>" }

/-- An exceeded deadline, as `context.DeadlineExceeded`. -/
def timeoutError : ErrorValue :=
  { Error := "context deadline exceeded", IsReplyLimitReached := false,
    AsRestError := none, IsDeadlineExceeded := true }

/-- An error made by `errors.New`. -/
def plainError : ErrorValue :=
  { Error := "pq: connection refused", IsReplyLimitReached := false,
    AsRestError := none, IsDeadlineExceeded := false }

/-- A REST error with the code 50007, for which `buildErrorResponse` has no message of its
own, with the given text. -/
def unlistedRestError (text : String) : ErrorValue :=
  { Error := text, IsReplyLimitReached := false,
    AsRestError := some
      { Code := 50007, FirstErrorCode := "", StatusCode := 403, RateLimit := none,
        Error := text },
    IsDeadlineExceeded := false }

/-! ## Decimal identifiers (`strconv.ParseUint`, `fmt.Sprintf`, package `strings`) -/

/-- The character of a decimal digit `d < 10`. -/
def digitChar (d : Nat) : Char :=
  Char.ofNat (48 + d)

/-- The value of a decimal digit; `none` for any other character. -/
def digitValue (c : Char) : Option Nat :=
  if 48 ≤ c.toNat ∧ c.toNat ≤ 57 then some (c.toNat - 48) else none

/-- The loop of the decimal formatting: the digits of `n` are put in front of `acc`, the
last one first; `fuel` bounds the number of digits. -/
def formatDigits : Nat → Nat → List Char → List Char
  | 0, _, acc => acc
  | fuel + 1, n, acc =>
    if n < 10 then digitChar n :: acc
    else formatDigits fuel (n / 10) (digitChar (n % 10) :: acc)

/-- The text `fmt.Sprintf("%d", n)` for an unsigned `n`: its decimal digits, without a
sign and without leading zeros. -/
def formatUint (n : Nat) : String :=
  String.mk (formatDigits (n + 1) n [])

/-- The value of a text of decimal digits read after the value `acc`; `none` when a
character is no digit. -/
def parseDigits : List Char → Nat → Option Nat
  | [], acc => some acc
  | c :: rest, acc =>
    match digitValue c with
    | none => none
    | some d => parseDigits rest (acc * 10 + d)

/-- The call `strconv.ParseUint(s, 10, 64)`: the value of a non-empty text of decimal
digits that is below `2^64`; `none` stands for an error (`ErrSyntax` for the empty text, a
sign, an underscore or any other character that is no digit, `ErrRange` for a value that
does not fit 64 bits). -/
def ParseUint (s : String) : Option Nat :=
  if s.data = [] then none
  else
    match parseDigits s.data 0 with
    | none => none
    | some n => if n < 2 ^ 64 then some n else none

/-- The call `strings.HasPrefix(s, p)`. -/
def HasPrefix (s p : String) : Bool :=
  p.data.isPrefixOf s.data

/-- The replacement of every occurrence of the non-empty text `old` by `new`, the
occurrences being taken from the left without overlap; `skip` is the number of characters
still to drop of the occurrence just replaced. -/
def replaceAll (old new : List Char) : Nat → List Char → List Char
  | _, [] => []
  | skip + 1, _ :: rest => replaceAll old new skip rest
  | 0, c :: rest =>
    if old.isPrefixOf (c :: rest) then new ++ replaceAll old new (old.length - 1) rest
    else c :: replaceAll old new 0 rest

/-- The call `strings.Replace(s, old, new, -1)` for a non-empty `old`. -/
def Replace (s old new : String) : String :=
  String.mk (replaceAll old.data new.data 0 s.data)

/-! ## The button of the blacklist reason (`admindebug/server/blacklistreason.go`) -/

/-- The custom id that `AdminDebugServerCommand.Execute` puts on the button `View
Blacklist Reason` (`debugserver.go`, line 432). -/
def blacklistReasonCustomId (guildId : Nat) : String :=
  "admin_debug_blacklist_reason_" ++ formatUint guildId

/-- The matcher of `AdminDebugServerBlacklistReasonHandler` (lines 23-27): a
`FuncMatcher` that accepts a custom id by its beginning. -/
def AdminDebugServerBlacklistReasonHandler.Matcher (customId : String) : Bool :=
  HasPrefix customId "admin_debug_blacklist_reason_"

/-- Line 40 of `AdminDebugServerBlacklistReasonHandler.Execute`: the guild id read from
the custom id; `none` when `HandleError` gets the error of `ParseUint`. -/
def AdminDebugServerBlacklistReasonHandler.guildId (customId : String) : Option Nat :=
  ParseUint (Replace customId "admin_debug_blacklist_reason_" "")

/-! ## The admin blacklist command (`impl/admin/adminblacklist.go`) -/

/-- One call made by `AdminBlacklistCommand.Execute`.  `replyRaw` is `ctx.ReplyRaw` with
the colour red and the localized title `Error`; `replyWith` is `ctx.ReplyWith` with an
orange container titled `Admin - Blacklist`, ephemeral or not.  The worker `w` of
`getGuild` and `leaveGuild` is `none` for `ctx.Worker()` and the bot id for the context of
a whitelabel bot. -/
inductive BlacklistEvent where
  | replyRaw (content : String)
  | isBlacklisted (guildId : Nat)
  | replyWith (ephemeral : Bool) (content : String)
  | getBotByGuild (guildId : Nat)
  | getByBotId (botId : Nat)
  | getGuild (w : Option Nat) (guildId : Nat)
  | add (guildId : Nat) (reason : Option String) (ownerId realOwnerId : Option Nat)
  | addGuildToCache (guildId : Nat)
  | leaveGuild (w : Option Nat) (guildId : Nat)
  | handleError (err : Err)
  deriving DecidableEq, Repr

/-- Whether the event is a call of `ServerBlacklist.Add`. -/
def BlacklistEvent.isAdd : BlacklistEvent → Bool
  | .add _ _ _ _ => true
  | _ => false

/-- Whether the event is a call of `blacklist.AddGuildToCache`. -/
def BlacklistEvent.isAddGuildToCache : BlacklistEvent → Bool
  | .addGuildToCache _ => true
  | _ => false

/-- Whether the event is a call of `LeaveGuild`. -/
def BlacklistEvent.isLeaveGuild : BlacklistEvent → Bool
  | .leaveGuild _ _ => true
  | _ => false

/-- The collaborators of `AdminBlacklistCommand.Execute`.  `isBlacklisted` returns the
flag and the reason (its error is ignored by the code); `getBotByGuild` returns the bot id
and whether the guild is whitelabel; `getByBotId` returns the bot id of the whitelabel
bot; `getGuild` returns the owner id of the guild. -/
structure BlacklistEnv where
  isBlacklisted : Nat → Bool × Option String
  getBotByGuild : Nat → Except Err (Nat × Bool)
  getByBotId : Nat → Except Err Nat
  getGuild : Option Nat → Nat → Except Err Nat
  add : Nat → Option String → Option Nat → Option Nat → Except Err Unit
  leaveGuild : Option Nat → Nat → Except Err Unit

/-- Lines 53-62: the real owner id; the outer `none` stands for the return of line 59. -/
def parseRealOwnerId (realOwnerIdRaw : Option String) : Option (Option Nat) :=
  match realOwnerIdRaw with
  | some raw =>
    if raw ≠ "" then
      match ParseUint raw with
      | none => none
      | some parsed => some (some parsed)
    else some none
  | none => some none

/-- Lines 122-139: the text of the success reply. -/
def blacklistSuccessMessage (guildId : Nat) (reason : Option String)
    (ownerId realOwnerId : Option Nat) : String :=
  "Guild has been blacklisted successfully.\n\n" ++
    String.intercalate "\n"
      (["**Guild ID:** `" ++ formatUint guildId ++ "`",
        "**Reason:** " ++ reason.getD "No reason provided"] ++
      [match ownerId with
        | some owner =>
          "**Server Owner:** <@" ++ formatUint owner ++ "> (`" ++ formatUint owner ++ "`)"
        | none => "**Server Owner:** Unknown (bot not in server)"] ++
      (match realOwnerId with
        | some owner =>
          ["**Real Owner:** <@" ++ formatUint owner ++ "> (`" ++ formatUint owner ++ "`)"]
        | none => []))

/-- Lines 103-150: with the worker `w`, the owner is fetched, the record is added, the
cache is updated, the reply is made and the guild is left. -/
def blacklistAndLeave (env : BlacklistEnv) (w : Option Nat) (guildId : Nat)
    (reason : Option String) (realOwnerId : Option Nat) : List BlacklistEvent :=
  let ownerId : Option Nat :=
    match env.getGuild w guildId with
    | .ok owner => some owner
    | .error _ => none
  match env.add guildId reason ownerId realOwnerId with
  | .error err =>
    [.getGuild w guildId, .add guildId reason ownerId realOwnerId, .handleError err]
  | .ok _ =>
    [.getGuild w guildId, .add guildId reason ownerId realOwnerId,
      .addGuildToCache guildId,
      .replyWith false (blacklistSuccessMessage guildId reason ownerId realOwnerId)] ++
    (if ownerId.isSome then
      match env.leaveGuild w guildId with
      | .error err => [.leaveGuild w guildId, .handleError err]
      | .ok _ => [.leaveGuild w guildId]
    else [])

/-- Lines 64-101: the check of the blacklist and the choice of the worker, then lines
103-150. -/
def checkAndBlacklist (env : BlacklistEnv) (guildId : Nat) (reason : Option String)
    (realOwnerId : Option Nat) : List BlacklistEvent :=
  if (env.isBlacklisted guildId).1 then
    [.isBlacklisted guildId,
      .replyWith true
        ("Guild is already blacklisted.\n\n**Guild ID:** `" ++ formatUint guildId ++
          "`\n**Reason**: `" ++ (env.isBlacklisted guildId).2.getD "No reason provided" ++
          "`")]
  else
    match env.getBotByGuild guildId with
    | .error err => [.isBlacklisted guildId, .getBotByGuild guildId, .handleError err]
    | .ok (botId, isWhitelabel) =>
      if isWhitelabel then
        match env.getByBotId botId with
        | .error err =>
          [.isBlacklisted guildId, .getBotByGuild guildId, .getByBotId botId,
            .handleError err]
        | .ok bot =>
          [.isBlacklisted guildId, .getBotByGuild guildId, .getByBotId botId] ++
            blacklistAndLeave env (some bot) guildId reason realOwnerId
      else
        [.isBlacklisted guildId, .getBotByGuild guildId] ++
          blacklistAndLeave env none guildId reason realOwnerId

/-- The function `AdminBlacklistCommand.Execute` (lines 46-150). -/
def AdminBlacklistCommand.Execute (env : BlacklistEnv) (guildIdRaw : String)
    (reason : Option String) (realOwnerIdRaw : Option String) : List BlacklistEvent :=
  match ParseUint guildIdRaw with
  | none => [.replyRaw "Invalid guild ID provided"]
  | some guildId =>
    match parseRealOwnerId realOwnerIdRaw with
    | none => [.replyRaw "Invalid real owner ID provided"]
    | some realOwnerId => checkAndBlacklist env guildId reason realOwnerId

/-- Whether the event is a call of `ServerBlacklist.Add`, of `blacklist.AddGuildToCache`
or of `LeaveGuild`. -/
def BlacklistEvent.isEffect (e : BlacklistEvent) : Bool :=
  e.isAdd || e.isAddGuildToCache || e.isLeaveGuild

/-- Collaborators for a guild of the main bot that is not blacklisted, is owned by user 9
and can be fetched; every call succeeds. -/
def exampleBlacklistEnv : BlacklistEnv :=
  { isBlacklisted := fun _ => (false, none),
    getBotByGuild := fun _ => .ok (0, false),
    getByBotId := fun botId => .ok botId,
    getGuild := fun _ _ => .ok 9,
    add := fun _ _ _ _ => .ok (),
    leaveGuild := fun _ _ => .ok () }

/-! ## Lemmas on the stages of the dispatch unit -/

theorem handlerCalls_append (xs ys : List Event) :
    handlerCalls (xs ++ ys) = handlerCalls xs + handlerCalls ys := by
  simp [handlerCalls]

theorem handlerCalls_invokeHandler (env : Env) (cmd : Command)
    (options : List CommandOption) (data : Interaction) :
    handlerCalls (invokeHandler env cmd options data) = 1 := by
  unfold invokeHandler
  cases env.callCommand cmd options
  · simp [handlerCalls, Event.isCallCommand, List.countP_cons]
  · simp only [handlerCalls]
    split_ifs <;> simp [Event.isCallCommand, List.countP_cons]
  · simp [handlerCalls, Event.isCallCommand, List.countP_cons]

theorem mem_invokeHandler (env : Env) (cmd : Command)
    (options : List CommandOption) (data : Interaction) :
    Event.callCommand cmd options ∈ invokeHandler env cmd options data := by
  simp [invokeHandler]

theorem handlerCalls_nil : handlerCalls [] = 0 := rfl

theorem handlerCalls_cons (e : Event) (es : List Event) :
    handlerCalls (e :: es) = handlerCalls es + (if e.isCallCommand = true then 1 else 0) := by
  simp [handlerCalls, List.countP_cons]

theorem handlerCalls_userBlacklistGate_le (env : Env) (cmd : Command)
    (options : List CommandOption) (data : Interaction) :
    handlerCalls (userBlacklistGate env cmd options data) ≤ 1 := by
  have hh := handlerCalls_invokeHandler env cmd options data
  unfold userBlacklistGate
  cases cmd.Properties.IgnoreBlacklist
  · cases env.isBlacklisted data with
    | error err => simp [handlerCalls_cons, handlerCalls_nil, Event.isCallCommand]
    | ok b =>
      cases b
      · simp [handlerCalls_cons, Event.isCallCommand, hh]
      · by_cases hg : data.GuildId = 0
        · simp [hg, handlerCalls_cons, handlerCalls_nil, Event.isCallCommand]
        · cases env.isUserBlacklisted data.UserId <;>
            simp [hg, handlerCalls_cons, handlerCalls_nil, Event.isCallCommand]
  · simp [hh]

theorem userBlacklistGate_pass (env : Env) (cmd : Command)
    (options : List CommandOption) (data : Interaction)
    (h : cmd.Properties.IgnoreBlacklist = false → env.isBlacklisted data = .ok false) :
    userBlacklistGate env cmd options data =
      (if cmd.Properties.IgnoreBlacklist then [] else [Event.isBlacklisted]) ++
        invokeHandler env cmd options data := by
  unfold userBlacklistGate
  cases hi : cmd.Properties.IgnoreBlacklist
  · simp [h hi]
  · simp

theorem userBlacklistGate_called (env : Env) (cmd : Command)
    (options : List CommandOption) (data : Interaction)
    (h : handlerCalls (userBlacklistGate env cmd options data) ≠ 0) :
    cmd.Properties.IgnoreBlacklist = false → env.isBlacklisted data = .ok false := by
  intro hi
  unfold userBlacklistGate at h
  cases hb : env.isBlacklisted data with
  | error err => simp [hi, hb, handlerCalls_cons, handlerCalls_nil, Event.isCallCommand] at h
  | ok b =>
    cases b
    · rfl
    · exfalso
      apply h
      by_cases hg : data.GuildId = 0
      · simp [hi, hb, hg, handlerCalls_cons, handlerCalls_nil, Event.isCallCommand]
      · cases env.isUserBlacklisted data.UserId <;>
          simp [hi, hb, hg, handlerCalls_cons, handlerCalls_nil, Event.isCallCommand]

theorem countP_guildBlacklistGate_le (p : Event → Bool) (env : Env) (cmd : Command)
    (options : List CommandOption) (data : Interaction) (permLevel : PermissionLevel)
    (premiumLevel : PremiumTier)
    (h1 : ∀ g, p (.isGuildBlacklisted g) = false) (h2 : ∀ u, p (.isBotAdmin u) = false)
    (h3 : ∀ u, p (.isBotHelper u) = false) (h4 : ∀ c t m f, p (.reply c t m f) = false) :
    (guildBlacklistGate env cmd options data permLevel premiumLevel).countP p ≤
      (userBlacklistGate env cmd options data).countP p := by
  have s5 : (premiumOnlyGate env cmd options data premiumLevel).countP p ≤
      (userBlacklistGate env cmd options data).countP p := by
    unfold premiumOnlyGate
    split_ifs
    · simp [List.countP_cons, h4]
    · exact le_rfl
  have s4 : (helperOnlyGate env cmd options data premiumLevel).countP p ≤
      (userBlacklistGate env cmd options data).countP p := by
    unfold helperOnlyGate
    split_ifs
    · simp [List.countP_cons, h3, h4]
    · simpa [List.countP_cons, h3] using s5
    · exact s5
  have s3 : (adminOnlyGate env cmd options data premiumLevel).countP p ≤
      (userBlacklistGate env cmd options data).countP p := by
    unfold adminOnlyGate
    split_ifs
    · simp [List.countP_cons, h2, h4]
    · simpa [List.countP_cons, h2] using s4
    · exact s4
  have s2 : (permissionGate env cmd options data permLevel premiumLevel).countP p ≤
      (userBlacklistGate env cmd options data).countP p := by
    unfold permissionGate
    split_ifs
    · simp [List.countP_cons, h4]
    · exact s3
  unfold guildBlacklistGate
  split_ifs
  · simp [List.countP_cons, h1, h4]
  · simpa [List.countP_cons, h1] using s2
  · exact s2

theorem handlerCalls_guildBlacklistGate_le (env : Env) (cmd : Command)
    (options : List CommandOption) (data : Interaction) (permLevel : PermissionLevel)
    (premiumLevel : PremiumTier) :
    handlerCalls (guildBlacklistGate env cmd options data permLevel premiumLevel) ≤ 1 :=
  le_trans
    (countP_guildBlacklistGate_le Event.isCallCommand env cmd options data permLevel
      premiumLevel (fun _ => rfl) (fun _ => rfl) (fun _ => rfl) (fun _ _ _ _ => rfl))
    (handlerCalls_userBlacklistGate_le env cmd options data)

theorem guildBlacklistGate_called (env : Env) (cmd : Command)
    (options : List CommandOption) (data : Interaction) (permLevel : PermissionLevel)
    (premiumLevel : PremiumTier)
    (h : handlerCalls (guildBlacklistGate env cmd options data permLevel premiumLevel) ≠ 0) :
    gatesPass env cmd data permLevel premiumLevel := by
  have e1 : data.GuildId ≠ 0 → env.isGuildBlacklisted data.GuildId = false := by
    intro hg
    cases hb : env.isGuildBlacklisted data.GuildId
    · rfl
    · exfalso
      apply h
      unfold guildBlacklistGate
      simp [hg, hb, handlerCalls_cons, handlerCalls_nil, Event.isCallCommand]
  have c2 : handlerCalls (permissionGate env cmd options data permLevel premiumLevel) ≠ 0 := by
    unfold guildBlacklistGate at h
    by_cases hg : data.GuildId = 0
    · simpa [hg] using h
    · simpa [hg, e1 hg, handlerCalls_cons, Event.isCallCommand] using h
  have e2 : cmd.Properties.PermissionLevel.rank ≤ permLevel.rank := by
    by_contra hlt
    apply c2
    unfold permissionGate
    simp [Nat.lt_of_not_le hlt, handlerCalls_cons, handlerCalls_nil, Event.isCallCommand]
  have c3 : handlerCalls (adminOnlyGate env cmd options data premiumLevel) ≠ 0 := by
    unfold permissionGate at c2
    simpa [Nat.not_lt.mpr e2] using c2
  have e3 : cmd.Properties.AdminOnly = true → env.isBotAdmin data.UserId = true := by
    intro hA
    cases hb : env.isBotAdmin data.UserId
    · exfalso
      apply c3
      unfold adminOnlyGate
      simp [hA, hb, handlerCalls_cons, handlerCalls_nil, Event.isCallCommand]
    · rfl
  have c4 : handlerCalls (helperOnlyGate env cmd options data premiumLevel) ≠ 0 := by
    unfold adminOnlyGate at c3
    cases hA : cmd.Properties.AdminOnly
    · simpa [hA] using c3
    · simpa [hA, e3 hA, handlerCalls_cons, Event.isCallCommand] using c3
  have e4 : cmd.Properties.HelperOnly = true → env.isBotHelper data.UserId = true := by
    intro hH
    cases hb : env.isBotHelper data.UserId
    · exfalso
      apply c4
      unfold helperOnlyGate
      simp [hH, hb, handlerCalls_cons, handlerCalls_nil, Event.isCallCommand]
    · rfl
  have c5 : handlerCalls (premiumOnlyGate env cmd options data premiumLevel) ≠ 0 := by
    unfold helperOnlyGate at c4
    cases hH : cmd.Properties.HelperOnly
    · simpa [hH] using c4
    · simpa [hH, e4 hH, handlerCalls_cons, Event.isCallCommand] using c4
  have e5 : cmd.Properties.PremiumOnly = true → premiumLevel ≠ .None := by
    intro hP ht
    apply c5
    unfold premiumOnlyGate
    simp [hP, ht, handlerCalls_cons, handlerCalls_nil, Event.isCallCommand]
  have c6 : handlerCalls (userBlacklistGate env cmd options data) ≠ 0 := by
    unfold premiumOnlyGate at c5
    cases hP : cmd.Properties.PremiumOnly
    · simpa [hP] using c5
    · have := e5 hP
      cases premiumLevel <;> simp_all
  exact ⟨e1, e2, e3, e4, e5, userBlacklistGate_called env cmd options data c6⟩

theorem countP_afterAuthorization_le (p : Event → Bool) (env : Env) (cmd : Command)
    (options : List CommandOption) (data : Interaction) (permLevel : PermissionLevel)
    (premiumLevel : PremiumTier)
    (h1 : ∀ g, p (.isGuildBlacklisted g) = false) (h2 : ∀ u, p (.isBotAdmin u) = false)
    (h3 : ∀ u, p (.isBotHelper u) = false) (h4 : ∀ c t m f, p (.reply c t m f) = false) :
    (afterAuthorization env cmd options data permLevel premiumLevel).countP p ≤
      (userBlacklistGate env cmd options data).countP p := by
  unfold afterAuthorization
  split_ifs
  · simp
  · exact countP_guildBlacklistGate_le p env cmd options data permLevel premiumLevel
      h1 h2 h3 h4

theorem guildBlacklistGate_pass (env : Env) (cmd : Command)
    (options : List CommandOption) (data : Interaction) (permLevel : PermissionLevel)
    (premiumLevel : PremiumTier) (h : gatesPass env cmd data permLevel premiumLevel) :
    guildBlacklistGate env cmd options data permLevel premiumLevel =
      passingGateCalls cmd data ++ invokeHandler env cmd options data := by
  obtain ⟨h1, h2, h3, h4, h5, h6⟩ := h
  have hu := userBlacklistGate_pass env cmd options data h6
  unfold guildBlacklistGate permissionGate adminOnlyGate helperOnlyGate premiumOnlyGate
    passingGateCalls
  rw [hu]
  have hp : ¬ cmd.Properties.PermissionLevel.rank > permLevel.rank := Nat.not_lt.mpr h2
  by_cases hg : data.GuildId = 0 <;>
  cases hA : cmd.Properties.AdminOnly <;> cases hH : cmd.Properties.HelperOnly <;>
  cases hP : cmd.Properties.PremiumOnly <;>
  simp_all

/-! ## Lemmas on `executeCommand` -/

theorem contextListed_iff (contexts : List InteractionContextType)
    (current : InteractionContextType) :
    contextListed contexts current = true ↔ current ∈ contexts := by
  unfold contextListed
  rw [List.any_eq_true]
  constructor
  · rintro ⟨x, hx, hxe⟩
    have : x = current := by simpa using hxe
    exact this ▸ hx
  · intro h
    exact ⟨current, h, by simp⟩

theorem contextDenial_eq_none_iff (properties : Properties Command)
    (current : InteractionContextType) :
    contextDenial properties current = none ↔
      (properties.Contexts ≠ [] ∧ current ∈ properties.Contexts) ∨
      (properties.Contexts = [] ∧ current ≠ .BotDM) := by
  unfold contextDenial
  cases hc : properties.Contexts with
  | nil => by_cases hd : current = .BotDM <;> simp [hd]
  | cons c cs =>
    have hl := contextListed_iff (c :: cs) current
    by_cases hm : current ∈ c :: cs
    · have : contextListed (c :: cs) current = true := hl.mpr hm
      simp [this, hm]
    · have : contextListed (c :: cs) current = false := by
        cases hx : contextListed (c :: cs) current
        · rfl
        · exact absurd (hl.mp hx) hm
      by_cases hd : current = .BotDM
      · subst hd
        simp [this, hm]
      · simp [this, hm, hd]

theorem executeCommand_unit (env : Env) (registry : String → Option Command)
    (data : Interaction) (u : List Event)
    (hu : (executeCommand env registry data).unit = some u) :
    ∃ cmd0 cmd options,
      (lookupCommand env registry data).2 = .ok cmd0 ∧
      descend cmd0 data.Options = .ok (cmd, options) ∧
      contextDenial cmd.Properties (currentContext data) = none ∧
      u = dispatchUnit env cmd options data := by
  unfold executeCommand at hu
  rcases hl : lookupCommand env registry data with ⟨looked, _ | cmd0⟩
  · simp [hl] at hu
  · rcases hd : descend cmd0 data.Options with _ | ⟨cmd, options⟩
    · simp [hl, hd] at hu
    · cases hc : contextDenial cmd.Properties (currentContext data) with
      | some message => simp [hl, hd, hc] at hu
      | none =>
        simp [hl, hd, hc] at hu
        exact ⟨cmd0, cmd, options, rfl, hd, hc, hu.symm⟩

theorem executeCommand_resolved (env : Env) (registry : String → Option Command)
    (data : Interaction) (cmd0 cmd : Command) (options : List CommandOption)
    (hl : (lookupCommand env registry data).2 = .ok cmd0)
    (hd : descend cmd0 data.Options = .ok (cmd, options)) :
    executeCommand env registry data =
      match contextDenial cmd.Properties (currentContext data) with
      | some message =>
        ⟨false, false, none, (lookupCommand env registry data).1 ++ [.send message], none⟩
      | none =>
        ⟨cmd.Properties.DisableAutoDefer, cmd.Properties.DefaultEphemeral, none,
          (lookupCommand env registry data).1, some (dispatchUnit env cmd options data)⟩ := by
  unfold executeCommand
  rcases hl2 : lookupCommand env registry data with ⟨looked, _ | c⟩
  · simp [hl2] at hl
  · simp only [hl2, Except.ok.injEq] at hl
    subst hl
    simp only [hd]

theorem handlerCalls_passingGateCalls (cmd : Command) (data : Interaction) :
    handlerCalls (passingGateCalls cmd data) = 0 := by
  unfold passingGateCalls
  by_cases hg : data.GuildId = 0 <;>
  cases cmd.Properties.AdminOnly <;> cases cmd.Properties.HelperOnly <;>
  cases cmd.Properties.IgnoreBlacklist <;>
  simp [hg, handlerCalls_cons, handlerCalls_nil, Event.isCallCommand]

theorem handlerCalls_fetchPremium (env : Env) (guildId : Nat) :
    handlerCalls (fetchPremium env guildId).1 = 0 := by
  unfold fetchPremium
  cases env.getTierByGuildId guildId <;>
    simp [handlerCalls_cons, handlerCalls_nil, Event.isCallCommand]

theorem handlerCalls_authorize (env : Env) (data : Interaction) :
    handlerCalls (authorize env data).1 = 0 := by
  have hf := handlerCalls_fetchPremium env data.GuildId
  unfold authorize
  cases data.Member with
  | none => simp [handlerCalls_nil]
  | some member =>
    by_cases hg : data.GuildId = 0
    · simp [hg, handlerCalls_nil]
    · cases hp : env.getPermissionLevel member data.GuildId <;>
        simp [hg, hp, handlerCalls_append, hf, handlerCalls_cons, handlerCalls_nil,
          Event.isCallCommand]

theorem gatesPass_mono (env : Env) (cmd : Command) (data : Interaction)
    (L L' : PermissionLevel) (t' : PremiumTier) (hL : L.rank ≤ L'.rank)
    (h : gatesPass env cmd data L .None) : gatesPass env cmd data L' t' := by
  obtain ⟨h1, h2, h3, h4, h5, h6⟩ := h
  refine ⟨h1, le_trans h2 hL, h3, h4, ?_, h6⟩
  intro hp
  exact absurd rfl (h5 hp)

theorem afterAuthorization_called (env : Env) (cmd : Command)
    (options : List CommandOption) (data : Interaction) (permLevel : PermissionLevel)
    (premiumLevel : PremiumTier)
    (h : handlerCalls (afterAuthorization env cmd options data permLevel premiumLevel) ≠ 0) :
    ¬ (premiumLevel = .None ∧ env.confPremiumOnly = true) ∧
      gatesPass env cmd data permLevel premiumLevel := by
  unfold afterAuthorization at h
  by_cases hc : premiumLevel = .None ∧ env.confPremiumOnly = true
  · simp [hc.1, hc.2, handlerCalls_nil] at h
  · refine ⟨hc, guildBlacklistGate_called env cmd options data permLevel premiumLevel ?_⟩
    have : (premiumLevel == PremiumTier.None && env.confPremiumOnly) = false := by
      cases premiumLevel <;> cases hcp : env.confPremiumOnly <;> simp_all
    simpa [this] using h

theorem afterAuthorization_pass (env : Env) (cmd : Command)
    (options : List CommandOption) (data : Interaction) (permLevel : PermissionLevel)
    (premiumLevel : PremiumTier)
    (hc : ¬ (premiumLevel = .None ∧ env.confPremiumOnly = true))
    (h : gatesPass env cmd data permLevel premiumLevel) :
    afterAuthorization env cmd options data permLevel premiumLevel =
      passingGateCalls cmd data ++ invokeHandler env cmd options data := by
  unfold afterAuthorization
  have : (premiumLevel == PremiumTier.None && env.confPremiumOnly) = false := by
    cases premiumLevel <;> cases hcp : env.confPremiumOnly <;> simp_all
  simp only [this]
  exact guildBlacklistGate_pass env cmd options data permLevel premiumLevel h

theorem authorize_ok (env : Env) (data : Interaction) (permLevel : PermissionLevel)
    (premiumLevel : PremiumTier)
    (h : (authorize env data).2 = .ok (permLevel, premiumLevel)) :
    (data.GuildId ≠ 0 ∧ data.Member ≠ none →
      ∃ m, data.Member = some m ∧ env.getPermissionLevel m data.GuildId = .ok permLevel) ∧
    (data.GuildId = 0 ∨ data.Member = none → permLevel = .Everyone) ∧
    (premiumLevel = .None ∨ (data.GuildId ≠ 0 ∧ data.Member ≠ none ∧
      env.getTierByGuildId data.GuildId = .ok premiumLevel)) := by
  unfold authorize at h
  cases hm : data.Member with
  | none =>
    simp [hm] at h
    simp [h.1.symm, h.2.symm]
  | some member =>
    by_cases hg : data.GuildId = 0
    · simp [hm, hg] at h
      simp [hg, h.1.symm, h.2.symm]
    · cases hp : env.getPermissionLevel member data.GuildId with
      | error err => simp [hm, hg, hp] at h
      | ok res =>
        simp [hm, hg, hp] at h
        obtain ⟨h1, h2⟩ := h
        subst h1
        refine ⟨fun _ => ⟨member, rfl, hp⟩, ?_, ?_⟩
        · rintro (h0 | h0)
          · exact absurd h0 hg
          · cases h0
        · unfold fetchPremium at h2
          cases ht : env.getTierByGuildId data.GuildId with
          | error err => simp [ht] at h2; exact Or.inl h2.symm
          | ok tier => simp [ht] at h2; exact Or.inr ⟨hg, by simp, by rw [h2]⟩

/-- C1: if the goroutine started by `executeCommand` calls the handler, then the command
resolved, the handler called is the resolved one, the invocation context is allowed, the
guild (if there is a guild id) is not blacklisted, the permission level used is at least
the required one, `AdminOnly` implies a bot admin, `HelperOnly` a bot helper, `PremiumOnly`
a tier other than `None`, and unless `IgnoreBlacklist` the actor is reported not
blacklisted.  The level used is the one a successful fetch returned in a guild context and
`Everyone` otherwise; the tier is a fetched one or `None`.  Fail-closed: whatever is let
through with tier `None` and some level is let through with any tier and any level that is
not lower, so the defaults of a failed or skipped fetch never let more through. -/
theorem C1_handler_called_only_if_gates_hold (env : Env)
    (registry : String → Option Command) (data : Interaction) (u : List Event)
    (hu : (executeCommand env registry data).unit = some u)
    (hcall : handlerCalls u ≠ 0) :
    ∃ cmd0 cmd options permLevel premiumLevel,
      (lookupCommand env registry data).2 = .ok cmd0 ∧
      descend cmd0 data.Options = .ok (cmd, options) ∧
      Event.callCommand cmd options ∈ u ∧
      ((cmd.Properties.Contexts ≠ [] ∧ currentContext data ∈ cmd.Properties.Contexts) ∨
        (cmd.Properties.Contexts = [] ∧ currentContext data = .Guild)) ∧
      (data.GuildId ≠ 0 ∧ data.Member ≠ none →
        ∃ m, data.Member = some m ∧ env.getPermissionLevel m data.GuildId = .ok permLevel) ∧
      (data.GuildId = 0 ∨ data.Member = none → permLevel = .Everyone) ∧
      (premiumLevel = .None ∨ (data.GuildId ≠ 0 ∧ data.Member ≠ none ∧
        env.getTierByGuildId data.GuildId = .ok premiumLevel)) ∧
      u = (authorize env data).1 ++
        guildBlacklistGate env cmd options data permLevel premiumLevel ∧
      (data.GuildId ≠ 0 → env.isGuildBlacklisted data.GuildId = false) ∧
      cmd.Properties.PermissionLevel.rank ≤ permLevel.rank ∧
      (cmd.Properties.AdminOnly = true → env.isBotAdmin data.UserId = true) ∧
      (cmd.Properties.HelperOnly = true → env.isBotHelper data.UserId = true) ∧
      (cmd.Properties.PremiumOnly = true → premiumLevel ≠ .None) ∧
      (cmd.Properties.IgnoreBlacklist = false → env.isBlacklisted data = .ok false) ∧
      (∀ (L L' : PermissionLevel) (t' : PremiumTier), L.rank ≤ L'.rank →
        handlerCalls (afterAuthorization env cmd options data L .None) ≠ 0 →
        handlerCalls (afterAuthorization env cmd options data L' t') ≠ 0) := by
  obtain ⟨cmd0, cmd, options, hl, hd, hc, rfl⟩ := executeCommand_unit env registry data u hu
  have hctx := (contextDenial_eq_none_iff cmd.Properties (currentContext data)).mp hc
  have hcur : currentContext data ≠ .BotDM → currentContext data = .Guild := by
    unfold currentContext
    split_ifs <;> simp
  unfold dispatchUnit at hcall ⊢
  rcases ha : authorize env data with ⟨fetches, err | ⟨permLevel, premiumLevel⟩⟩
  · have h0 := handlerCalls_authorize env data
    simp [ha, handlerCalls_append, handlerCalls_cons, handlerCalls_nil,
      Event.isCallCommand] at hcall h0
    exact absurd h0 hcall
  · have h0 := handlerCalls_authorize env data
    simp only [ha, handlerCalls_append] at hcall h0
    have hcall2 :
        handlerCalls (afterAuthorization env cmd options data permLevel premiumLevel) ≠ 0 := by
      omega
    obtain ⟨hconf, hg⟩ := afterAuthorization_called env cmd options data _ _ hcall2
    have htrace := afterAuthorization_pass env cmd options data _ _ hconf hg
    have hgate := guildBlacklistGate_pass env cmd options data _ _ hg
    have hfacts := authorize_ok env data permLevel premiumLevel (by rw [ha])
    obtain ⟨g1, g2, g3, g4, g5, g6⟩ := hg
    refine ⟨cmd0, cmd, options, permLevel, premiumLevel, hl, hd, ?_, ?_, hfacts.1,
      hfacts.2.1, hfacts.2.2, ?_, g1, g2, g3, g4, g5, g6, ?_⟩
    · simp only [htrace]
      exact List.mem_append_right _ (List.mem_append_right _
        (mem_invokeHandler env cmd options data))
    · rcases hctx with h | h
      · exact Or.inl h
      · exact Or.inr ⟨h.1, hcur h.2⟩
    · simp only [htrace, hgate]
    · intro L L' t' hL hcalled
      obtain ⟨hconf1, hg1⟩ := afterAuthorization_called env cmd options data _ _ hcalled
      have hconf2 : ¬ (t' = .None ∧ env.confPremiumOnly = true) := by
        intro h
        exact hconf1 ⟨rfl, h.2⟩
      rw [afterAuthorization_pass env cmd options data L' t' hconf2
        (gatesPass_mono env cmd data L L' t' hL hg1), handlerCalls_append,
        handlerCalls_passingGateCalls, handlerCalls_invokeHandler]
      omega

theorem executeCommand_example :
    (executeCommand exampleEnv exampleRegistry exampleData).unit =
      some (dispatchUnit exampleEnv exampleCommand [] exampleData) := by
  simp [executeCommand, lookupCommand, exampleRegistry, exampleData, descend, contextDenial,
    currentContext, exampleCommand, Command.Properties, contextListed]

/-- C1 at a concrete invocation: `setup` in guild 5 reaches the handler. -/
theorem C1_witness :
    ∃ (cmd : Command) (options : List CommandOption) (permLevel : PermissionLevel),
      Event.callCommand cmd options ∈
        dispatchUnit exampleEnv exampleCommand [] exampleData ∧
      exampleEnv.getPermissionLevel 1 5 = .ok permLevel ∧
      cmd.Properties.PermissionLevel.rank ≤ permLevel.rank ∧
      (cmd.Properties.AdminOnly = true → exampleEnv.isBotAdmin 7 = true) := by
  have hc : handlerCalls (dispatchUnit exampleEnv exampleCommand [] exampleData) ≠ 0 := by
    decide
  obtain ⟨cmd0, cmd, options, permLevel, premiumLevel, -, -, h3, -, h5, -, -, -, -, h10,
      h11, -⟩ :=
    C1_handler_called_only_if_gates_hold exampleEnv exampleRegistry exampleData
      (dispatchUnit exampleEnv exampleCommand [] exampleData) executeCommand_example hc
  obtain ⟨m, hm, hp⟩ := h5 ⟨by decide, by decide⟩
  have hm1 : m = 1 := by
    have : some 1 = some m := hm
    exact (Option.some.inj this).symm
  subst hm1
  exact ⟨cmd, options, permLevel, h3, hp, h10, h11⟩

theorem not_isCallCommand_of_handlerCalls_eq_zero (xs : List Event)
    (h : handlerCalls xs = 0) : ∀ e ∈ xs, e.isCallCommand = true → False := by
  intro e he hc
  unfold handlerCalls at h
  rw [List.countP_eq_zero] at h
  exact h e he hc

theorem isCallCommand_invokeHandler (env : Env) (cmd : Command)
    (options : List CommandOption) (data : Interaction) :
    ∀ e ∈ invokeHandler env cmd options data, e.isCallCommand = true →
      e = .callCommand cmd options := by
  intro e he hc
  unfold invokeHandler at he
  cases hr : env.callCommand cmd options with
  | ok =>
    simp [hr] at he
    rcases he with h | h | h | h | h <;> simp_all [Event.isCallCommand]
  | panic =>
    simp [hr] at he
    rcases he with h | h | h | h | h | h <;> simp_all [Event.isCallCommand]
  | error err =>
    simp only [hr] at he
    by_cases h1 : err = .argumentNotFound
    · cases hw : env.isWhitelabel
      · simp [h1, hw] at he
        rcases he with h | h | h | h | h | h <;> simp_all [Event.isCallCommand]
      · simp [h1, hw] at he
        rcases he with h | h | h | h | h | h <;> simp_all [Event.isCallCommand]
    · simp [h1] at he
      rcases he with h | h | h | h | h | h <;> simp_all [Event.isCallCommand]

/-- C2 as stated fails: in a process started with the `PremiumOnly` flag, an invocation in
a guild without premium tier resolves, its permission fetch succeeds and all seven gate
conditions hold, yet the dispatch unit ends after the two fetches and the handler is not
called. -/
theorem C2_counterexample :
    (lookupCommand premiumOnlyEnv pingRegistry pingData).2 = .ok pingCommand ∧
    descend pingCommand pingData.Options = .ok (pingCommand, []) ∧
    pingData.GuildId ≠ 0 ∧ pingData.Member = some 1 ∧
    premiumOnlyEnv.getPermissionLevel 1 pingData.GuildId = .ok .Support ∧
    premiumOnlyEnv.getTierByGuildId pingData.GuildId = .ok .None ∧
    (pingCommand.Properties.Contexts = [] ∧ currentContext pingData = .Guild) ∧
    premiumOnlyEnv.isGuildBlacklisted pingData.GuildId = false ∧
    pingCommand.Properties.PermissionLevel.rank ≤ PermissionLevel.Support.rank ∧
    pingCommand.Properties.AdminOnly = false ∧
    pingCommand.Properties.HelperOnly = false ∧
    pingCommand.Properties.PremiumOnly = false ∧
    premiumOnlyEnv.isBlacklisted pingData = .ok false ∧
    (executeCommand premiumOnlyEnv pingRegistry pingData).unit =
      some [.getTierByGuildId 5, .getPermissionLevel 1 5] ∧
    handlerCalls [.getTierByGuildId 5, .getPermissionLevel 1 5] = 0 := by
  refine ⟨?_, ?_, by decide, rfl, rfl, rfl, ⟨rfl, by decide⟩, rfl, by decide, rfl, rfl, rfl,
    rfl, ?_, by decide⟩
  · simp [lookupCommand, pingRegistry, pingData]
  · simp [pingData, descend]
  · simp [executeCommand, lookupCommand, pingRegistry, pingData, descend, contextDenial,
      currentContext, pingCommand, Command.Properties, dispatchUnit, authorize,
      premiumOnlyEnv, exampleEnv, fetchPremium, afterAuthorization]

theorem handlerCalls_afterAuthorization_le (env : Env) (cmd : Command)
    (options : List CommandOption) (data : Interaction) (permLevel : PermissionLevel)
    (premiumLevel : PremiumTier) :
    handlerCalls (afterAuthorization env cmd options data permLevel premiumLevel) ≤ 1 := by
  unfold afterAuthorization
  split_ifs
  · simp [handlerCalls_nil]
  · exact handlerCalls_guildBlacklistGate_le env cmd options data permLevel premiumLevel

theorem handlerCalls_dispatchUnit_le (env : Env) (cmd : Command)
    (options : List CommandOption) (data : Interaction) :
    handlerCalls (dispatchUnit env cmd options data) ≤ 1 := by
  have h0 := handlerCalls_authorize env data
  unfold dispatchUnit
  rcases ha : authorize env data with ⟨fetches, err | ⟨permLevel, premiumLevel⟩⟩
  · simp only [ha] at h0
    simp [handlerCalls_append, h0, handlerCalls_cons, handlerCalls_nil, Event.isCallCommand]
  · simp only [ha] at h0
    have := handlerCalls_afterAuthorization_le env cmd options data permLevel premiumLevel
    simp only [handlerCalls_append, h0]
    omega

theorem authorize_of_facts (env : Env) (data : Interaction) (permLevel : PermissionLevel)
    (premiumLevel : PremiumTier)
    (h : (data.GuildId ≠ 0 ∧ ∃ m, data.Member = some m ∧
          env.getPermissionLevel m data.GuildId = .ok permLevel ∧
          (env.getTierByGuildId data.GuildId = .ok premiumLevel ∨
            (premiumLevel = .None ∧ ∃ err, env.getTierByGuildId data.GuildId = .error err))) ∨
        ((data.GuildId = 0 ∨ data.Member = none) ∧
          permLevel = .Everyone ∧ premiumLevel = .None)) :
    (authorize env data).2 = .ok (permLevel, premiumLevel) := by
  unfold authorize
  rcases h with ⟨hg, m, hm, hp, ht⟩ | ⟨hdm, hL, ht⟩
  · rcases ht with ht | ⟨ht0, err, ht⟩
    · simp [hm, hg, hp, fetchPremium, ht]
    · simp [hm, hg, hp, fetchPremium, ht, ht0]
  · subst hL
    subst ht
    cases hm : data.Member with
    | none => simp
    | some member =>
      rcases hdm with h0 | h0
      · simp [h0]
      · simp [hm] at h0

/-- C2, amended: the handler is called at most once in every run; and when the command
resolves, the facts are resolved (both fetches of a guild invocation answered, the premium
one possibly with an error, or a direct-message invocation), all seven gate conditions
hold and it is not the case that the process-wide `PremiumOnly` flag is set while the tier
is `None`, then the handler is called exactly once, and it is the resolved command with the
options left by the subcommand descent. -/
theorem C2_handler_called_once (env : Env) (registry : String → Option Command)
    (data : Interaction) :
    (∀ u, (executeCommand env registry data).unit = some u → handlerCalls u ≤ 1) ∧
    (∀ (cmd0 cmd : Command) (options : List CommandOption) (permLevel : PermissionLevel)
        (premiumLevel : PremiumTier),
      (lookupCommand env registry data).2 = .ok cmd0 →
      descend cmd0 data.Options = .ok (cmd, options) →
      ((data.GuildId ≠ 0 ∧ ∃ m, data.Member = some m ∧
          env.getPermissionLevel m data.GuildId = .ok permLevel ∧
          (env.getTierByGuildId data.GuildId = .ok premiumLevel ∨
            (premiumLevel = .None ∧ ∃ err, env.getTierByGuildId data.GuildId = .error err))) ∨
        ((data.GuildId = 0 ∨ data.Member = none) ∧
          permLevel = .Everyone ∧ premiumLevel = .None)) →
      ((cmd.Properties.Contexts ≠ [] ∧ currentContext data ∈ cmd.Properties.Contexts) ∨
        (cmd.Properties.Contexts = [] ∧ currentContext data = .Guild)) →
      (data.GuildId ≠ 0 → env.isGuildBlacklisted data.GuildId = false) →
      cmd.Properties.PermissionLevel.rank ≤ permLevel.rank →
      (cmd.Properties.AdminOnly = true → env.isBotAdmin data.UserId = true) →
      (cmd.Properties.HelperOnly = true → env.isBotHelper data.UserId = true) →
      (cmd.Properties.PremiumOnly = true → premiumLevel ≠ .None) →
      (cmd.Properties.IgnoreBlacklist = false → env.isBlacklisted data = .ok false) →
      ¬ (env.confPremiumOnly = true ∧ premiumLevel = .None) →
      ∃ u, (executeCommand env registry data).unit = some u ∧
        handlerCalls u = 1 ∧
        Event.callCommand cmd options ∈ u ∧
        ∀ e ∈ u, e.isCallCommand = true → e = .callCommand cmd options) := by
  refine ⟨?_, ?_⟩
  · intro u hu
    obtain ⟨cmd0, cmd, options, -, -, -, rfl⟩ := executeCommand_unit env registry data u hu
    exact handlerCalls_dispatchUnit_le env cmd options data
  · intro cmd0 cmd options permLevel premiumLevel hl hd hfacts hctx g1 g2 g3 g4 g5 g6 hconf
    have hc : contextDenial cmd.Properties (currentContext data) = none := by
      rw [contextDenial_eq_none_iff]
      rcases hctx with h | h
      · exact Or.inl h
      · exact Or.inr ⟨h.1, by rw [h.2]; decide⟩
    have hex := executeCommand_resolved env registry data cmd0 cmd options hl hd
    simp only [hc] at hex
    have ha := authorize_of_facts env data permLevel premiumLevel hfacts
    have h0 := handlerCalls_authorize env data
    have htrace := afterAuthorization_pass env cmd options data permLevel premiumLevel
      (fun h => hconf ⟨h.2, h.1⟩) ⟨g1, g2, g3, g4, g5, g6⟩
    have hunit : dispatchUnit env cmd options data =
        (authorize env data).1 ++ (passingGateCalls cmd data ++
          invokeHandler env cmd options data) := by
      unfold dispatchUnit
      rcases hx : authorize env data with ⟨fetches, err | ⟨p, t⟩⟩
      · simp [hx] at ha
      · simp only [hx, Except.ok.injEq, Prod.mk.injEq] at ha
        obtain ⟨rfl, rfl⟩ := ha
        simp only [htrace]
    refine ⟨dispatchUnit env cmd options data, by rw [hex], ?_, ?_, ?_⟩
    · rw [hunit, handlerCalls_append, handlerCalls_append, h0,
        handlerCalls_passingGateCalls, handlerCalls_invokeHandler]
    · rw [hunit]
      exact List.mem_append_right _ (List.mem_append_right _
        (mem_invokeHandler env cmd options data))
    · intro e he hcall
      rw [hunit] at he
      rcases List.mem_append.mp he with he | he
      · exact absurd hcall (fun h =>
          not_isCallCommand_of_handlerCalls_eq_zero _ h0 e he h)
      · rcases List.mem_append.mp he with he | he
        · exact absurd hcall (fun h =>
            not_isCallCommand_of_handlerCalls_eq_zero _
              (handlerCalls_passingGateCalls cmd data) e he h)
        · exact isCallCommand_invokeHandler env cmd options data e he hcall

/-- C3: the gates run in the order guild blacklist, permission level, admin-only,
helper-only, premium-only, user/guild blacklist.  When the first gate to deny is gate k,
the trace of the pipeline is the calls of the gates before k that consult a collaborator,
then the call of gate k, then exactly one `Reply`; no collaborator of a later gate and no
handler call follows. -/
theorem C3_gates_short_circuit (env : Env) (cmd : Command) (options : List CommandOption)
    (data : Interaction) (permLevel : PermissionLevel) (premiumLevel : PremiumTier) :
    (data.GuildId ≠ 0 → env.isGuildBlacklisted data.GuildId = true →
      guildBlacklistGate env cmd options data permLevel premiumLevel =
        [.isGuildBlacklisted data.GuildId,
          .reply .Red .TitleBlacklisted .MessageGuildBlacklisted []]) ∧
    ((data.GuildId ≠ 0 → env.isGuildBlacklisted data.GuildId = false) →
      permLevel.rank < cmd.Properties.PermissionLevel.rank →
      guildBlacklistGate env cmd options data permLevel premiumLevel =
        guildBlacklistCalls data ++ [.reply .Red .Error .MessageNoPermission []]) ∧
    ((data.GuildId ≠ 0 → env.isGuildBlacklisted data.GuildId = false) →
      cmd.Properties.PermissionLevel.rank ≤ permLevel.rank →
      cmd.Properties.AdminOnly = true → env.isBotAdmin data.UserId = false →
      guildBlacklistGate env cmd options data permLevel premiumLevel =
        guildBlacklistCalls data ++
          [.isBotAdmin data.UserId, .reply .Red .Error .MessageOwnerOnly []]) ∧
    ((data.GuildId ≠ 0 → env.isGuildBlacklisted data.GuildId = false) →
      cmd.Properties.PermissionLevel.rank ≤ permLevel.rank →
      (cmd.Properties.AdminOnly = true → env.isBotAdmin data.UserId = true) →
      cmd.Properties.HelperOnly = true → env.isBotHelper data.UserId = false →
      guildBlacklistGate env cmd options data permLevel premiumLevel =
        guildBlacklistCalls data ++ adminOnlyCalls cmd data ++
          [.isBotHelper data.UserId, .reply .Red .Error .MessageNoPermission []]) ∧
    ((data.GuildId ≠ 0 → env.isGuildBlacklisted data.GuildId = false) →
      cmd.Properties.PermissionLevel.rank ≤ permLevel.rank →
      (cmd.Properties.AdminOnly = true → env.isBotAdmin data.UserId = true) →
      (cmd.Properties.HelperOnly = true → env.isBotHelper data.UserId = true) →
      cmd.Properties.PremiumOnly = true → premiumLevel = .None →
      guildBlacklistGate env cmd options data permLevel premiumLevel =
        guildBlacklistCalls data ++ adminOnlyCalls cmd data ++ helperOnlyCalls cmd data ++
          [.reply .Red .TitlePremiumOnly .MessagePremium
            ["https://www.patreon.com/ticketsbot-cloud", env.voteUrl]]) ∧
    ((data.GuildId ≠ 0 → env.isGuildBlacklisted data.GuildId = false) →
      cmd.Properties.PermissionLevel.rank ≤ permLevel.rank →
      (cmd.Properties.AdminOnly = true → env.isBotAdmin data.UserId = true) →
      (cmd.Properties.HelperOnly = true → env.isBotHelper data.UserId = true) →
      (cmd.Properties.PremiumOnly = true → premiumLevel ≠ .None) →
      cmd.Properties.IgnoreBlacklist = false → env.isBlacklisted data = .ok true →
      guildBlacklistGate env cmd options data permLevel premiumLevel =
        guildBlacklistCalls data ++ adminOnlyCalls cmd data ++ helperOnlyCalls cmd data ++
          [.isBlacklisted] ++
          (if data.GuildId = 0 then [] else [.isUserBlacklisted data.UserId]) ++
          [.reply .Red .TitleBlacklisted
            (if data.GuildId = 0 ∨ env.isUserBlacklisted data.UserId = true
              then .MessageUserBlacklisted else .MessageBlacklisted) []]) := by
  unfold guildBlacklistGate permissionGate adminOnlyGate helperOnlyGate premiumOnlyGate
    userBlacklistGate guildBlacklistCalls adminOnlyCalls helperOnlyCalls
  refine ⟨?_, ?_, ?_, ?_, ?_, ?_⟩
  · intro hg hb
    simp [hg, hb]
  · intro h1 hp
    by_cases hg : data.GuildId = 0
    · simp [hg, hp]
    · simp [hg, h1 hg, hp]
  · intro h1 hp hA hba
    have hp2 : ¬ permLevel.rank < cmd.Properties.PermissionLevel.rank := Nat.not_lt.mpr hp
    by_cases hg : data.GuildId = 0
    · simp [hg, hp2, hA, hba]
    · simp [hg, h1 hg, hp2, hA, hba]
  · intro h1 hp h3 hH hbh
    have hp2 : ¬ permLevel.rank < cmd.Properties.PermissionLevel.rank := Nat.not_lt.mpr hp
    by_cases hg : data.GuildId = 0 <;> cases hA : cmd.Properties.AdminOnly <;>
      simp_all
  · intro h1 hp h3 h4 hP ht
    have hp2 : ¬ permLevel.rank < cmd.Properties.PermissionLevel.rank := Nat.not_lt.mpr hp
    by_cases hg : data.GuildId = 0 <;> cases hA : cmd.Properties.AdminOnly <;>
      cases hH : cmd.Properties.HelperOnly <;> simp_all
  · intro h1 hp h3 h4 h5 hI hb
    have hp2 : ¬ permLevel.rank < cmd.Properties.PermissionLevel.rank := Nat.not_lt.mpr hp
    by_cases hg : data.GuildId = 0 <;> cases hA : cmd.Properties.AdminOnly <;>
      cases hH : cmd.Properties.HelperOnly <;> cases hP : cmd.Properties.PremiumOnly <;>
      cases hu : env.isUserBlacklisted data.UserId <;> simp_all

theorem authorize_guild (env : Env) (data : Interaction) (m : Nat)
    (hg : data.GuildId ≠ 0) (hm : data.Member = some m) :
    authorize env data =
      match env.getPermissionLevel m data.GuildId with
      | .error err =>
        ((fetchPremium env data.GuildId).1 ++ [.getPermissionLevel m data.GuildId],
          .error err)
      | .ok res =>
        ((fetchPremium env data.GuildId).1 ++ [.getPermissionLevel m data.GuildId],
          .ok (res, (fetchPremium env data.GuildId).2)) := by
  unfold authorize
  cases hp : env.getPermissionLevel m data.GuildId <;> simp [hm, hg, hp]

theorem authorize_direct (env : Env) (data : Interaction)
    (h : data.GuildId = 0 ∨ data.Member = none) :
    authorize env data = ([], .ok (.Everyone, .None)) := by
  unfold authorize
  cases hm : data.Member with
  | none => rfl
  | some member =>
    rcases h with h | h
    · simp [h]
    · simp [hm] at h

/-- C4: in a guild invocation that resolves, passes the context check, gets a permission
level, is not stopped by the process-wide premium switch and whose guild is not
blacklisted: if the required level is above the resolved one, the dispatch unit ends with
the reply `MessageNoPermission` and the handler is not called; otherwise the permission
gate sends nothing and the unit goes on with the admin-only gate. -/
theorem C4_permission_gate (env : Env) (registry : String → Option Command)
    (data : Interaction) (cmd0 cmd : Command) (options : List CommandOption) (m : Nat)
    (permLevel : PermissionLevel)
    (hl : (lookupCommand env registry data).2 = .ok cmd0)
    (hd : descend cmd0 data.Options = .ok (cmd, options))
    (hg : data.GuildId ≠ 0) (hm : data.Member = some m)
    (hctx : cmd.Properties.Contexts = [] ∨
      InteractionContextType.Guild ∈ cmd.Properties.Contexts)
    (hp : env.getPermissionLevel m data.GuildId = .ok permLevel)
    (hconf : ¬ (env.confPremiumOnly = true ∧ (fetchPremium env data.GuildId).2 = .None))
    (hgb : env.isGuildBlacklisted data.GuildId = false) :
    (permLevel.rank < cmd.Properties.PermissionLevel.rank →
      ∃ u, (executeCommand env registry data).unit = some u ∧
        u = (fetchPremium env data.GuildId).1 ++
          [.getPermissionLevel m data.GuildId, .isGuildBlacklisted data.GuildId,
            .reply .Red .Error .MessageNoPermission []] ∧
        handlerCalls u = 0) ∧
    (cmd.Properties.PermissionLevel.rank ≤ permLevel.rank →
      (executeCommand env registry data).unit =
        some ((fetchPremium env data.GuildId).1 ++
          [.getPermissionLevel m data.GuildId, .isGuildBlacklisted data.GuildId] ++
          adminOnlyGate env cmd options data (fetchPremium env data.GuildId).2)) := by
  have hcur : currentContext data = .Guild := by
    unfold currentContext
    simp [hg, hm]
  have hc : contextDenial cmd.Properties (currentContext data) = none := by
    rw [contextDenial_eq_none_iff, hcur]
    rcases hctx with h | h
    · exact Or.inr ⟨h, by decide⟩
    · exact Or.inl ⟨List.ne_nil_of_mem h, h⟩
  have hex := executeCommand_resolved env registry data cmd0 cmd options hl hd
  simp only [hc] at hex
  have ha := authorize_guild env data m hg hm
  simp only [hp] at ha
  have hsw : ((fetchPremium env data.GuildId).2 == PremiumTier.None && env.confPremiumOnly)
      = false := by
    cases ht : (fetchPremium env data.GuildId).2 <;> cases hcp : env.confPremiumOnly <;>
      simp_all
  have hunit : dispatchUnit env cmd options data =
      (fetchPremium env data.GuildId).1 ++ [.getPermissionLevel m data.GuildId] ++
        (.isGuildBlacklisted data.GuildId ::
          permissionGate env cmd options data permLevel (fetchPremium env data.GuildId).2) := by
    unfold dispatchUnit
    simp only [ha]
    unfold afterAuthorization guildBlacklistGate
    simp [hsw, hg, hgb]
  have hf := handlerCalls_fetchPremium env data.GuildId
  refine ⟨?_, ?_⟩
  · intro hlt
    refine ⟨_, by rw [hex], ?_, ?_⟩
    · rw [hunit]
      unfold permissionGate
      simp [hlt]
    · rw [hunit]
      unfold permissionGate
      simp [hlt, handlerCalls_append, handlerCalls_cons, handlerCalls_nil, hf,
        Event.isCallCommand]
  · intro hle
    rw [hex]
    simp only [hunit]
    unfold permissionGate
    simp [Nat.not_lt.mpr hle]

/-- C5 as stated fails: an invocation with guild id 5 and no member snapshot is not in a
group context, yet for a command declared for direct messages the guild-blacklist gate
denies it when guild 5 is blacklisted. -/
theorem C5_counterexample :
    ¬ (memberlessData.GuildId ≠ 0 ∧ memberlessData.Member ≠ none) ∧
    (executeCommand guildBlacklistedEnv directRegistry memberlessData).unit =
      some [.isGuildBlacklisted 5,
        .reply .Red .TitleBlacklisted .MessageGuildBlacklisted []] := by
  refine ⟨by decide, ?_⟩
  simp [executeCommand, lookupCommand, directRegistry, memberlessData, descend,
    contextDenial, currentContext, directCommand, Command.Properties, contextListed,
    dispatchUnit, authorize, guildBlacklistedEnv, exampleEnv, afterAuthorization,
    guildBlacklistGate]

/-- C5, amended: for every invocation that reaches the gate pipeline, the guild-blacklist
gate denies exactly when the guild id is not 0 and that guild is blacklisted, whether or
not a member snapshot is present: then the unit ends with the reply
`MessageGuildBlacklisted` (not a user-blacklist message) and the handler is not called;
otherwise the unit goes on with the permission gate. -/
theorem C5_guild_blacklist_gate (env : Env) (registry : String → Option Command)
    (data : Interaction) (cmd0 cmd : Command) (options : List CommandOption)
    (fetches : List Event) (permLevel : PermissionLevel) (premiumLevel : PremiumTier)
    (hl : (lookupCommand env registry data).2 = .ok cmd0)
    (hd : descend cmd0 data.Options = .ok (cmd, options))
    (hc : contextDenial cmd.Properties (currentContext data) = none)
    (ha : authorize env data = (fetches, .ok (permLevel, premiumLevel)))
    (hconf : ¬ (env.confPremiumOnly = true ∧ premiumLevel = .None)) :
    (data.GuildId ≠ 0 ∧ env.isGuildBlacklisted data.GuildId = true →
      ∃ u, (executeCommand env registry data).unit = some u ∧
        u = fetches ++ [.isGuildBlacklisted data.GuildId,
          .reply .Red .TitleBlacklisted .MessageGuildBlacklisted []] ∧
        handlerCalls u = 0) ∧
    (¬ (data.GuildId ≠ 0 ∧ env.isGuildBlacklisted data.GuildId = true) →
      (executeCommand env registry data).unit =
        some (fetches ++ guildBlacklistCalls data ++
          permissionGate env cmd options data permLevel premiumLevel)) := by
  have hex := executeCommand_resolved env registry data cmd0 cmd options hl hd
  simp only [hc] at hex
  have hsw : (premiumLevel == PremiumTier.None && env.confPremiumOnly) = false := by
    cases premiumLevel <;> cases hcp : env.confPremiumOnly <;> simp_all
  have h0 := handlerCalls_authorize env data
  rw [ha] at h0
  have hunit : dispatchUnit env cmd options data =
      fetches ++ guildBlacklistGate env cmd options data permLevel premiumLevel := by
    unfold dispatchUnit
    simp only [ha]
    unfold afterAuthorization
    simp [hsw]
  refine ⟨?_, ?_⟩
  · rintro ⟨hg, hb⟩
    refine ⟨_, by rw [hex], ?_, ?_⟩
    · rw [hunit]
      unfold guildBlacklistGate
      simp [hg, hb]
    · rw [hunit]
      unfold guildBlacklistGate
      simp only [handlerCalls_append, h0]
      simp [hg, hb, handlerCalls_cons, handlerCalls_nil, Event.isCallCommand]
  · intro hn
    rw [hex, hunit]
    unfold guildBlacklistGate guildBlacklistCalls
    by_cases hg : data.GuildId = 0
    · simp [hg]
    · have hb : env.isGuildBlacklisted data.GuildId = false := by
        cases hb : env.isGuildBlacklisted data.GuildId
        · rfl
        · exact absurd ⟨hg, hb⟩ hn
      simp [hg, hb]

theorem isBlacklisted_not_mem_invokeHandler (env : Env) (cmd : Command)
    (options : List CommandOption) (data : Interaction) :
    Event.isBlacklisted ∉ invokeHandler env cmd options data := by
  unfold invokeHandler
  cases hr : env.callCommand cmd options with
  | ok => simp
  | panic => simp
  | error err =>
    by_cases h1 : err = .argumentNotFound
    · cases hw : env.isWhitelabel <;> simp [h1, hw]
    · simp [h1]

theorem isBlacklisted_not_mem_authorize (env : Env) (data : Interaction) :
    Event.isBlacklisted ∉ (authorize env data).1 := by
  unfold authorize fetchPremium
  cases hm : data.Member with
  | none => simp
  | some member =>
    by_cases hg : data.GuildId = 0
    · simp [hg]
    · cases hp : env.getPermissionLevel member data.GuildId <;>
        cases ht : env.getTierByGuildId data.GuildId <;> simp [hg, hp, ht]

/-- C6: with `IgnoreBlacklist` the user/guild blacklist gate is skipped and `IsBlacklisted`
is called nowhere in the dispatch unit.  Without it, an actor reported blacklisted gets
exactly one reply, `MessageUserBlacklisted` when there is no guild id or the actor is
blacklisted directly and the distinct `MessageBlacklisted` otherwise; an error of the lookup
is handed to `HandleError` and nothing else happens, so the handler is not called. -/
theorem C6_user_blacklist_gate (env : Env) (cmd : Command) (options : List CommandOption)
    (data : Interaction) :
    (cmd.Properties.IgnoreBlacklist = true →
      userBlacklistGate env cmd options data = invokeHandler env cmd options data ∧
      Event.isBlacklisted ∉ dispatchUnit env cmd options data) ∧
    (cmd.Properties.IgnoreBlacklist = false → env.isBlacklisted data = .ok true →
      userBlacklistGate env cmd options data =
        [.isBlacklisted] ++
        (if data.GuildId = 0 then [] else [.isUserBlacklisted data.UserId]) ++
        [.reply .Red .TitleBlacklisted
          (if data.GuildId = 0 ∨ env.isUserBlacklisted data.UserId = true
            then .MessageUserBlacklisted else .MessageBlacklisted) []]) ∧
    (∀ err, cmd.Properties.IgnoreBlacklist = false → env.isBlacklisted data = .error err →
      userBlacklistGate env cmd options data = [.isBlacklisted, .handleError err]) ∧
    MessageId.MessageUserBlacklisted ≠ MessageId.MessageBlacklisted := by
  refine ⟨?_, ?_, ?_, by decide⟩
  · intro hi
    have hgate : userBlacklistGate env cmd options data =
        invokeHandler env cmd options data := by
      unfold userBlacklistGate
      simp [hi]
    refine ⟨hgate, ?_⟩
    have h1 := isBlacklisted_not_mem_invokeHandler env cmd options data
    have h2 := isBlacklisted_not_mem_authorize env data
    have h3 : ∀ (L : PermissionLevel) (t : PremiumTier),
        Event.isBlacklisted ∉ afterAuthorization env cmd options data L t := by
      intro L t hmem
      have hpos : 0 < (afterAuthorization env cmd options data L t).countP
          Event.isBlacklistedCall :=
        List.countP_pos_iff.mpr ⟨_, hmem, rfl⟩
      have hle := countP_afterAuthorization_le Event.isBlacklistedCall env cmd options data
        L t (fun _ => rfl) (fun _ => rfl) (fun _ => rfl) (fun _ _ _ _ => rfl)
      rw [hgate] at hle
      obtain ⟨e, he, hp⟩ := List.countP_pos_iff.mp (lt_of_lt_of_le hpos hle)
      cases e <;> simp [Event.isBlacklistedCall] at hp
      exact h1 he
    unfold dispatchUnit
    rcases ha : authorize env data with ⟨fetches, err | ⟨permLevel, premiumLevel⟩⟩
    · rw [ha] at h2
      simpa using h2
    · rw [ha] at h2
      simp only [List.mem_append, not_or]
      exact ⟨h2, h3 permLevel premiumLevel⟩
  · intro hi hb
    unfold userBlacklistGate
    by_cases hg : data.GuildId = 0
    · simp [hi, hb, hg]
    · cases hu : env.isUserBlacklisted data.UserId <;> simp [hi, hb, hg, hu]
  · intro err hi hb
    unfold userBlacklistGate
    simp [hi, hb]

theorem countP_isSend_lookupCommand (env : Env) (registry : String → Option Command)
    (data : Interaction) :
    (lookupCommand env registry data).1.countP Event.isSend = 0 := by
  unfold lookupCommand
  cases registry data.Name with
  | some cmd => simp
  | none =>
    rcases hq : env.getByApplicationCommandId data.GuildId data.Id with err | (_ | tagCmd) <;>
      simp [Event.isSend, List.countP_cons]

/-- C7: the invocation is a direct message when the guild id is 0 or the member snapshot is
absent, and a guild invocation otherwise.  When the command declares contexts that do not
contain the current one, or declares none and the invocation is a direct message,
`executeCommand` sends exactly one message (`... in servers.` for a direct message,
`... in DMs.` otherwise), returns `(false, false, nil)` and starts no goroutine; in every
other case the goroutine is started. -/
theorem C7_context_gate (env : Env) (registry : String → Option Command)
    (data : Interaction) (cmd0 cmd : Command) (options : List CommandOption)
    (hl : (lookupCommand env registry data).2 = .ok cmd0)
    (hd : descend cmd0 data.Options = .ok (cmd, options)) :
    (currentContext data = .BotDM ↔ (data.GuildId = 0 ∨ data.Member = none)) ∧
    (currentContext data = .Guild ↔ ¬ (data.GuildId = 0 ∨ data.Member = none)) ∧
    (((cmd.Properties.Contexts ≠ [] ∧ currentContext data ∉ cmd.Properties.Contexts) ∨
        (cmd.Properties.Contexts = [] ∧ currentContext data = .BotDM)) →
      executeCommand env registry data =
        ⟨false, false, none,
          (lookupCommand env registry data).1 ++
            [.send (if currentContext data = .BotDM
              then "This command can only be used in servers."
              else "This command can only be used in DMs.")],
          none⟩ ∧
      (executeCommand env registry data).sync.countP Event.isSend = 1) ∧
    (¬ ((cmd.Properties.Contexts ≠ [] ∧ currentContext data ∉ cmd.Properties.Contexts) ∨
        (cmd.Properties.Contexts = [] ∧ currentContext data = .BotDM)) →
      (executeCommand env registry data).unit =
        some (dispatchUnit env cmd options data)) := by
  have hex := executeCommand_resolved env registry data cmd0 cmd options hl hd
  have hsend := countP_isSend_lookupCommand env registry data
  refine ⟨?_, ?_, ?_, ?_⟩
  · unfold currentContext
    split_ifs with h <;> simp [h]
  · unfold currentContext
    split_ifs with h <;> simp [h]
  · intro hden
    have hmsg : contextDenial cmd.Properties (currentContext data) =
        some (if currentContext data = .BotDM
          then "This command can only be used in servers."
          else "This command can only be used in DMs.") := by
      unfold contextDenial
      rcases hden with ⟨hne, hnm⟩ | ⟨he, hdm⟩
      · have hlen : cmd.Properties.Contexts.length > 0 := List.length_pos.mpr hne
        have hnl : contextListed cmd.Properties.Contexts (currentContext data) = false := by
          cases hx : contextListed cmd.Properties.Contexts (currentContext data)
          · rfl
          · exact absurd ((contextListed_iff _ _).mp hx) hnm
        by_cases hdm : currentContext data = .BotDM
        · have hnl2 := hnl
          rw [hdm] at hnl2
          simp [hlen, hnl2, hdm]
        · simp [hlen, hnl, hdm]
      · simp [he, hdm]
    simp only [hmsg] at hex
    refine ⟨hex, ?_⟩
    rw [hex]
    simp [List.countP_append, hsend, Event.isSend, List.countP_cons]
  · intro hnd
    have hc : contextDenial cmd.Properties (currentContext data) = none := by
      rw [contextDenial_eq_none_iff]
      by_cases he : cmd.Properties.Contexts = []
      · refine Or.inr ⟨he, fun hdm => hnd (Or.inr ⟨he, hdm⟩)⟩
      · refine Or.inl ⟨he, ?_⟩
        by_contra hnm
        exact hnd (Or.inl ⟨he, hnm⟩)
    simp only [hc] at hex
    rw [hex]

theorem isProviderCall_invokeHandler (env : Env) (cmd : Command)
    (options : List CommandOption) (data : Interaction) :
    (invokeHandler env cmd options data).countP Event.isProviderCall = 0 := by
  unfold invokeHandler
  cases hr : env.callCommand cmd options with
  | ok => simp [Event.isProviderCall, List.countP_cons]
  | panic => simp [Event.isProviderCall, List.countP_cons]
  | error err =>
    by_cases h1 : err = .argumentNotFound
    · cases hw : env.isWhitelabel <;> simp [h1, hw, Event.isProviderCall, List.countP_cons]
    · simp [h1, Event.isProviderCall, List.countP_cons]

theorem isProviderCall_userBlacklistGate (env : Env) (cmd : Command)
    (options : List CommandOption) (data : Interaction) :
    (userBlacklistGate env cmd options data).countP Event.isProviderCall = 0 := by
  have hh := isProviderCall_invokeHandler env cmd options data
  unfold userBlacklistGate
  cases cmd.Properties.IgnoreBlacklist
  · rcases hb : env.isBlacklisted data with err | (_ | _)
    · simp [Event.isProviderCall, List.countP_cons]
    · simp [Event.isProviderCall, List.countP_cons, hh]
    · by_cases hg : data.GuildId = 0
      · simp [hg, Event.isProviderCall, List.countP_cons]
      · cases env.isUserBlacklisted data.UserId <;>
          simp [hg, Event.isProviderCall, List.countP_cons]
  · simp [hh]

theorem isProviderCall_afterAuthorization (env : Env) (cmd : Command)
    (options : List CommandOption) (data : Interaction) (permLevel : PermissionLevel)
    (premiumLevel : PremiumTier) :
    (afterAuthorization env cmd options data permLevel premiumLevel).countP
      Event.isProviderCall = 0 :=
  Nat.eq_zero_of_le_zero
    (le_of_le_of_eq
      (countP_afterAuthorization_le Event.isProviderCall env cmd options data permLevel
        premiumLevel (fun _ => rfl) (fun _ => rfl) (fun _ => rfl) (fun _ _ _ _ => rfl))
      (isProviderCall_userBlacklistGate env cmd options data))

/-- C8: in a direct-message context (guild id 0 or no member snapshot) the facts are
`Everyone` and `None` with no fetch made, the dispatch unit is what follows the fetches at
these facts, and it calls neither the premium-tier nor the permission-level provider. -/
theorem C8_direct_message_facts (env : Env) (cmd : Command) (options : List CommandOption)
    (data : Interaction) (hdm : data.GuildId = 0 ∨ data.Member = none) :
    authorize env data = ([], .ok (.Everyone, .None)) ∧
    dispatchUnit env cmd options data =
      afterAuthorization env cmd options data .Everyone .None ∧
    (dispatchUnit env cmd options data).countP Event.isProviderCall = 0 ∧
    (∀ guildId, Event.getTierByGuildId guildId ∉ dispatchUnit env cmd options data) ∧
    (∀ member guildId,
      Event.getPermissionLevel member guildId ∉ dispatchUnit env cmd options data) := by
  have ha := authorize_direct env data hdm
  have hunit : dispatchUnit env cmd options data =
      afterAuthorization env cmd options data .Everyone .None := by
    unfold dispatchUnit
    simp [ha]
  have hcount : (dispatchUnit env cmd options data).countP Event.isProviderCall = 0 := by
    rw [hunit]
    exact isProviderCall_afterAuthorization env cmd options data .Everyone .None
  rw [List.countP_eq_zero] at hcount
  refine ⟨ha, hunit, List.countP_eq_zero.mpr hcount, ?_, ?_⟩
  · intro guildId hmem
    exact hcount _ hmem rfl
  · intro member guildId hmem
    exact hcount _ hmem rfl

theorem countP_fetchPremium (env : Env) (guildId : Nat) :
    (fetchPremium env guildId).1.countP Event.isSend = 0 ∧
    (fetchPremium env guildId).1.countP Event.isReply = 0 ∧
    (fetchPremium env guildId).1.countP Event.isGateCall = 0 := by
  unfold fetchPremium
  cases env.getTierByGuildId guildId <;>
    simp [Event.isSend, Event.isReply, Event.isGateCall, List.countP_cons]

/-- C9: in a guild invocation whose permission-level fetch returns an error, the dispatch
unit consists of the two fetches (the premium fetch reporting its own error to sentry, if
it has one), the report of the permission error to sentry and one message `An error
occurred while processing this request (Error ID ...)` carrying the id sentry returned;
whatever the premium fetch returned, exactly one message is sent, `Reply` is not called,
no gate collaborator is consulted and the handler is not called. -/
theorem C9_permission_fetch_error_aborts (env : Env) (cmd : Command)
    (options : List CommandOption) (data : Interaction) (m : Nat) (err : Err)
    (hg : data.GuildId ≠ 0) (hm : data.Member = some m)
    (hp : env.getPermissionLevel m data.GuildId = .error err) :
    (∀ tier, env.getTierByGuildId data.GuildId = .ok tier →
      dispatchUnit env cmd options data =
        [.getTierByGuildId data.GuildId, .getPermissionLevel m data.GuildId,
          .sentryError err,
          .send ("An error occurred while processing this request (Error ID `"
            ++ env.sentryError err ++ "`)")]) ∧
    (∀ e, env.getTierByGuildId data.GuildId = .error e →
      dispatchUnit env cmd options data =
        [.getTierByGuildId data.GuildId, .sentryError e,
          .getPermissionLevel m data.GuildId, .sentryError err,
          .send ("An error occurred while processing this request (Error ID `"
            ++ env.sentryError err ++ "`)")]) ∧
    (dispatchUnit env cmd options data).countP Event.isSend = 1 ∧
    (dispatchUnit env cmd options data).countP Event.isReply = 0 ∧
    (dispatchUnit env cmd options data).countP Event.isGateCall = 0 ∧
    handlerCalls (dispatchUnit env cmd options data) = 0 := by
  have ha := authorize_guild env data m hg hm
  simp only [hp] at ha
  have hunit : dispatchUnit env cmd options data =
      (fetchPremium env data.GuildId).1 ++
        [.getPermissionLevel m data.GuildId, .sentryError err,
          .send ("An error occurred while processing this request (Error ID `"
            ++ env.sentryError err ++ "`)")] := by
    unfold dispatchUnit
    simp [ha]
  obtain ⟨c1, c2, c3⟩ := countP_fetchPremium env data.GuildId
  have c4 := handlerCalls_fetchPremium env data.GuildId
  refine ⟨?_, ?_, ?_, ?_, ?_, ?_⟩
  · intro tier ht
    rw [hunit]
    simp [fetchPremium, ht]
  · intro e ht
    rw [hunit]
    simp [fetchPremium, ht]
  · rw [hunit, List.countP_append, c1]
    simp [Event.isSend, List.countP_cons]
  · rw [hunit, List.countP_append, c2]
    simp [Event.isReply, List.countP_cons]
  · rw [hunit, List.countP_append, c3]
    simp [Event.isGateCall, List.countP_cons]
  · rw [hunit, handlerCalls_append, c4]
    simp [handlerCalls_cons, handlerCalls_nil, Event.isCallCommand]

/-- C9 at a concrete invocation: the permission provider fails for member 1 of guild 5. -/
theorem C9_witness :
    (dispatchUnit failingPermissionEnv exampleCommand [] exampleData).countP Event.isSend = 1 ∧
    handlerCalls (dispatchUnit failingPermissionEnv exampleCommand [] exampleData) = 0 :=
  have h := C9_permission_fetch_error_aborts failingPermissionEnv exampleCommand []
    exampleData 1 (.external 1) (by decide) rfl rfl
  ⟨h.2.2.1, h.2.2.2.2.2⟩

/-- C10 as stated fails: with the process-wide `PremiumOnly` flag set, a premium fetch that
times out and a permission fetch that returns `Support`, the dispatch unit ends after the
fetches; no gate is evaluated, although the gates at level `Support` and tier `None` would
have let the invocation through to the handler. -/
theorem C10_counterexample :
    degradedPremiumOnlyEnv.getTierByGuildId pingData.GuildId = .error .deadlineExceeded ∧
    degradedPremiumOnlyEnv.getPermissionLevel 1 pingData.GuildId = .ok .Support ∧
    (executeCommand degradedPremiumOnlyEnv pingRegistry pingData).unit =
      some [.getTierByGuildId 5, .sentryError .deadlineExceeded, .getPermissionLevel 1 5] ∧
    handlerCalls
      (guildBlacklistGate degradedPremiumOnlyEnv pingCommand [] pingData .Support .None) = 1 := by
  refine ⟨rfl, rfl, ?_, by decide⟩
  simp [executeCommand, lookupCommand, pingRegistry, pingData, descend, contextDenial,
    currentContext, pingCommand, Command.Properties, dispatchUnit, authorize,
    degradedPremiumOnlyEnv, degradedPremiumEnv, exampleEnv, fetchPremium, afterAuthorization]

/-- C10, amended: in a guild invocation whose premium-tier fetch returns an error and whose
permission fetch returns level `L`, the error is reported to sentry, no message is sent for
it, and the rest of the dispatch unit runs with tier `None` and level `L`: it ends at once
when the process-wide `PremiumOnly` flag is set, and otherwise it is the gate pipeline at
these facts. -/
theorem C10_premium_fetch_error_defaults (env : Env) (cmd : Command)
    (options : List CommandOption) (data : Interaction) (m : Nat) (e : Err)
    (L : PermissionLevel)
    (hg : data.GuildId ≠ 0) (hm : data.Member = some m)
    (ht : env.getTierByGuildId data.GuildId = .error e)
    (hp : env.getPermissionLevel m data.GuildId = .ok L) :
    authorize env data =
      ([.getTierByGuildId data.GuildId, .sentryError e, .getPermissionLevel m data.GuildId],
        .ok (L, .None)) ∧
    dispatchUnit env cmd options data =
      [.getTierByGuildId data.GuildId, .sentryError e, .getPermissionLevel m data.GuildId] ++
      (if env.confPremiumOnly = true then []
        else guildBlacklistGate env cmd options data L .None) := by
  have ha := authorize_guild env data m hg hm
  simp only [hp] at ha
  have ha2 : authorize env data =
      ([.getTierByGuildId data.GuildId, .sentryError e, .getPermissionLevel m data.GuildId],
        .ok (L, .None)) := by
    rw [ha]
    simp [fetchPremium, ht]
  refine ⟨ha2, ?_⟩
  unfold dispatchUnit
  simp only [ha2]
  unfold afterAuthorization
  cases env.confPremiumOnly <;> simp

/-- C10 at a concrete invocation: the premium provider times out, the permission provider
returns `Support`, the flag `PremiumOnly` is not set. -/
theorem C10_witness :
    dispatchUnit degradedPremiumEnv pingCommand [] pingData =
      [.getTierByGuildId 5, .sentryError .deadlineExceeded, .getPermissionLevel 1 5] ++
      guildBlacklistGate degradedPremiumEnv pingCommand [] pingData .Support .None :=
  (C10_premium_fetch_error_defaults degradedPremiumEnv pingCommand [] pingData 1
    .deadlineExceeded .Support (by decide) rfl rfl rfl).2

theorem executeCommand_onCall_example :
    (lookupCommand everyoneEnv onCallRegistry onCallData).2 = .ok OnCallCommand ∧
    descend OnCallCommand onCallData.Options = .ok (OnCallCommand, []) := by
  constructor
  · simp [lookupCommand, onCallRegistry, onCallData]
  · simp [onCallData, descend]

theorem lookup_example :
    (lookupCommand exampleEnv exampleRegistry exampleData).2 = .ok exampleCommand ∧
    descend exampleCommand exampleData.Options = .ok (exampleCommand, []) := by
  constructor
  · simp [lookupCommand, exampleRegistry, exampleData]
  · simp [exampleData, descend]

/-- C2 at a concrete invocation: every gate lets `setup` through and the handler is called
once. -/
theorem C2_witness :
    ∃ u, (executeCommand exampleEnv exampleRegistry exampleData).unit = some u ∧
      handlerCalls u = 1 ∧
      Event.callCommand exampleCommand [] ∈ u ∧
      ∀ e ∈ u, e.isCallCommand = true → e = .callCommand exampleCommand [] :=
  (C2_handler_called_once exampleEnv exampleRegistry exampleData).2
    exampleCommand exampleCommand [] .Support .Premium
    lookup_example.1 lookup_example.2
    (Or.inl ⟨by decide, 1, rfl, rfl, Or.inl rfl⟩)
    (Or.inl ⟨by decide, by decide⟩)
    (fun _ => rfl) (by decide) (fun _ => rfl) (fun _ => rfl) (fun _ => by decide)
    (fun _ => rfl) (by decide)

/-- C3 at a concrete invocation: the actor of an admin-only command is not a bot admin. -/
theorem C3_witness :
    guildBlacklistGate notAdminEnv exampleCommand [] exampleData .Support .Premium =
      [.isGuildBlacklisted 5, .isBotAdmin 7, .reply .Red .Error .MessageOwnerOnly []] :=
  (C3_gates_short_circuit notAdminEnv exampleCommand [] exampleData .Support .Premium).2.2.1
    (fun _ => rfl) (by decide) rfl rfl

/-- C4 at a concrete invocation: the on-call command requires `Support` and the member is
resolved at `Everyone`. -/
theorem C4_witness :
    ∃ u, (executeCommand everyoneEnv onCallRegistry onCallData).unit = some u ∧
      u = [.getTierByGuildId 5, .getPermissionLevel 1 5, .isGuildBlacklisted 5,
        .reply .Red .Error .MessageNoPermission []] ∧
      handlerCalls u = 0 :=
  (C4_permission_gate everyoneEnv onCallRegistry onCallData OnCallCommand OnCallCommand []
    1 .Everyone executeCommand_onCall_example.1 executeCommand_onCall_example.2
    (by decide) rfl (Or.inl rfl) rfl (by decide) rfl).1 (by decide)

/-- C5 at a concrete invocation: guild 5 is blacklisted and the actor is otherwise fully
authorized. -/
theorem C5_witness :
    ∃ u, (executeCommand guildBlacklistedEnv exampleRegistry exampleData).unit = some u ∧
      u = [.getTierByGuildId 5, .getPermissionLevel 1 5] ++
        [.isGuildBlacklisted 5, .reply .Red .TitleBlacklisted .MessageGuildBlacklisted []] ∧
      handlerCalls u = 0 :=
  (C5_guild_blacklist_gate guildBlacklistedEnv exampleRegistry exampleData exampleCommand
    exampleCommand [] [.getTierByGuildId 5, .getPermissionLevel 1 5] .Support .Premium
    (by simp [lookupCommand, exampleRegistry, exampleData])
    (by simp [exampleData, descend]) (by decide) rfl (by decide)).1 ⟨by decide, rfl⟩

/-- C6 at a concrete invocation: the actor is reported blacklisted in guild 5 without being
blacklisted directly. -/
theorem C6_witness :
    userBlacklistGate userBlacklistedEnv exampleCommand [] exampleData =
      [.isBlacklisted, .isUserBlacklisted 7,
        .reply .Red .TitleBlacklisted .MessageBlacklisted []] :=
  (C6_user_blacklist_gate userBlacklistedEnv exampleCommand [] exampleData).2.1 rfl rfl

/-- C7 at a concrete invocation: a command without declared contexts is invoked without a
member snapshot. -/
theorem C7_witness :
    executeCommand exampleEnv pingRegistry { pingData with Member := none } =
      ⟨false, false, none, [.send "This command can only be used in servers."], none⟩ :=
  ((C7_context_gate exampleEnv pingRegistry { pingData with Member := none } pingCommand
    pingCommand [] (by simp [lookupCommand, pingRegistry, pingData])
    (by simp [pingData, descend])).2.2.1 (Or.inr ⟨rfl, by decide⟩)).1

/-- C8 at a concrete invocation: guild id 5 without a member snapshot. -/
theorem C8_witness :
    authorize exampleEnv memberlessData = ([], .ok (.Everyone, .None)) :=
  (C8_direct_message_facts exampleEnv directCommand [] memberlessData (Or.inr rfl)).1

/-! ## Lemmas on the shape of the traces -/

theorem stopsOrReaches_self (handler : List Event) : StopsOrReaches handler handler :=
  ⟨[], by simp, Or.inr rfl⟩

theorem stopsOrReaches_of_pre (handler pre : List Event)
    (h : ∀ e ∈ pre, e.isPreHandler = true) : StopsOrReaches handler pre :=
  ⟨pre, h, Or.inl rfl⟩

theorem stopsOrReaches_append (handler pre trace : List Event)
    (h : ∀ e ∈ pre, e.isPreHandler = true) (ht : StopsOrReaches handler trace) :
    StopsOrReaches handler (pre ++ trace) := by
  obtain ⟨pre2, h2, hcase⟩ := ht
  refine ⟨pre ++ pre2, ?_, ?_⟩
  · intro e he
    rcases List.mem_append.mp he with he | he
    · exact h e he
    · exact h2 e he
  · rcases hcase with rfl | rfl
    · exact Or.inl rfl
    · exact Or.inr (List.append_assoc _ _ _).symm

theorem stopsOrReaches_cons (handler : List Event) (e : Event) (trace : List Event)
    (h : e.isPreHandler = true) (ht : StopsOrReaches handler trace) :
    StopsOrReaches handler (e :: trace) :=
  stopsOrReaches_append handler [e] trace (by simpa using h) ht

theorem userBlacklistGate_shape (env : Env) (cmd : Command) (options : List CommandOption)
    (data : Interaction) :
    StopsOrReaches (invokeHandler env cmd options data)
      (userBlacklistGate env cmd options data) := by
  unfold userBlacklistGate
  cases cmd.Properties.IgnoreBlacklist
  · rcases hb : env.isBlacklisted data with err | (_ | _)
    · exact stopsOrReaches_of_pre _ _ (by simp [Event.isPreHandler])
    · simpa using stopsOrReaches_cons _ Event.isBlacklisted _ rfl (stopsOrReaches_self _)
    · by_cases hg : data.GuildId = 0
      · exact stopsOrReaches_of_pre _ _ (by simp [hg, Event.isPreHandler])
      · cases env.isUserBlacklisted data.UserId <;>
          exact stopsOrReaches_of_pre _ _ (by simp [hg, Event.isPreHandler])
  · simpa using stopsOrReaches_self _

theorem afterAuthorization_shape (env : Env) (cmd : Command) (options : List CommandOption)
    (data : Interaction) (permLevel : PermissionLevel) (premiumLevel : PremiumTier) :
    StopsOrReaches (invokeHandler env cmd options data)
      (afterAuthorization env cmd options data permLevel premiumLevel) := by
  have s6 := userBlacklistGate_shape env cmd options data
  have s5 : StopsOrReaches (invokeHandler env cmd options data)
      (premiumOnlyGate env cmd options data premiumLevel) := by
    unfold premiumOnlyGate
    split_ifs
    · exact stopsOrReaches_of_pre _ _ (by simp [Event.isPreHandler])
    · exact s6
  have s4 : StopsOrReaches (invokeHandler env cmd options data)
      (helperOnlyGate env cmd options data premiumLevel) := by
    unfold helperOnlyGate
    split_ifs
    · exact stopsOrReaches_of_pre _ _ (by simp [Event.isPreHandler])
    · exact stopsOrReaches_cons _ (Event.isBotHelper data.UserId) _ rfl s5
    · exact s5
  have s3 : StopsOrReaches (invokeHandler env cmd options data)
      (adminOnlyGate env cmd options data premiumLevel) := by
    unfold adminOnlyGate
    split_ifs
    · exact stopsOrReaches_of_pre _ _ (by simp [Event.isPreHandler])
    · exact stopsOrReaches_cons _ (Event.isBotAdmin data.UserId) _ rfl s4
    · exact s4
  have s2 : StopsOrReaches (invokeHandler env cmd options data)
      (permissionGate env cmd options data permLevel premiumLevel) := by
    unfold permissionGate
    split_ifs
    · exact stopsOrReaches_of_pre _ _ (by simp [Event.isPreHandler])
    · exact s3
  have s1 : StopsOrReaches (invokeHandler env cmd options data)
      (guildBlacklistGate env cmd options data permLevel premiumLevel) := by
    unfold guildBlacklistGate
    split_ifs
    · exact stopsOrReaches_of_pre _ _ (by simp [Event.isPreHandler])
    · exact stopsOrReaches_cons _ (Event.isGuildBlacklisted data.GuildId) _ rfl s2
    · exact s2
  unfold afterAuthorization
  split_ifs
  · exact stopsOrReaches_of_pre _ _ (by simp)
  · exact s1

theorem isPreHandler_fetchPremium (env : Env) (guildId : Nat) :
    ∀ e ∈ (fetchPremium env guildId).1, e.isPreHandler = true := by
  unfold fetchPremium
  cases env.getTierByGuildId guildId <;> simp [Event.isPreHandler]

theorem isPreHandler_authorize (env : Env) (data : Interaction) :
    ∀ e ∈ (authorize env data).1, e.isPreHandler = true := by
  have hf := isPreHandler_fetchPremium env data.GuildId
  unfold authorize
  cases data.Member with
  | none => simp
  | some member =>
    by_cases hg : data.GuildId = 0
    · simp [hg]
    · cases hp : env.getPermissionLevel member data.GuildId <;>
        simp only [hg, hp, ne_eq, not_false_eq_true, if_true] <;>
        · intro e he
          rcases List.mem_append.mp he with he | he
          · exact hf e he
          · simp at he
            simp [he, Event.isPreHandler]

theorem dispatchUnit_shape (env : Env) (cmd : Command) (options : List CommandOption)
    (data : Interaction) :
    StopsOrReaches (invokeHandler env cmd options data)
      (dispatchUnit env cmd options data) := by
  have ha := isPreHandler_authorize env data
  unfold dispatchUnit
  rcases hx : authorize env data with ⟨fetches, err | ⟨permLevel, premiumLevel⟩⟩
  · rw [hx] at ha
    refine stopsOrReaches_append _ _ _ ha (stopsOrReaches_of_pre _ _ ?_)
    simp [Event.isPreHandler]
  · rw [hx] at ha
    exact stopsOrReaches_append _ _ _ ha
      (afterAuthorization_shape env cmd options data permLevel premiumLevel)

/-! ## Lemmas on the subcommand descent -/

theorem descendSteps_snd (cmd : Command) (options : List CommandOption) :
    (descendSteps cmd options).2 = descend cmd options := by
  induction cmd, options using descend.induct with
  | case1 cmd => simp [descendSteps, descend]
  | case2 cmd name v subOptions rest => simp [descendSteps, descend]
  | case3 cmd name subOptions rest hf => simp [descendSteps, descend, hf]
  | case4 cmd name subOptions rest child hf ih => simp [descendSteps, descend, hf, ih]

theorem findChild_eq_some_iff (cmd : Command) (name : String) (child : Command) :
    findChild cmd.Properties.Children name = some child ↔
      IsFirstChildNamed cmd name child := by
  unfold findChild IsFirstChildNamed
  rw [List.find?_eq_some]
  constructor
  · rintro ⟨hn, before, after, hc, hb⟩
    refine ⟨before, after, hc, by simpa using hn, ?_⟩
    intro c hcm
    simpa using hb c hcm
  · rintro ⟨before, after, hc, hn, hb⟩
    refine ⟨by simpa using hn, before, after, hc, ?_⟩
    intro c hcm
    simpa using hb c hcm

theorem findChild_eq_none_iff (cmd : Command) (name : String) :
    findChild cmd.Properties.Children name = none ↔
      ∀ c ∈ cmd.Properties.Children, c.Properties.Name ≠ name := by
  unfold findChild
  rw [List.find?_eq_none]
  simp

theorem descendSteps_chain (levels : List (String × List CommandOption))
    (final : List CommandOption) (hstop : stopsDescent final) :
    ∀ cmd : Command, chainMatches cmd (levels.map Prod.fst) →
      ∃ target, followsChain cmd (levels.map Prod.fst) target ∧
        descendSteps cmd (chainOptions levels final) = (levels.length, .ok (target, final)) := by
  induction levels with
  | nil =>
    intro cmd _
    refine ⟨cmd, rfl, ?_⟩
    rcases hstop with rfl | ⟨name, v, subOptions, rest, rfl⟩
    · simp [chainOptions, descendSteps]
    · simp [chainOptions, descendSteps]
  | cons level levels ih =>
    intro cmd hm
    obtain ⟨name, siblings⟩ := level
    obtain ⟨⟨c, hc, hcn⟩, hrest⟩ := hm
    cases hf : findChild cmd.Properties.Children name with
    | none => exact absurd hcn ((findChild_eq_none_iff cmd name).mp hf c hc)
    | some child =>
      have hfirst := (findChild_eq_some_iff cmd name child).mp hf
      obtain ⟨target, hfollow, hsteps⟩ := ih child (hrest child hfirst)
      refine ⟨target, ⟨child, hfirst, hfollow⟩, ?_⟩
      simp [chainOptions, descendSteps, hf, hsteps]

/-- C11: when the command name is in the registry the registered command is used and the
tag-alias lookup is called nowhere, neither before `executeCommand` returns nor in its
goroutine.  When the name is absent the lookup is called once: if it fails, its error is
reported to sentry and returned; if it reports no alias, the error
`command <name> does not exist` is returned; in both cases `(false, false, err)` is
returned, nothing is sent and no goroutine (hence no handler) is started.  If it reports an
alias, the alias command is used. -/
theorem C11_alias_fallback (env : Env) (registry : String → Option Command)
    (data : Interaction) :
    (∀ cmd, registry data.Name = some cmd →
      lookupCommand env registry data = ([], .ok cmd) ∧
      (executeCommand env registry data).sync.countP Event.isAliasLookup = 0 ∧
      ∀ u, (executeCommand env registry data).unit = some u →
        u.countP Event.isAliasLookup = 0) ∧
    (registry data.Name = none →
      env.getByApplicationCommandId data.GuildId data.Id = .ok none →
      executeCommand env registry data =
        ⟨false, false, some (.text ("command " ++ data.Name ++ " does not exist")),
          [.getByApplicationCommandId data.GuildId data.Id], none⟩) ∧
    (∀ err, registry data.Name = none →
      env.getByApplicationCommandId data.GuildId data.Id = .error err →
      executeCommand env registry data =
        ⟨false, false, some err,
          [.getByApplicationCommandId data.GuildId data.Id, .sentryError err], none⟩) ∧
    (∀ tagCmd, registry data.Name = none →
      env.getByApplicationCommandId data.GuildId data.Id = .ok (some tagCmd) →
      lookupCommand env registry data =
        ([.getByApplicationCommandId data.GuildId data.Id], .ok tagCmd)) := by
  refine ⟨?_, ?_, ?_, ?_⟩
  · intro cmd hr
    have hl : lookupCommand env registry data = ([], .ok cmd) := by
      simp [lookupCommand, hr]
    refine ⟨hl, ?_, ?_⟩
    · unfold executeCommand
      simp only [hl]
      rcases descend cmd data.Options with err | ⟨leaf, options⟩
      · simp
      · cases hc : contextDenial leaf.Properties (currentContext data) <;>
          simp [hc, Event.isAliasLookup]
    · intro u hu
      obtain ⟨cmd0, leaf, options, -, -, -, rfl⟩ := executeCommand_unit env registry data u hu
      obtain ⟨pre, hpre, hcase⟩ := dispatchUnit_shape env leaf options data
      have h0 : pre.countP Event.isAliasLookup = 0 := by
        rw [List.countP_eq_zero]
        intro e he
        have := hpre e he
        cases e <;> simp_all [Event.isPreHandler, Event.isAliasLookup]
      have hH : (invokeHandler env leaf options data).countP Event.isAliasLookup = 0 := by
        unfold invokeHandler
        rcases env.callCommand leaf options with _ | err | _
        · simp [Event.isAliasLookup]
        · by_cases h1 : err = .argumentNotFound
          · cases env.isWhitelabel <;> simp [h1, Event.isAliasLookup]
          · simp [h1, Event.isAliasLookup]
        · simp [Event.isAliasLookup]
      rcases hcase with h | h
      · rw [h, h0]
      · rw [h, List.countP_append, h0, hH]
  · intro hr hq
    simp [executeCommand, lookupCommand, hr, hq]
  · intro err hr hq
    simp [executeCommand, lookupCommand, hr, hq]
  · intro tagCmd hr hq
    simp [lookupCommand, hr, hq]

/-- C12: the descent stops at once, without entering the loop, when there are no options or
the first option carries a value.  For a chain of value-less first options whose names
each match some child of the command resolved so far and whose last option has the options
`final` (empty, or starting with an option that carries a value), the loop body is entered
once per option of the chain and the descent yields the command reached by following, for
each name in turn, the first child of that name, together with the options `final`. -/
theorem C12_subcommand_descent (cmd : Command) :
    (descendSteps cmd [] = (0, .ok (cmd, [])) ∧ descend cmd [] = .ok (cmd, [])) ∧
    (∀ name v subOptions rest,
      descendSteps cmd (.mk name (some v) subOptions :: rest) =
        (0, .ok (cmd, .mk name (some v) subOptions :: rest)) ∧
      descend cmd (.mk name (some v) subOptions :: rest) =
        .ok (cmd, .mk name (some v) subOptions :: rest)) ∧
    (∀ (levels : List (String × List CommandOption)) (final : List CommandOption),
      stopsDescent final → chainMatches cmd (levels.map Prod.fst) →
      ∃ target, followsChain cmd (levels.map Prod.fst) target ∧
        descendSteps cmd (chainOptions levels final) =
          (levels.length, .ok (target, final)) ∧
        descend cmd (chainOptions levels final) = .ok (target, final)) := by
  refine ⟨⟨by simp [descendSteps], by simp [descend]⟩, ?_, ?_⟩
  · intro name v subOptions rest
    exact ⟨by simp [descendSteps], by simp [descend]⟩
  · intro levels final hstop hm
    obtain ⟨target, hfollow, hsteps⟩ := descendSteps_chain levels final hstop cmd hm
    refine ⟨target, hfollow, hsteps, ?_⟩
    rw [← descendSteps_snd, hsteps]

theorem descend_chain_mismatch (levels : List (String × List CommandOption))
    (name : String) (subOptions rest : List CommandOption) :
    ∀ cmd parent : Command, followsChain cmd (levels.map Prod.fst) parent →
      (∀ c ∈ parent.Properties.Children, c.Properties.Name ≠ name) →
      descend cmd (chainOptions levels (.mk name none subOptions :: rest)) =
        .error (.text ("subcommand " ++ name ++ " does not exist for command "
          ++ parent.Properties.Name)) := by
  induction levels with
  | nil =>
    intro cmd parent hfollow hno
    have hp : parent = cmd := hfollow
    subst hp
    simp [chainOptions, descend, (findChild_eq_none_iff parent name).mpr hno]
  | cons level levels ih =>
    intro cmd parent hfollow hno
    obtain ⟨levelName, siblings⟩ := level
    obtain ⟨child, hfirst, hrest⟩ := hfollow
    have hf := (findChild_eq_some_iff cmd levelName child).mpr hfirst
    simp [chainOptions, descend, hf, ih child parent hrest hno]

theorem countP_isProviderCall_lookupCommand (env : Env)
    (registry : String → Option Command) (data : Interaction) :
    (lookupCommand env registry data).1.countP Event.isProviderCall = 0 := by
  unfold lookupCommand
  cases registry data.Name with
  | some cmd => simp
  | none =>
    rcases hq : env.getByApplicationCommandId data.GuildId data.Id with err | (_ | tagCmd) <;>
      simp [Event.isProviderCall, List.countP_cons]

/-- C13: when, after a chain of value-less first options that resolves to the command
`parent`, the next first option is value-less and its name is the name of no child of
`parent`, `executeCommand` returns `(false, false, err)` with the error
`subcommand <name> does not exist for command <parent name>`; it has sent nothing and
called no provider, and it starts no goroutine, so that no handler runs. -/
theorem C13_subcommand_not_found (env : Env) (registry : String → Option Command)
    (data : Interaction) (cmd0 parent : Command)
    (levels : List (String × List CommandOption)) (name : String)
    (subOptions rest : List CommandOption)
    (hl : (lookupCommand env registry data).2 = .ok cmd0)
    (hopts : data.Options = chainOptions levels (.mk name none subOptions :: rest))
    (hchain : followsChain cmd0 (levels.map Prod.fst) parent)
    (hno : ∀ c ∈ parent.Properties.Children, c.Properties.Name ≠ name) :
    executeCommand env registry data =
      ⟨false, false,
        some (.text ("subcommand " ++ name ++ " does not exist for command "
          ++ parent.Properties.Name)),
        (lookupCommand env registry data).1, none⟩ ∧
    (executeCommand env registry data).sync.countP Event.isSend = 0 ∧
    (executeCommand env registry data).sync.countP Event.isProviderCall = 0 := by
  have hd := descend_chain_mismatch levels name subOptions rest cmd0 parent hchain hno
  rw [← hopts] at hd
  have hex : executeCommand env registry data =
      ⟨false, false,
        some (.text ("subcommand " ++ name ++ " does not exist for command "
          ++ parent.Properties.Name)),
        (lookupCommand env registry data).1, none⟩ := by
    unfold executeCommand
    rcases hl2 : lookupCommand env registry data with ⟨looked, _ | c⟩
    · simp [hl2] at hl
    · simp only [hl2, Except.ok.injEq] at hl
      subst hl
      simp [hd]
  refine ⟨hex, ?_, ?_⟩
  · rw [hex]
    exact countP_isSend_lookupCommand env registry data
  · rw [hex]
    exact countP_isProviderCall_lookupCommand env registry data

theorem debug_lookup_example :
    (lookupCommand exampleEnv debugRegistry debugServerData).2 = .ok debugGroupCommand ∧
    (lookupCommand exampleEnv debugRegistry debugUserData).2 = .ok debugGroupCommand := by
  constructor <;> simp [lookupCommand, debugRegistry, debugServerData, debugUserData]

theorem debug_descend_example :
    descend debugGroupCommand debugServerData.Options =
      .ok (AdminDebugServerCommand, [.mk "guild_id" (some "1") []]) := by
  have hf : findChild debugGroupCommand.Properties.Children "server" =
      some AdminDebugServerCommand := rfl
  simp only [debugServerData, descend, hf]

/-- C17 as stated fails: for the debug-server command, reached by descent from its group,
the first boolean returned is `true` although the descriptor disables the auto-deferral,
so that the invocation should not be auto-deferred (the group itself does not disable
it). -/
theorem C17_counterexample :
    (executeCommand exampleEnv debugRegistry debugServerData).disableAutoDefer = true ∧
    (executeCommand exampleEnv debugRegistry debugServerData).err = none ∧
    (executeCommand exampleEnv debugRegistry debugServerData).unit =
      some (dispatchUnit exampleEnv AdminDebugServerCommand
        [.mk "guild_id" (some "1") []] debugServerData) ∧
    shouldAutoDefer AdminDebugServerCommand.Properties = false ∧
    shouldAutoDefer debugGroupCommand.Properties = true := by
  have hex := executeCommand_resolved exampleEnv debugRegistry debugServerData
    debugGroupCommand AdminDebugServerCommand [.mk "guild_id" (some "1") []]
    debug_lookup_example.1 debug_descend_example
  have hc : contextDenial AdminDebugServerCommand.Properties
      (currentContext debugServerData) = none := by
    decide
  simp only [hc] at hex
  rw [hex]
  exact ⟨rfl, rfl, rfl, rfl, rfl⟩

/-- C17, amended: when the command resolves and the context check lets the invocation
through, `executeCommand` returns `(DisableAutoDefer, DefaultEphemeral, nil)` of the command
left by the subcommand descent: the first boolean is the descriptor's `DisableAutoDefer`
flag, true exactly when the invocation should not be auto-deferred by the caller, and the
second is its `DefaultEphemeral` flag. -/
theorem C17_returned_flags (env : Env) (registry : String → Option Command)
    (data : Interaction) (cmd0 cmd : Command) (options : List CommandOption)
    (hl : (lookupCommand env registry data).2 = .ok cmd0)
    (hd : descend cmd0 data.Options = .ok (cmd, options))
    (hctx : (cmd.Properties.Contexts ≠ [] ∧ currentContext data ∈ cmd.Properties.Contexts) ∨
      (cmd.Properties.Contexts = [] ∧ currentContext data = .Guild)) :
    (executeCommand env registry data).disableAutoDefer = cmd.Properties.DisableAutoDefer ∧
    (executeCommand env registry data).defaultEphemeral = cmd.Properties.DefaultEphemeral ∧
    (executeCommand env registry data).err = none ∧
    ((executeCommand env registry data).disableAutoDefer = true ↔
      shouldAutoDefer cmd.Properties = false) := by
  have hc : contextDenial cmd.Properties (currentContext data) = none := by
    rw [contextDenial_eq_none_iff]
    rcases hctx with h | h
    · exact Or.inl h
    · exact Or.inr ⟨h.1, by rw [h.2]; decide⟩
  have hex := executeCommand_resolved env registry data cmd0 cmd options hl hd
  simp only [hc] at hex
  rw [hex]
  refine ⟨rfl, rfl, rfl, ?_⟩
  simp [shouldAutoDefer]

/-- C11 at a concrete invocation: `unknown` is not registered and has no alias. -/
theorem C11_witness :
    executeCommand exampleEnv exampleRegistry unknownData =
      ⟨false, false, some (.text "command unknown does not exist"),
        [.getByApplicationCommandId 5 6], none⟩ :=
  (C11_alias_fallback exampleEnv exampleRegistry unknownData).2.1 rfl rfl

/-- C12 at a concrete invocation: `debug server guild_id:1` resolves in one step. -/
theorem C12_witness :
    ∃ target, followsChain debugGroupCommand ["server"] target ∧
      descendSteps debugGroupCommand debugServerData.Options =
        (1, .ok (target, [.mk "guild_id" (some "1") []])) ∧
      descend debugGroupCommand debugServerData.Options =
        .ok (target, [.mk "guild_id" (some "1") []]) :=
  (C12_subcommand_descent debugGroupCommand).2.2 [("server", [])]
    [.mk "guild_id" (some "1") []] (Or.inr ⟨"guild_id", "1", [], [], rfl⟩)
    ⟨⟨AdminDebugServerCommand, by simp [debugGroupCommand, Command.Properties], rfl⟩,
      fun _ _ => trivial⟩

/-- C13 at a concrete invocation: `debug` has no subcommand `user`. -/
theorem C13_witness :
    executeCommand exampleEnv debugRegistry debugUserData =
      ⟨false, false, some (.text "subcommand user does not exist for command debug"),
        [], none⟩ :=
  (C13_subcommand_not_found exampleEnv debugRegistry debugUserData debugGroupCommand
    debugGroupCommand [] "user" [] [] debug_lookup_example.2 rfl rfl
    (by simp [debugGroupCommand, AdminDebugServerCommand, Command.Properties])).1

/-- C17 at a concrete invocation: `setup` in guild 5. -/
theorem C17_witness :
    (executeCommand exampleEnv exampleRegistry exampleData).disableAutoDefer = false ∧
    (executeCommand exampleEnv exampleRegistry exampleData).defaultEphemeral = false :=
  have h := C17_returned_flags exampleEnv exampleRegistry exampleData exampleCommand
    exampleCommand [] lookup_example.1 lookup_example.2 (Or.inl ⟨by decide, by decide⟩)
  ⟨h.1, h.2.1⟩

theorem countP_of_isPreHandler (p : Event → Bool) (pre : List Event)
    (hp : ∀ e, e.isPreHandler = true → p e = false)
    (h : ∀ e ∈ pre, e.isPreHandler = true) : pre.countP p = 0 := by
  rw [List.countP_eq_zero]
  intro e he
  simp [hp e (h e he)]

theorem countP_dispatchUnit (p : Event → Bool) (env : Env) (cmd : Command)
    (options : List CommandOption) (data : Interaction)
    (hp : ∀ e, e.isPreHandler = true → p e = false) :
    (dispatchUnit env cmd options data).countP p =
      handlerCalls (dispatchUnit env cmd options data) *
        (invokeHandler env cmd options data).countP p := by
  obtain ⟨pre, hpre, hcase⟩ := dispatchUnit_shape env cmd options data
  have h0 := countP_of_isPreHandler p pre hp hpre
  have h1 : handlerCalls pre = 0 :=
    countP_of_isPreHandler Event.isCallCommand pre
      (fun e he => by cases e <;> simp_all [Event.isPreHandler, Event.isCallCommand]) hpre
  rcases hcase with h | h
  · rw [h, h0, h1]
    simp
  · rw [h, List.countP_append, h0, handlerCalls_append, h1, handlerCalls_invokeHandler]
    simp

theorem countP_isClose_invokeHandler (env : Env) (cmd : Command)
    (options : List CommandOption) (data : Interaction) :
    (invokeHandler env cmd options data).countP Event.isClose = 1 := by
  unfold invokeHandler
  rcases env.callCommand cmd options with _ | err | _
  · simp [Event.isClose, List.countP_cons]
  · by_cases h1 : err = .argumentNotFound
    · cases env.isWhitelabel <;> simp [h1, Event.isClose, List.countP_cons]
    · simp [h1, Event.isClose, List.countP_cons]
  · simp [Event.isClose, List.countP_cons]

theorem executeCommand_sync (env : Env) (registry : String → Option Command)
    (data : Interaction) :
    (executeCommand env registry data).sync = (lookupCommand env registry data).1 ∨
    ∃ message, (executeCommand env registry data).sync =
      (lookupCommand env registry data).1 ++ [.send message] := by
  unfold executeCommand
  rcases hx : lookupCommand env registry data with ⟨looked, err | cmd⟩
  · simp
  · rcases hd : descend cmd data.Options with err | ⟨leaf, options⟩
    · simp [hd]
    · cases hc : contextDenial leaf.Properties (currentContext data) with
      | none => simp [hd, hc]
      | some message => simp [hd, hc]

theorem countP_isClose_sync (env : Env) (registry : String → Option Command)
    (data : Interaction) :
    (executeCommand env registry data).sync.countP Event.isClose = 0 := by
  have hl : (lookupCommand env registry data).1.countP Event.isClose = 0 := by
    unfold lookupCommand
    cases registry data.Name with
    | some cmd => simp
    | none =>
      rcases hq : env.getByApplicationCommandId data.GuildId data.Id with
        err | (_ | tagCmd) <;> simp [Event.isClose, List.countP_cons]
  rcases executeCommand_sync env registry data with h | ⟨message, h⟩
  · rw [h, hl]
  · rw [h, List.countP_append, hl]
    simp [Event.isClose, List.countP_cons]

theorem handlerCalls_sync (env : Env) (registry : String → Option Command)
    (data : Interaction) :
    handlerCalls (executeCommand env registry data).sync = 0 := by
  have hl : handlerCalls (lookupCommand env registry data).1 = 0 := by
    unfold lookupCommand
    cases registry data.Name with
    | some cmd => simp [handlerCalls_nil]
    | none =>
      rcases hq : env.getByApplicationCommandId data.GuildId data.Id with
        err | (_ | tagCmd) <;>
        simp [handlerCalls_cons, handlerCalls_nil, Event.isCallCommand]
  rcases executeCommand_sync env registry data with h | ⟨message, h⟩
  · rw [h, hl]
  · rw [h, handlerCalls_append, hl]
    simp [handlerCalls_cons, handlerCalls_nil, Event.isCallCommand]

/-- C14 as stated fails: an invocation denied by the context check ends with one message
sent and the response channel not closed, and one denied by the admin-only gate ends with
one `Reply` and the response channel not closed. -/
theorem C14_counterexample :
    (executeCommand exampleEnv pingRegistry memberlessPingData).trace =
      [.send "This command can only be used in servers."] ∧
    (executeCommand exampleEnv pingRegistry memberlessPingData).trace.countP
      Event.isClose = 0 ∧
    (executeCommand notAdminEnv exampleRegistry exampleData).trace =
      [.getTierByGuildId 5, .getPermissionLevel 1 5, .isGuildBlacklisted 5, .isBotAdmin 7,
        .reply .Red .Error .MessageOwnerOnly []] ∧
    (executeCommand notAdminEnv exampleRegistry exampleData).trace.countP
      Event.isClose = 0 := by
  have h1 : (executeCommand exampleEnv pingRegistry memberlessPingData).trace =
      [.send "This command can only be used in servers."] := by
    simp [Result.trace, executeCommand, lookupCommand, pingRegistry, memberlessPingData,
      pingData, descend, contextDenial, currentContext, pingCommand, Command.Properties]
  have h2 : (executeCommand notAdminEnv exampleRegistry exampleData).trace =
      [.getTierByGuildId 5, .getPermissionLevel 1 5, .isGuildBlacklisted 5, .isBotAdmin 7,
        .reply .Red .Error .MessageOwnerOnly []] := by
    simp [Result.trace, executeCommand, lookupCommand, exampleRegistry, exampleData,
      descend, contextDenial, currentContext, contextListed, exampleCommand,
      Command.Properties, dispatchUnit, authorize, fetchPremium, notAdminEnv, exampleEnv,
      afterAuthorization, guildBlacklistGate, permissionGate, adminOnlyGate,
      PermissionLevel.rank]
  refine ⟨h1, ?_, h2, ?_⟩
  · rw [h1]
    decide
  · rw [h2]
    decide

/-- C14, amended: in every invocation the response channel is closed by `executeCommand` as
often as the handler is called, which is at most once: exactly once on the paths that
reach the handler, whether the handler returns `nil`, returns an error or panics, and not
at all on the paths that end before (context denial, permission-fetch failure, a gate
denial). -/
theorem C14_closed_once_with_handler (env : Env) (registry : String → Option Command)
    (data : Interaction) :
    (executeCommand env registry data).trace.countP Event.isClose =
      handlerCalls (executeCommand env registry data).trace ∧
    handlerCalls (executeCommand env registry data).trace ≤ 1 ∧
    ((executeCommand env registry data).unit = none →
      (executeCommand env registry data).trace.countP Event.isClose = 0) ∧
    (∀ cmd options, (invokeHandler env cmd options data).countP Event.isClose = 1) := by
  have hs := countP_isClose_sync env registry data
  have hh := handlerCalls_sync env registry data
  have hunit : ∀ u, (executeCommand env registry data).unit = some u →
      u.countP Event.isClose = handlerCalls u ∧ handlerCalls u ≤ 1 := by
    intro u hu
    obtain ⟨cmd0, cmd, options, -, -, -, rfl⟩ := executeCommand_unit env registry data u hu
    have hc := countP_dispatchUnit Event.isClose env cmd options data
      (fun e he => by cases e <;> simp_all [Event.isPreHandler, Event.isClose])
    rw [countP_isClose_invokeHandler] at hc
    exact ⟨by simpa using hc, handlerCalls_dispatchUnit_le env cmd options data⟩
  have hinv : ∀ cmd options,
      (invokeHandler env cmd options data).countP Event.isClose = 1 :=
    fun cmd options => countP_isClose_invokeHandler env cmd options data
  unfold Result.trace
  cases hu : (executeCommand env registry data).unit with
  | none =>
    simp only [Option.getD_none, List.append_nil, hs, hh]
    exact ⟨trivial, by omega, fun _ => trivial, hinv⟩
  | some u =>
    obtain ⟨h1, h2⟩ := hunit u hu
    simp only [Option.getD_some, List.countP_append, handlerCalls_append, hs, hh, h1]
    refine ⟨trivial, by omega, ?_, hinv⟩
    intro h
    cases h

theorem mem_afterClose_of_split (pre post : List Event) :
    ∀ e ∈ post, e ∈ afterClose (pre ++ .closeResponseCh :: post) := by
  induction pre with
  | nil =>
    intro e he
    simpa [afterClose, Event.isClose] using he
  | cons x pre ih =>
    intro e he
    by_cases hx : x.isClose = true
    · simp [afterClose, hx, he]
    · simpa [afterClose, hx] using ih e he

theorem afterClose_append_of_no_close (xs ys : List Event)
    (h : xs.countP Event.isClose = 0) : afterClose (xs ++ ys) = afterClose ys := by
  induction xs with
  | nil => rfl
  | cons x xs ih =>
    rw [List.countP_cons] at h
    have hx : x.isClose = false := by
      cases hc : x.isClose
      · rfl
      · simp [hc] at h
    have hxs : xs.countP Event.isClose = 0 := by omega
    simp [afterClose, hx, ih hxs]

theorem afterClose_of_no_close (xs : List Event)
    (h : xs.countP Event.isClose = 0) : afterClose xs = [] := by
  have := afterClose_append_of_no_close xs [] h
  simpa [afterClose] using this

theorem afterClose_invokeHandler (env : Env) (cmd : Command)
    (options : List CommandOption) (data : Interaction) :
    ∀ e ∈ afterClose (invokeHandler env cmd options data), e = .recovered := by
  unfold invokeHandler
  rcases env.callCommand cmd options with _ | err | _
  · simp [afterClose, Event.isClose]
  · by_cases h1 : err = .argumentNotFound
    · cases env.isWhitelabel <;> simp [h1, afterClose, Event.isClose]
    · simp [h1, afterClose, Event.isClose]
  · simp [afterClose, Event.isClose]

theorem afterClose_dispatchUnit (env : Env) (cmd : Command)
    (options : List CommandOption) (data : Interaction) :
    ∀ e ∈ afterClose (dispatchUnit env cmd options data), e = .recovered := by
  obtain ⟨pre, hpre, hcase⟩ := dispatchUnit_shape env cmd options data
  have h0 : pre.countP Event.isClose = 0 :=
    countP_of_isPreHandler Event.isClose pre
      (fun e he => by cases e <;> simp_all [Event.isPreHandler, Event.isClose]) hpre
  rcases hcase with h | h
  · rw [h, afterClose_of_no_close pre h0]
    simp
  · rw [h, afterClose_append_of_no_close pre _ h0]
    exact afterClose_invokeHandler env cmd options data

/-- C15: in every invocation `executeCommand` closes the response channel at most once, and
no value is sent on the channel by `executeCommand` after the close: whatever follows the
close in the trace is not a send. -/
theorem C15_no_send_after_close (env : Env) (registry : String → Option Command)
    (data : Interaction) :
    (executeCommand env registry data).trace.countP Event.isClose ≤ 1 ∧
    ∀ pre post, (executeCommand env registry data).trace = pre ++ .closeResponseCh :: post →
      ∀ e ∈ post, e.isSend = false := by
  have hs := countP_isClose_sync env registry data
  have hafter : ∀ e ∈ afterClose (executeCommand env registry data).trace,
      e = .recovered := by
    unfold Result.trace
    rw [afterClose_append_of_no_close _ _ hs]
    cases hu : (executeCommand env registry data).unit with
    | none => simp [afterClose]
    | some u =>
      obtain ⟨cmd0, cmd, options, -, -, -, rfl⟩ := executeCommand_unit env registry data u hu
      simpa using afterClose_dispatchUnit env cmd options data
  refine ⟨?_, ?_⟩
  · unfold Result.trace
    rw [List.countP_append, hs]
    cases hu : (executeCommand env registry data).unit with
    | none => simp
    | some u =>
      obtain ⟨cmd0, cmd, options, -, -, -, rfl⟩ := executeCommand_unit env registry data u hu
      have hc := countP_dispatchUnit Event.isClose env cmd options data
        (fun e he => by cases e <;> simp_all [Event.isPreHandler, Event.isClose])
      rw [countP_isClose_invokeHandler] at hc
      have hle := handlerCalls_dispatchUnit_le env cmd options data
      simp only [Option.getD_some]
      omega
  · intro pre post hsplit e he
    have hmem := mem_afterClose_of_split pre post e he
    rw [← hsplit] at hmem
    rw [hafter e hmem]
    rfl

theorem memberlessPing_example :
    (executeCommand exampleEnv pingRegistry memberlessPingData).unit = none := by
  simp [executeCommand, lookupCommand, pingRegistry, memberlessPingData, pingData, descend,
    contextDenial, currentContext, pingCommand, Command.Properties]

theorem panickingHandler_example :
    (executeCommand panickingHandlerEnv exampleRegistry exampleData).trace =
      [.getTierByGuildId 5, .getPermissionLevel 1 5, .isGuildBlacklisted 5, .isBotAdmin 7,
        .isBotHelper 7, .isBlacklisted, .incrementKey .KeySlashCommands,
        .incrementKey .KeyCommands, .logCommand "setup", .callCommand exampleCommand []] ++
      .closeResponseCh :: [.recovered] := by
  simp [Result.trace, executeCommand, lookupCommand, exampleRegistry, exampleData,
    descend, contextDenial, currentContext, contextListed, exampleCommand,
    Command.Properties, dispatchUnit, authorize, fetchPremium, panickingHandlerEnv,
    exampleEnv, afterAuthorization, guildBlacklistGate, permissionGate, adminOnlyGate,
    helperOnlyGate, premiumOnlyGate, userBlacklistGate, invokeHandler,
    PermissionLevel.rank]

/-- C14 at a concrete invocation: `ping` without a member snapshot is denied by the context
check, no goroutine is started and the channel is not closed. -/
theorem C14_witness :
    (executeCommand exampleEnv pingRegistry memberlessPingData).trace.countP
      Event.isClose = 0 :=
  (C14_closed_once_with_handler exampleEnv pingRegistry memberlessPingData).2.2.1
    memberlessPing_example

/-- C15 at a concrete invocation: the handler of `setup` panics; what follows the close is
the recovery, not a send. -/
theorem C15_witness : ∀ e ∈ [Event.recovered], e.isSend = false :=
  (C15_no_send_after_close panickingHandlerEnv exampleRegistry exampleData).2 _ _
    panickingHandler_example

/-! ## Lemmas on the dispatch unit with panics -/

theorem finished_done : Run.done.finished = [] := rfl

theorem finished_step_of_no_panic (e : Event) (r : Run) :
    (Run.step (fun _ => false) e r).finished = e :: r.finished := by
  simp [Run.step, Run.finished]

theorem finished_after (pre : List Event) (r : Run) :
    (Run.after pre r).finished = pre ++ r.finished := by
  simp [Run.after, Run.finished]

theorem finished_invokeHandlerRun (env : Env) (cmd : Command)
    (options : List CommandOption) (data : Interaction) :
    (invokeHandlerRun (fun _ => false) env cmd options data).finished =
      invokeHandler env cmd options data := by
  unfold invokeHandlerRun invokeHandler
  rcases env.callCommand cmd options with _ | err | _
  · simp [Run.step, Run.finished, Run.deferClose, Run.done]
  · by_cases h1 : err = .argumentNotFound
    · cases env.isWhitelabel <;>
        simp [h1, Run.step, Run.finished, Run.deferClose, Run.done]
    · simp [h1, Run.step, Run.finished, Run.deferClose, Run.done]
  · simp [Run.step, Run.finished, Run.deferClose]

theorem finished_userBlacklistGateRun (env : Env) (cmd : Command)
    (options : List CommandOption) (data : Interaction) :
    (userBlacklistGateRun (fun _ => false) env cmd options data).finished =
      userBlacklistGate env cmd options data := by
  have hh := finished_invokeHandlerRun env cmd options data
  unfold userBlacklistGateRun userBlacklistGate
  cases cmd.Properties.IgnoreBlacklist
  · rcases hb : env.isBlacklisted data with err | (_ | _)
    · simp [finished_step_of_no_panic, finished_done]
    · simp [finished_step_of_no_panic, hh]
    · by_cases hg : data.GuildId = 0
      · simp [hg, finished_step_of_no_panic, finished_done]
      · cases env.isUserBlacklisted data.UserId <;>
          simp [hg, finished_step_of_no_panic, finished_done]
  · simp [hh]

theorem finished_afterAuthorizationRun (env : Env) (cmd : Command)
    (options : List CommandOption) (data : Interaction) (permLevel : PermissionLevel)
    (premiumLevel : PremiumTier) :
    (afterAuthorizationRun (fun _ => false) env cmd options data permLevel
      premiumLevel).finished =
      afterAuthorization env cmd options data permLevel premiumLevel := by
  have s6 := finished_userBlacklistGateRun env cmd options data
  have s5 : (premiumOnlyGateRun (fun _ => false) env cmd options data premiumLevel).finished =
      premiumOnlyGate env cmd options data premiumLevel := by
    unfold premiumOnlyGateRun premiumOnlyGate
    split_ifs
    · simp [finished_step_of_no_panic, finished_done]
    · exact s6
  have s4 : (helperOnlyGateRun (fun _ => false) env cmd options data premiumLevel).finished =
      helperOnlyGate env cmd options data premiumLevel := by
    unfold helperOnlyGateRun helperOnlyGate
    split_ifs
    · simp [finished_step_of_no_panic, finished_done]
    · simp [finished_step_of_no_panic, s5]
    · exact s5
  have s3 : (adminOnlyGateRun (fun _ => false) env cmd options data premiumLevel).finished =
      adminOnlyGate env cmd options data premiumLevel := by
    unfold adminOnlyGateRun adminOnlyGate
    split_ifs
    · simp [finished_step_of_no_panic, finished_done]
    · simp [finished_step_of_no_panic, s4]
    · exact s4
  have s2 : (permissionGateRun (fun _ => false) env cmd options data permLevel
      premiumLevel).finished =
      permissionGate env cmd options data permLevel premiumLevel := by
    unfold permissionGateRun permissionGate
    split_ifs
    · simp [finished_step_of_no_panic, finished_done]
    · exact s3
  have s1 : (guildBlacklistGateRun (fun _ => false) env cmd options data permLevel
      premiumLevel).finished =
      guildBlacklistGate env cmd options data permLevel premiumLevel := by
    unfold guildBlacklistGateRun guildBlacklistGate
    split_ifs
    · simp [finished_step_of_no_panic, finished_done]
    · simp [finished_step_of_no_panic, s2]
    · exact s2
  unfold afterAuthorizationRun afterAuthorization
  split_ifs
  · rfl
  · exact s1

theorem dispatchUnitRun_of_no_panic (env : Env) (cmd : Command)
    (options : List CommandOption) (data : Interaction) :
    (dispatchUnitRun (fun _ => false) false env cmd options data).events =
      dispatchUnit env cmd options data := by
  have hfin : ∀ r : Run, (Run.deferRecover r).events = r.finished := fun _ => rfl
  unfold dispatchUnitRun
  rw [hfin]
  unfold dispatchBodyRun dispatchUnit
  rcases authorize env data with ⟨fetches, err | ⟨permLevel, premiumLevel⟩⟩
  · simp [finished_after, finished_step_of_no_panic, finished_done]
  · simp [finished_after, finished_afterAuthorizationRun]

theorem runStopsOrReaches_self (handler : Run) : RunStopsOrReaches handler handler :=
  ⟨[], rfl, Or.inr (by simp [Run.after])⟩

theorem runStopsOrReaches_done (handler : Run) : RunStopsOrReaches handler Run.done :=
  ⟨[], rfl, Or.inl rfl⟩

theorem runStopsOrReaches_step (panics : Event → Bool) (handler : Run) (e : Event)
    (r : Run) (he : e.isCallCommand = false) (hr : RunStopsOrReaches handler r) :
    RunStopsOrReaches handler (Run.step panics e r) := by
  obtain ⟨pre, hpre, hcase⟩ := hr
  unfold Run.step
  cases panics e
  · refine ⟨e :: pre, by simp [List.countP_cons, he, hpre], ?_⟩
    rcases hcase with h | h
    · exact Or.inl (by simp [h])
    · exact Or.inr (by simp [h, Run.after])
  · exact ⟨[e], by simp [List.countP_cons, he], Or.inl (by simp)⟩

theorem runStopsOrReaches_after (handler : Run) (pre : List Event) (r : Run)
    (hp : pre.countP Event.isCallCommand = 0) (hr : RunStopsOrReaches handler r) :
    RunStopsOrReaches handler (Run.after pre r) := by
  obtain ⟨pre2, hpre2, hcase⟩ := hr
  refine ⟨pre ++ pre2, by simp [List.countP_append, hp, hpre2], ?_⟩
  rcases hcase with h | h
  · exact Or.inl (by simp [Run.after, h])
  · exact Or.inr (by simp [h, Run.after])

theorem userBlacklistGateRun_shape (panics : Event → Bool) (env : Env) (cmd : Command)
    (options : List CommandOption) (data : Interaction) :
    RunStopsOrReaches (invokeHandlerRun panics env cmd options data)
      (userBlacklistGateRun panics env cmd options data) := by
  unfold userBlacklistGateRun
  cases cmd.Properties.IgnoreBlacklist
  · rcases hb : env.isBlacklisted data with err | (_ | _)
    · exact runStopsOrReaches_step _ _ _ _ rfl
        (runStopsOrReaches_step _ _ _ _ rfl (runStopsOrReaches_done _))
    · simpa using runStopsOrReaches_step panics _ Event.isBlacklisted _ rfl
        (runStopsOrReaches_self _)
    · by_cases hg : data.GuildId = 0
      · simpa [hg] using runStopsOrReaches_step panics _ Event.isBlacklisted _ rfl
          (runStopsOrReaches_step panics _
            (.reply .Red .TitleBlacklisted .MessageUserBlacklisted []) _ rfl
            (runStopsOrReaches_done _))
      · cases env.isUserBlacklisted data.UserId
        · simpa [hg] using runStopsOrReaches_step panics _ Event.isBlacklisted _ rfl
            (runStopsOrReaches_step panics _ (.isUserBlacklisted data.UserId) _ rfl
              (runStopsOrReaches_step panics _
                (.reply .Red .TitleBlacklisted .MessageBlacklisted []) _ rfl
                (runStopsOrReaches_done _)))
        · simpa [hg] using runStopsOrReaches_step panics _ Event.isBlacklisted _ rfl
            (runStopsOrReaches_step panics _ (.isUserBlacklisted data.UserId) _ rfl
              (runStopsOrReaches_step panics _
                (.reply .Red .TitleBlacklisted .MessageUserBlacklisted []) _ rfl
                (runStopsOrReaches_done _)))
  · simpa using runStopsOrReaches_self _

theorem afterAuthorizationRun_shape (panics : Event → Bool) (env : Env) (cmd : Command)
    (options : List CommandOption) (data : Interaction) (permLevel : PermissionLevel)
    (premiumLevel : PremiumTier) :
    RunStopsOrReaches (invokeHandlerRun panics env cmd options data)
      (afterAuthorizationRun panics env cmd options data permLevel premiumLevel) := by
  have s6 := userBlacklistGateRun_shape panics env cmd options data
  have hreply : ∀ (c : Colour) (t m : MessageId) (f : List String),
      RunStopsOrReaches (invokeHandlerRun panics env cmd options data)
        (Run.step panics (.reply c t m f) Run.done) :=
    fun c t m f => runStopsOrReaches_step _ _ _ _ rfl (runStopsOrReaches_done _)
  have s5 : RunStopsOrReaches (invokeHandlerRun panics env cmd options data)
      (premiumOnlyGateRun panics env cmd options data premiumLevel) := by
    unfold premiumOnlyGateRun
    split_ifs
    · exact hreply _ _ _ _
    · exact s6
  have s4 : RunStopsOrReaches (invokeHandlerRun panics env cmd options data)
      (helperOnlyGateRun panics env cmd options data premiumLevel) := by
    unfold helperOnlyGateRun
    split_ifs
    · exact runStopsOrReaches_step _ _ (.isBotHelper data.UserId) _ rfl (hreply _ _ _ _)
    · exact runStopsOrReaches_step _ _ (.isBotHelper data.UserId) _ rfl s5
    · exact s5
  have s3 : RunStopsOrReaches (invokeHandlerRun panics env cmd options data)
      (adminOnlyGateRun panics env cmd options data premiumLevel) := by
    unfold adminOnlyGateRun
    split_ifs
    · exact runStopsOrReaches_step _ _ (.isBotAdmin data.UserId) _ rfl (hreply _ _ _ _)
    · exact runStopsOrReaches_step _ _ (.isBotAdmin data.UserId) _ rfl s4
    · exact s4
  have s2 : RunStopsOrReaches (invokeHandlerRun panics env cmd options data)
      (permissionGateRun panics env cmd options data permLevel premiumLevel) := by
    unfold permissionGateRun
    split_ifs
    · exact hreply _ _ _ _
    · exact s3
  have s1 : RunStopsOrReaches (invokeHandlerRun panics env cmd options data)
      (guildBlacklistGateRun panics env cmd options data permLevel premiumLevel) := by
    unfold guildBlacklistGateRun
    split_ifs
    · exact runStopsOrReaches_step _ _ (.isGuildBlacklisted data.GuildId) _ rfl
        (hreply _ _ _ _)
    · exact runStopsOrReaches_step _ _ (.isGuildBlacklisted data.GuildId) _ rfl s2
    · exact s2
  unfold afterAuthorizationRun
  split_ifs
  · exact runStopsOrReaches_done _
  · exact s1

theorem dispatchBodyRun_shape (panics : Event → Bool) (joinPanics : Bool) (env : Env)
    (cmd : Command) (options : List CommandOption) (data : Interaction) :
    RunStopsOrReaches (invokeHandlerRun panics env cmd options data)
      (dispatchBodyRun panics joinPanics env cmd options data) := by
  have h0 := handlerCalls_authorize env data
  unfold handlerCalls at h0
  unfold dispatchBodyRun
  split_ifs
  · exact ⟨(authorize env data).1, h0, Or.inl rfl⟩
  · rcases hx : authorize env data with ⟨fetches, err | ⟨permLevel, premiumLevel⟩⟩
    · rw [hx] at h0
      exact runStopsOrReaches_after _ _ _ h0
        (runStopsOrReaches_step _ _ _ _ rfl
          (runStopsOrReaches_step _ _ _ _ rfl (runStopsOrReaches_done _)))
    · rw [hx] at h0
      exact runStopsOrReaches_after _ _ _ h0
        (afterAuthorizationRun_shape panics env cmd options data permLevel premiumLevel)

theorem invokeHandlerRun_cases (panics : Event → Bool) (env : Env) (cmd : Command)
    (options : List CommandOption) (data : Interaction) :
    (invokeHandlerRun panics env cmd options data).events.countP Event.isCallCommand = 0 ∨
    ∃ tail, (invokeHandlerRun panics env cmd options data).events =
        [.incrementKey .KeySlashCommands, .incrementKey .KeyCommands,
          .logCommand data.Name, .callCommand cmd options] ++ tail ++ [.closeResponseCh] ∧
      ((panics (.callCommand cmd options) = true ∨ env.callCommand cmd options = .panic) →
        tail = [] ∧ (invokeHandlerRun panics env cmd options data).panicked = true) := by
  unfold invokeHandlerRun
  cases h1 : panics (.incrementKey .KeySlashCommands)
  swap
  · exact Or.inl (by simp [Run.step, h1, List.countP_cons, Event.isCallCommand])
  cases h2 : panics (.incrementKey .KeyCommands)
  swap
  · exact Or.inl (by simp [Run.step, h1, h2, List.countP_cons, Event.isCallCommand])
  cases h3 : panics (.logCommand data.Name)
  swap
  · exact Or.inl (by simp [Run.step, h1, h2, h3, List.countP_cons, Event.isCallCommand])
  right
  cases h4 : panics (.callCommand cmd options)
  swap
  · exact ⟨[], by simp [Run.step, Run.deferClose, h1, h2, h3, h4]⟩
  rcases hc : env.callCommand cmd options with _ | err | _
  · exact ⟨[], by simp [Run.step, Run.deferClose, Run.done, h1, h2, h3, h4]⟩
  · by_cases he : err = .argumentNotFound
    · cases hw : env.isWhitelabel
      · cases h5 : panics (.send "argument is missing") <;>
          exact ⟨[.send "argument is missing"],
            by simp [Run.step, Run.deferClose, Run.done, h1, h2, h3, h4, h5, he, hw]⟩
      · refine ⟨[.sendEmbed "Outdated Command"
            "This command registration is outdated. Please ask the server administrators to visit the whitelabel dashboard and press \"Create Slash Commands\" again."], ?_⟩
        cases h5 : panics (.sendEmbed "Outdated Command"
            "This command registration is outdated. Please ask the server administrators to visit the whitelabel dashboard and press \"Create Slash Commands\" again.") <;>
          simp [Run.step, Run.deferClose, Run.done, h1, h2, h3, h4, h5, he, hw]
    · cases h5 : panics (.handleError err) <;>
        exact ⟨[.handleError err],
          by simp [Run.step, Run.deferClose, Run.done, h1, h2, h3, h4, h5, he]⟩
  · exact ⟨[], by simp [Run.step, Run.deferClose, h1, h2, h3, h4]⟩

/-- C16: whatever calls of the goroutine panic (a collaborator of a gate, a reply, the
handler) and whether or not the join of the fetches panics, the goroutine itself does not
end in a panic: a panic of its body is recovered by the deferred function, after which
nothing more runs.  A panic of the join ends the unit right after the fetches.  When the
handler is called, the deferred close of the response channel runs, and when the handler
panics the unit ends with the handler call, the close and the recovery.  When nothing
panics the unit is `dispatchUnit`. -/
theorem C16_panic_recovered (panics : Event → Bool) (joinPanics : Bool) (env : Env)
    (cmd : Command) (options : List CommandOption) (data : Interaction) :
    (dispatchUnitRun panics joinPanics env cmd options data).panicked = false ∧
    ((dispatchBodyRun panics joinPanics env cmd options data).panicked = true →
      (dispatchUnitRun panics joinPanics env cmd options data).events =
        (dispatchBodyRun panics joinPanics env cmd options data).events ++ [.recovered]) ∧
    ((dispatchBodyRun panics joinPanics env cmd options data).panicked = false →
      (dispatchUnitRun panics joinPanics env cmd options data).events =
        (dispatchBodyRun panics joinPanics env cmd options data).events) ∧
    (data.GuildId ≠ 0 ∧ data.Member ≠ none → joinPanics = true →
      (dispatchUnitRun panics joinPanics env cmd options data).events =
        (authorize env data).1 ++ [.recovered]) ∧
    (Event.callCommand cmd options ∈
        (dispatchUnitRun panics joinPanics env cmd options data).events →
      Event.closeResponseCh ∈
        (dispatchUnitRun panics joinPanics env cmd options data).events) ∧
    (Event.callCommand cmd options ∈
        (dispatchUnitRun panics joinPanics env cmd options data).events →
      (panics (.callCommand cmd options) = true ∨ env.callCommand cmd options = .panic) →
      ∃ pre, (dispatchUnitRun panics joinPanics env cmd options data).events =
        pre ++ [.callCommand cmd options, .closeResponseCh, .recovered]) ∧
    ((∀ e, panics e = false) → joinPanics = false →
      (dispatchUnitRun panics joinPanics env cmd options data).events =
        dispatchUnit env cmd options data) := by
  have hreach : Event.callCommand cmd options ∈
        (dispatchUnitRun panics joinPanics env cmd options data).events →
      ∃ pre tail, (dispatchBodyRun panics joinPanics env cmd options data).events =
          pre ++ ([.incrementKey .KeySlashCommands, .incrementKey .KeyCommands,
            .logCommand data.Name, .callCommand cmd options] ++ tail ++
            [.closeResponseCh]) ∧
        ((panics (.callCommand cmd options) = true ∨
            env.callCommand cmd options = .panic) →
          tail = [] ∧
          (dispatchBodyRun panics joinPanics env cmd options data).panicked = true) := by
    intro hmem
    have hmem2 : Event.callCommand cmd options ∈
        (dispatchBodyRun panics joinPanics env cmd options data).events := by
      unfold dispatchUnitRun Run.deferRecover at hmem
      rcases List.mem_append.mp hmem with h | h
      · exact h
      · split_ifs at h <;> simp at h
    obtain ⟨pre, hpre, hcase⟩ := dispatchBodyRun_shape panics joinPanics env cmd options data
    have hnot : ∀ xs : List Event, xs.countP Event.isCallCommand = 0 →
        Event.callCommand cmd options ∉ xs := by
      intro xs hxs hm
      rw [List.countP_eq_zero] at hxs
      exact hxs _ hm rfl
    rcases hcase with h | h
    · rw [h] at hmem2
      exact absurd hmem2 (hnot pre hpre)
    · rcases invokeHandlerRun_cases panics env cmd options data with h0 | ⟨tail, ht, hp⟩
      · rw [h] at hmem2
        simp only [Run.after, List.mem_append] at hmem2
        rcases hmem2 with hm | hm
        · exact absurd hm (hnot pre hpre)
        · exact absurd hm (hnot _ h0)
      · refine ⟨pre, tail, by rw [h]; simp [Run.after, ht], ?_⟩
        intro hpanic
        obtain ⟨h1, h2⟩ := hp hpanic
        exact ⟨h1, by rw [h]; simpa [Run.after] using h2⟩
  refine ⟨rfl, ?_, ?_, ?_, ?_, ?_, ?_⟩
  · intro hp
    simp [dispatchUnitRun, Run.deferRecover, hp]
  · intro hp
    simp [dispatchUnitRun, Run.deferRecover, hp]
  · intro hg hj
    simp [dispatchUnitRun, Run.deferRecover, dispatchBodyRun, hg, hj]
  · intro hmem
    obtain ⟨pre, tail, hev, -⟩ := hreach hmem
    simp [dispatchUnitRun, Run.deferRecover, hev]
  · intro hmem hpanic
    obtain ⟨pre, tail, hev, hp⟩ := hreach hmem
    obtain ⟨h1, h2⟩ := hp hpanic
    subst h1
    refine ⟨pre ++ [.incrementKey .KeySlashCommands, .incrementKey .KeyCommands,
      .logCommand data.Name], ?_⟩
    simp [dispatchUnitRun, Run.deferRecover, hev, h2]
  · intro hno hj
    have hfun : panics = fun _ => false := funext hno
    subst hfun
    subst hj
    exact dispatchUnitRun_of_no_panic env cmd options data

theorem handlerPanics_example :
    (dispatchUnitRun handlerPanics false exampleEnv exampleCommand [] exampleData).events =
      [.getTierByGuildId 5, .getPermissionLevel 1 5, .isGuildBlacklisted 5, .isBotAdmin 7,
        .isBotHelper 7, .isBlacklisted, .incrementKey .KeySlashCommands,
        .incrementKey .KeyCommands, .logCommand "setup", .callCommand exampleCommand [],
        .closeResponseCh, .recovered] := by
  simp [dispatchUnitRun, dispatchBodyRun, Run.deferRecover, Run.after, Run.step, Run.done,
    Run.deferClose, handlerPanics, Event.isCallCommand, exampleData, exampleCommand,
    Command.Properties, authorize, fetchPremium, exampleEnv, afterAuthorizationRun,
    guildBlacklistGateRun, permissionGateRun, adminOnlyGateRun, helperOnlyGateRun,
    premiumOnlyGateRun, userBlacklistGateRun, invokeHandlerRun, PermissionLevel.rank]

/-- C16 at a concrete invocation: the handler of `setup` panics in guild 5. -/
theorem C16_witness :
    ∃ pre, (dispatchUnitRun handlerPanics false exampleEnv exampleCommand []
        exampleData).events =
      pre ++ [.callCommand exampleCommand [], .closeResponseCh, .recovered] :=
  (C16_panic_recovered handlerPanics false exampleEnv exampleCommand [] exampleData).2.2.2.2.2.1
    (by rw [handlerPanics_example]; simp) (Or.inl rfl)

/-! ## Lemmas on the on-call role synchronisation -/

theorem assignOnCallRole_limit (env : RoleEnv) (guildId userId : Nat) (roleId : Option Nat)
    (team : Option SupportTeam) (attempt : Int) (history : List RoleEvent)
    (h : attempt ≥ 2) :
    assignOnCallRole env guildId userId roleId team attempt history =
      (history, some (.text "reached retry limit")) := by
  rw [assignOnCallRole]
  simp [h]

theorem assignOnCallRole_below (env : RoleEnv) (guildId userId : Nat) (roleId : Option Nat)
    (team : Option SupportTeam) (attempt : Int) (history : List RoleEvent)
    (h : ¬ attempt ≥ 2) :
    assignOnCallRole env guildId userId roleId team attempt history =
      match attemptOnce env guildId userId roleId team history with
      | (history1, .returned err) => (history1, err)
      | (history1, .retry) =>
        assignOnCallRole env guildId userId none team (attempt + 1) history1 := by
  rw [assignOnCallRole]
  simp only [h, if_false]

theorem attemptOnce_countP_le (p : RoleEvent → Bool) (env : RoleEnv) (guildId userId : Nat)
    (roleId : Option Nat) (team : Option SupportTeam) (history : List RoleEvent)
    (hg : ∀ g r, p (.setGuildOnCallRole g r) = false)
    (ht : ∀ t r, p (.setTeamOnCallRole t r) = false)
    (hone : ∀ t g u r, p (.createOnCallRole t) = false ∨ p (.addGuildMemberRole g u r) = false) :
    (attemptOnce env guildId userId roleId team history).1.countP p ≤
      history.countP p + 1 := by
  unfold attemptOnce clearStoredRole
  cases roleId with
  | some id =>
    simp only
    rcases env.addGuildMemberRole (history.countP RoleEvent.isAssign) guildId userId id with
      err | _
    · simp only
      split_ifs
      · cases team with
        | none =>
          simp only
          rcases env.setGuildOnCallRole _ guildId with e2 | _ <;>
            simp [List.countP_append, List.countP_cons, hg] <;> split_ifs <;> omega
        | some t =>
          simp only
          rcases env.setTeamOnCallRole _ t.Id with e2 | _ <;>
            simp [List.countP_append, List.countP_cons, ht] <;> split_ifs <;> omega
      · simp [List.countP_append, List.countP_cons]
        split_ifs <;> omega
    · simp [List.countP_append, List.countP_cons]
      split_ifs <;> omega
  | none =>
    simp only
    rcases env.createOnCallRole (history.countP RoleEvent.isCreate) team with err | id
    · simp [List.countP_append, List.countP_cons]
      split_ifs <;> omega
    · simp only
      have hsum : ((if p (.createOnCallRole team) = true then 1 else 0) +
          (if p (.addGuildMemberRole guildId userId id) = true then 1 else 0)) ≤ 1 := by
        rcases hone team guildId userId id with h | h <;> simp [h] <;> split_ifs <;> omega
      rcases env.addGuildMemberRole _ guildId userId id with err | _
      · simp only
        split_ifs
        · cases team with
          | none =>
            simp only
            rcases env.setGuildOnCallRole _ guildId with e2 | _ <;>
              simp [List.countP_append, List.countP_cons, hg] <;> omega
          | some t =>
            simp only
            rcases env.setTeamOnCallRole _ t.Id with e2 | _ <;>
              simp [List.countP_append, List.countP_cons, ht] <;> omega
        · simp [List.countP_append, List.countP_cons]
          omega
      · simp [List.countP_append, List.countP_cons]
        omega

theorem assignOnCallRole_countP_le (p : RoleEvent → Bool) (env : RoleEnv)
    (guildId userId : Nat) (roleId : Option Nat) (team : Option SupportTeam)
    (hg : ∀ g r, p (.setGuildOnCallRole g r) = false)
    (ht : ∀ t r, p (.setTeamOnCallRole t r) = false)
    (hone : ∀ t g u r, p (.createOnCallRole t) = false ∨ p (.addGuildMemberRole g u r) = false) :
    (assignOnCallRole env guildId userId roleId team 0 []).1.countP p ≤ 2 := by
  have hstep := fun roleId history =>
    attemptOnce_countP_le p env guildId userId roleId team history hg ht hone
  rw [assignOnCallRole_below _ _ _ _ _ _ _ (by decide)]
  have h0 := hstep roleId []
  rcases hx : attemptOnce env guildId userId roleId team [] with ⟨history1, err | _⟩
  · rw [hx] at h0
    simp at h0 ⊢
    omega
  · rw [hx] at h0
    simp only
    rw [assignOnCallRole_below _ _ _ _ _ _ _ (by decide)]
    have h1 := hstep none history1
    rcases hy : attemptOnce env guildId userId none team history1 with ⟨history2, err | _⟩
    · rw [hy] at h1
      simp at h0 h1 ⊢
      omega
    · rw [hy] at h1
      simp only
      rw [assignOnCallRole_limit _ _ _ _ _ _ _ (by decide)]
      simp at h0 h1 ⊢
      omega

/-- C18: started at attempt 0 without a role id, when the first creation yields role `r1`,
the assignment of `r1` fails with the REST error 10011, the clear succeeds, the second
creation yields `r2` and the assignment of `r2` succeeds, `assignOnCallRole` returns `nil`
after exactly these calls: creation, assignment of `r1`, clear, creation, assignment of
`r2`.  The clear is the setter of the guild-wide role when `team` is `nil` and the setter
of that team's role otherwise. -/
theorem C18_recreate_and_retry_once (env : RoleEnv) (guildId userId r1 r2 : Nat) :
    (env.createOnCallRole 0 none = .ok r1 →
      env.addGuildMemberRole 0 guildId userId r1 = .error (.rest 10011) →
      env.setGuildOnCallRole 0 guildId = .ok () →
      env.createOnCallRole 1 none = .ok r2 →
      env.addGuildMemberRole 1 guildId userId r2 = .ok () →
      assignOnCallRole env guildId userId none none 0 [] =
        ([.createOnCallRole none, .addGuildMemberRole guildId userId r1,
          .setGuildOnCallRole guildId none, .createOnCallRole none,
          .addGuildMemberRole guildId userId r2], none)) ∧
    (∀ t : SupportTeam,
      env.createOnCallRole 0 (some t) = .ok r1 →
      env.addGuildMemberRole 0 guildId userId r1 = .error (.rest 10011) →
      env.setTeamOnCallRole 0 t.Id = .ok () →
      env.createOnCallRole 1 (some t) = .ok r2 →
      env.addGuildMemberRole 1 guildId userId r2 = .ok () →
      assignOnCallRole env guildId userId none (some t) 0 [] =
        ([.createOnCallRole (some t), .addGuildMemberRole guildId userId r1,
          .setTeamOnCallRole t.Id none, .createOnCallRole (some t),
          .addGuildMemberRole guildId userId r2], none)) := by
  refine ⟨?_, ?_⟩
  · intro hc1 ha1 hs hc2 ha2
    rw [assignOnCallRole_below _ _ _ _ _ _ _ (by decide)]
    have h1 : attemptOnce env guildId userId none none [] =
        ([.createOnCallRole none, .addGuildMemberRole guildId userId r1,
          .setGuildOnCallRole guildId none], .retry) := by
      simp [attemptOnce, clearStoredRole, hc1, ha1, hs, RoleEvent.isCreate,
        RoleEvent.isAssign, RoleEvent.isSetGuild, List.countP_cons]
    rw [h1]
    simp only
    rw [assignOnCallRole_below _ _ _ _ _ _ _ (by decide)]
    have h2 : attemptOnce env guildId userId none none
        [.createOnCallRole none, .addGuildMemberRole guildId userId r1,
          .setGuildOnCallRole guildId none] =
        ([.createOnCallRole none, .addGuildMemberRole guildId userId r1,
          .setGuildOnCallRole guildId none, .createOnCallRole none,
          .addGuildMemberRole guildId userId r2], .returned none) := by
      simp [attemptOnce, hc2, ha2, RoleEvent.isCreate, RoleEvent.isAssign,
        List.countP_cons]
    rw [h2]
  · intro t hc1 ha1 hs hc2 ha2
    rw [assignOnCallRole_below _ _ _ _ _ _ _ (by decide)]
    have h1 : attemptOnce env guildId userId none (some t) [] =
        ([.createOnCallRole (some t), .addGuildMemberRole guildId userId r1,
          .setTeamOnCallRole t.Id none], .retry) := by
      simp [attemptOnce, clearStoredRole, hc1, ha1, hs, RoleEvent.isCreate,
        RoleEvent.isAssign, RoleEvent.isSetTeam, List.countP_cons]
    rw [h1]
    simp only
    rw [assignOnCallRole_below _ _ _ _ _ _ _ (by decide)]
    have h2 : attemptOnce env guildId userId none (some t)
        [.createOnCallRole (some t), .addGuildMemberRole guildId userId r1,
          .setTeamOnCallRole t.Id none] =
        ([.createOnCallRole (some t), .addGuildMemberRole guildId userId r1,
          .setTeamOnCallRole t.Id none, .createOnCallRole (some t),
          .addGuildMemberRole guildId userId r2], .returned none) := by
      simp [attemptOnce, hc2, ha2, RoleEvent.isCreate, RoleEvent.isAssign,
        List.countP_cons]
    rw [h2]

/-- C20: a call with `attempt >= 2` returns the error `reached retry limit` without any
call of a collaborator (no creation, no assignment, no setter).  Hence, whatever the
collaborators answer, a call started at attempt 0 makes at most two role creations and at
most two assignment attempts before it returns. -/
theorem C20_retry_limit (env : RoleEnv) (guildId userId : Nat) (roleId : Option Nat)
    (team : Option SupportTeam) :
    (∀ (attempt : Int) (history : List RoleEvent), attempt ≥ 2 →
      assignOnCallRole env guildId userId roleId team attempt history =
        (history, some (.text "reached retry limit"))) ∧
    (assignOnCallRole env guildId userId roleId team 0 []).1.countP RoleEvent.isCreate ≤ 2 ∧
    (assignOnCallRole env guildId userId roleId team 0 []).1.countP RoleEvent.isAssign ≤ 2 :=
  ⟨fun attempt history h =>
      assignOnCallRole_limit env guildId userId roleId team attempt history h,
    assignOnCallRole_countP_le RoleEvent.isCreate env guildId userId roleId team
      (fun _ _ => rfl) (fun _ _ => rfl) (fun _ _ _ _ => Or.inr rfl),
    assignOnCallRole_countP_le RoleEvent.isAssign env guildId userId roleId team
      (fun _ _ => rfl) (fun _ _ => rfl) (fun _ _ _ _ => Or.inl rfl)⟩

/-- C19: started at attempt 0, when the first and the second assignment attempt both fail
with the REST error 10011 while every creation and every clear succeeds,
`assignOnCallRole` returns the error `reached retry limit`; it has made exactly two
assignment attempts and at most two creations (two when it started without a role id), so
no third creation or assignment is attempted. -/
theorem C19_retry_limit_after_two_failures (env : RoleEnv) (guildId userId : Nat)
    (roleId : Option Nat) (team : Option SupportTeam)
    (hcreate : ∀ n, ∃ r, env.createOnCallRole n team = .ok r)
    (hassign : ∀ role,
      env.addGuildMemberRole 0 guildId userId role = .error (.rest 10011) ∧
      env.addGuildMemberRole 1 guildId userId role = .error (.rest 10011))
    (hclear : ∀ n, env.setGuildOnCallRole n guildId = .ok () ∧
      ∀ id, env.setTeamOnCallRole n id = .ok ()) :
    (assignOnCallRole env guildId userId roleId team 0 []).2 =
      some (.text "reached retry limit") ∧
    (assignOnCallRole env guildId userId roleId team 0 []).1.countP RoleEvent.isAssign = 2 ∧
    (assignOnCallRole env guildId userId roleId team 0 []).1.countP RoleEvent.isCreate ≤ 2 ∧
    (roleId = none →
      (assignOnCallRole env guildId userId roleId team 0 []).1.countP
        RoleEvent.isCreate = 2) := by
  obtain ⟨c0, hc0⟩ := hcreate 0
  obtain ⟨c1, hc1⟩ := hcreate 1
  have ha0 := fun role => (hassign role).1
  have ha1 := fun role => (hassign role).2
  have hg := fun n => (hclear n).1
  have ht := fun n id => (hclear n).2 id
  rw [assignOnCallRole_below _ _ _ _ _ _ _ (by decide)]
  cases roleId with
  | none =>
    cases team with
    | none =>
      have h1 : attemptOnce env guildId userId none none [] =
          ([.createOnCallRole none, .addGuildMemberRole guildId userId c0,
            .setGuildOnCallRole guildId none], .retry) := by
        simp [attemptOnce, clearStoredRole, hc0, ha0, hg, RoleEvent.isCreate,
          RoleEvent.isAssign, RoleEvent.isSetGuild, List.countP_cons]
      rw [h1]
      simp only
      rw [assignOnCallRole_below _ _ _ _ _ _ _ (by decide)]
      have h2 : attemptOnce env guildId userId none none
          [.createOnCallRole none, .addGuildMemberRole guildId userId c0,
            .setGuildOnCallRole guildId none] =
          ([.createOnCallRole none, .addGuildMemberRole guildId userId c0,
            .setGuildOnCallRole guildId none, .createOnCallRole none,
            .addGuildMemberRole guildId userId c1,
            .setGuildOnCallRole guildId none], .retry) := by
        simp [attemptOnce, clearStoredRole, hc1, ha1, hg, RoleEvent.isCreate,
          RoleEvent.isAssign, RoleEvent.isSetGuild, List.countP_cons]
      rw [h2]
      simp only
      rw [assignOnCallRole_limit _ _ _ _ _ _ _ (by decide)]
      simp [RoleEvent.isCreate, RoleEvent.isAssign, List.countP_cons]
    | some t =>
      have h1 : attemptOnce env guildId userId none (some t) [] =
          ([.createOnCallRole (some t), .addGuildMemberRole guildId userId c0,
            .setTeamOnCallRole t.Id none], .retry) := by
        simp [attemptOnce, clearStoredRole, hc0, ha0, ht, RoleEvent.isCreate,
          RoleEvent.isAssign, RoleEvent.isSetTeam, List.countP_cons]
      rw [h1]
      simp only
      rw [assignOnCallRole_below _ _ _ _ _ _ _ (by decide)]
      have h2 : attemptOnce env guildId userId none (some t)
          [.createOnCallRole (some t), .addGuildMemberRole guildId userId c0,
            .setTeamOnCallRole t.Id none] =
          ([.createOnCallRole (some t), .addGuildMemberRole guildId userId c0,
            .setTeamOnCallRole t.Id none, .createOnCallRole (some t),
            .addGuildMemberRole guildId userId c1,
            .setTeamOnCallRole t.Id none], .retry) := by
        simp [attemptOnce, clearStoredRole, hc1, ha1, ht, RoleEvent.isCreate,
          RoleEvent.isAssign, RoleEvent.isSetTeam, List.countP_cons]
      rw [h2]
      simp only
      rw [assignOnCallRole_limit _ _ _ _ _ _ _ (by decide)]
      simp [RoleEvent.isCreate, RoleEvent.isAssign, List.countP_cons]
  | some r0 =>
    cases team with
    | none =>
      have h1 : attemptOnce env guildId userId (some r0) none [] =
          ([.addGuildMemberRole guildId userId r0,
            .setGuildOnCallRole guildId none], .retry) := by
        simp [attemptOnce, clearStoredRole, ha0, hg, RoleEvent.isCreate,
          RoleEvent.isAssign, RoleEvent.isSetGuild, List.countP_cons]
      rw [h1]
      simp only
      rw [assignOnCallRole_below _ _ _ _ _ _ _ (by decide)]
      have h2 : attemptOnce env guildId userId none none
          [.addGuildMemberRole guildId userId r0, .setGuildOnCallRole guildId none] =
          ([.addGuildMemberRole guildId userId r0, .setGuildOnCallRole guildId none,
            .createOnCallRole none, .addGuildMemberRole guildId userId c0,
            .setGuildOnCallRole guildId none], .retry) := by
        simp [attemptOnce, clearStoredRole, hc0, ha1, hg, RoleEvent.isCreate,
          RoleEvent.isAssign, RoleEvent.isSetGuild, List.countP_cons]
      rw [h2]
      simp only
      rw [assignOnCallRole_limit _ _ _ _ _ _ _ (by decide)]
      simp [RoleEvent.isCreate, RoleEvent.isAssign, List.countP_cons]
    | some t =>
      have h1 : attemptOnce env guildId userId (some r0) (some t) [] =
          ([.addGuildMemberRole guildId userId r0,
            .setTeamOnCallRole t.Id none], .retry) := by
        simp [attemptOnce, clearStoredRole, ha0, ht, RoleEvent.isCreate,
          RoleEvent.isAssign, RoleEvent.isSetTeam, List.countP_cons]
      rw [h1]
      simp only
      rw [assignOnCallRole_below _ _ _ _ _ _ _ (by decide)]
      have h2 : attemptOnce env guildId userId none (some t)
          [.addGuildMemberRole guildId userId r0, .setTeamOnCallRole t.Id none] =
          ([.addGuildMemberRole guildId userId r0, .setTeamOnCallRole t.Id none,
            .createOnCallRole (some t), .addGuildMemberRole guildId userId c0,
            .setTeamOnCallRole t.Id none], .retry) := by
        simp [attemptOnce, clearStoredRole, hc0, ha1, ht, RoleEvent.isCreate,
          RoleEvent.isAssign, RoleEvent.isSetTeam, List.countP_cons]
      rw [h2]
      simp only
      rw [assignOnCallRole_limit _ _ _ _ _ _ _ (by decide)]
      simp [RoleEvent.isCreate, RoleEvent.isAssign, List.countP_cons]

/-- C18 at a concrete run: the guild-wide role of guild 5 was deleted once; user 7 gets
the role created second. -/
theorem C18_witness :
    assignOnCallRole roleDeletedOnceEnv 5 7 none none 0 [] =
      ([.createOnCallRole none, .addGuildMemberRole 5 7 100,
        .setGuildOnCallRole 5 none, .createOnCallRole none,
        .addGuildMemberRole 5 7 101], none) :=
  (C18_recreate_and_retry_once roleDeletedOnceEnv 5 7 100 101).1 rfl rfl rfl rfl rfl

/-- C19 at a concrete run: every assignment in guild 5 fails with the REST error 10011. -/
theorem C19_witness :
    (assignOnCallRole roleAlwaysMissingEnv 5 7 none none 0 []).2 =
      some (.text "reached retry limit") ∧
    (assignOnCallRole roleAlwaysMissingEnv 5 7 none none 0 []).1.countP
      RoleEvent.isAssign = 2 :=
  have h := C19_retry_limit_after_two_failures roleAlwaysMissingEnv 5 7 none none
    (fun n => ⟨100 + n, rfl⟩) (fun _ => ⟨rfl, rfl⟩) (fun _ => ⟨rfl, fun _ => rfl⟩)
  ⟨h.1, h.2.1⟩

/-- C20 at a concrete call: attempt 2 makes no call and returns the retry-limit error. -/
theorem C20_witness :
    assignOnCallRole roleAlwaysMissingEnv 5 7 none none 2 [] =
      ([], some (.text "reached retry limit")) :=
  (C20_retry_limit roleAlwaysMissingEnv 5 7 none none).1 2 [] (by decide)

/-- C21: the code breaks the claim by the slip of line 180.  In a call of
`assignOnCallRole` below the retry limit, after the calls of `history`: (1) a failure of
the role creation is returned as it is, after that creation alone; and once the role id
is there (given, or just created, `history1` being the calls so far), (2) an assignment
failure `err` other than the REST error 10011 ends the call with the assignment as the
last call, so that no setter is called and there is no further attempt, but the error
returned is the variable `err` of line 180: it is `err` when `err` is a REST error, and
it is the zero `request.RestError` (code 0), which differs from `err`, when `err` is no
REST error; (3), (4) when the assignment fails with the REST error 10011 and the clear of
the stored id fails, the error of the clear is returned as it is, the clear being the
last call. -/
theorem C21_shadowed_error_returned (env : RoleEnv) (guildId userId : Nat)
    (roleId : Option Nat) (team : Option SupportTeam) (attempt : Int)
    (history : List RoleEvent) (err : Err) (hattempt : attempt < 2) :
    (roleId = none →
      env.createOnCallRole (history.countP RoleEvent.isCreate) team = .error err →
      assignOnCallRole env guildId userId roleId team attempt history =
        (history ++ [.createOnCallRole team], some err)) ∧
    (∀ (id : Nat) (history1 : List RoleEvent),
      ((roleId = some id ∧ history1 = history) ∨
        (roleId = none ∧
          env.createOnCallRole (history.countP RoleEvent.isCreate) team = .ok id ∧
          history1 = history ++ [.createOnCallRole team])) →
      (env.addGuildMemberRole (history1.countP RoleEvent.isAssign) guildId userId id =
          .error err →
        err ≠ .rest 10011 →
        assignOnCallRole env guildId userId roleId team attempt history =
          (history1 ++ [.addGuildMemberRole guildId userId id],
            some (shadowedRestError err)) ∧
        (∀ code : Nat, err = .rest code → shadowedRestError err = err) ∧
        ((∀ code : Nat, err ≠ .rest code) →
          shadowedRestError err = .rest 0 ∧ shadowedRestError err ≠ err)) ∧
      (env.addGuildMemberRole (history1.countP RoleEvent.isAssign) guildId userId id =
          .error (.rest 10011) →
        team = none →
        env.setGuildOnCallRole (history1.countP RoleEvent.isSetGuild) guildId = .error err →
        assignOnCallRole env guildId userId roleId team attempt history =
          (history1 ++ [.addGuildMemberRole guildId userId id,
            .setGuildOnCallRole guildId none], some err)) ∧
      (∀ t : SupportTeam,
        env.addGuildMemberRole (history1.countP RoleEvent.isAssign) guildId userId id =
          .error (.rest 10011) →
        team = some t →
        env.setTeamOnCallRole (history1.countP RoleEvent.isSetTeam) t.Id = .error err →
        assignOnCallRole env guildId userId roleId team attempt history =
          (history1 ++ [.addGuildMemberRole guildId userId id,
            .setTeamOnCallRole t.Id none], some err))) := by
  have hlt : ¬ attempt ≥ 2 := by omega
  refine ⟨?_, ?_⟩
  · intro hr hc
    subst hr
    rw [assignOnCallRole_below _ _ _ _ _ _ _ hlt]
    simp only [attemptOnce, hc]
  · intro id history1 hrole
    rw [assignOnCallRole_below _ _ _ _ _ _ _ hlt]
    have hg : ∀ e : RoleEvent, e.isSetGuild = false →
        (history1 ++ [e]).countP RoleEvent.isSetGuild =
          history1.countP RoleEvent.isSetGuild := by
      intro e he
      simp [List.countP_append, List.countP_cons, he]
    have ht : ∀ e : RoleEvent, e.isSetTeam = false →
        (history1 ++ [e]).countP RoleEvent.isSetTeam =
          history1.countP RoleEvent.isSetTeam := by
      intro e he
      simp [List.countP_append, List.countP_cons, he]
    refine ⟨?_, ?_, ?_⟩
    · intro ha hne
      refine ⟨?_, ?_, ?_⟩
      · rcases hrole with ⟨hr, hh⟩ | ⟨hr, hc, hh⟩
        · subst hr hh
          simp only [attemptOnce, ha, hne, if_false]
        · subst hr hh
          simp only [attemptOnce, hc, ha, hne, if_false]
      · intro code hcode
        subst hcode
        rfl
      · intro hno
        cases err with
        | rest code => exact absurd rfl (hno code)
        | text msg => exact ⟨rfl, by simp [shadowedRestError]⟩
        | argumentNotFound => exact ⟨rfl, by simp [shadowedRestError]⟩
        | deadlineExceeded => exact ⟨rfl, by simp [shadowedRestError]⟩
        | external n => exact ⟨rfl, by simp [shadowedRestError]⟩
    · intro ha hteam hs
      subst hteam
      rw [← hg (.addGuildMemberRole guildId userId id) rfl] at hs
      rcases hrole with ⟨hr, hh⟩ | ⟨hr, hc, hh⟩
      · subst hr hh
        simp only [attemptOnce, ha, clearStoredRole, hs, if_true, List.append_assoc,
          List.cons_append, List.nil_append]
      · subst hr hh
        simp only [attemptOnce, hc, ha, clearStoredRole, hs, if_true]
        simp
    · intro t ha hteam hs
      subst hteam
      rw [← ht (.addGuildMemberRole guildId userId id) rfl] at hs
      rcases hrole with ⟨hr, hh⟩ | ⟨hr, hc, hh⟩
      · subst hr hh
        simp only [attemptOnce, ha, clearStoredRole, hs, if_true, List.append_assoc,
          List.cons_append, List.nil_append]
      · subst hr hh
        simp only [attemptOnce, hc, ha, clearStoredRole, hs, if_true]
        simp

/-- C21 at concrete runs: the assignment of role 9 to user 7 of guild 5 times out, and
the call returns the zero `request.RestError` instead of the exceeded deadline, after the
assignment alone; when the assignment fails with the REST error 50013, that error is
returned. -/
theorem C21_witness :
    roleTimeoutEnv.addGuildMemberRole 0 5 7 9 = .error .deadlineExceeded ∧
    assignOnCallRole roleTimeoutEnv 5 7 (some 9) none 0 [] =
      ([.addGuildMemberRole 5 7 9], some (.rest 0)) ∧
    Err.rest 0 ≠ Err.deadlineExceeded ∧
    assignOnCallRole roleForbiddenEnv 5 7 (some 9) none 0 [] =
      ([.addGuildMemberRole 5 7 9], some (.rest 50013)) :=
  ⟨rfl,
    (((C21_shadowed_error_returned roleTimeoutEnv 5 7 (some 9) none 0 [] .deadlineExceeded
      (by decide)).2 9 [] (Or.inl ⟨rfl, rfl⟩)).1 rfl (by decide)).1,
    by decide,
    (((C21_shadowed_error_returned roleForbiddenEnv 5 7 (some 9) none 0 [] (.rest 50013)
      (by decide)).2 9 [] (Or.inl ⟨rfl, rfl⟩)).1 rfl (by decide)).1⟩

/-! ## Lemmas on the process-wide premium switch -/

/-- C25, the claim as stated fails: in a process started with `PremiumOnly`, a guild
invocation whose premium fetch failed (the tier is `None`) and whose permission fetch
failed too does not end silently: the dispatch unit reports the error to sentry and sends
the error message. -/
theorem C25_counterexample :
    bothFetchesFailingEnv.confPremiumOnly = true ∧
    (∃ err, bothFetchesFailingEnv.getTierByGuildId pingData.GuildId = .error err) ∧
    (fetchPremium bothFetchesFailingEnv pingData.GuildId).2 = .None ∧
    dispatchUnit bothFetchesFailingEnv pingCommand [] pingData =
      [.getTierByGuildId 5, .sentryError .deadlineExceeded, .getPermissionLevel 1 5,
        .sentryError (.external 1),
        .send "An error occurred while processing this request (Error ID `e1`)"] ∧
    (dispatchUnit bothFetchesFailingEnv pingCommand [] pingData).countP Event.isSend = 1 :=
  ⟨rfl, ⟨_, rfl⟩, rfl, rfl, rfl⟩

/-- C25 (amended): in a process started with `PremiumOnly`, a dispatch unit whose
authorization facts were resolved with the premium tier `None` ends silently: its trace
consists of the fetches alone, so that nothing is sent, no `Reply` and no `HandleError` is
made, no gate collaborator is called, the handler is not invoked and the response channel
is not closed.  This covers every direct-message invocation (no fetch at all), and every
guild invocation whose permission fetch succeeded while its premium fetch failed or
returned `None`. -/
theorem C25_premium_only_ends_silently (env : Env) (cmd : Command)
    (options : List CommandOption) (data : Interaction)
    (hflag : env.confPremiumOnly = true) :
    (∀ (fetches : List Event) (L : PermissionLevel),
      authorize env data = (fetches, .ok (L, .None)) →
      dispatchUnit env cmd options data = fetches ∧
      (dispatchUnit env cmd options data).countP Event.isSend = 0 ∧
      (dispatchUnit env cmd options data).countP Event.isReply = 0 ∧
      (dispatchUnit env cmd options data).countP Event.isGateCall = 0 ∧
      handlerCalls (dispatchUnit env cmd options data) = 0 ∧
      (dispatchUnit env cmd options data).countP Event.isClose = 0 ∧
      (∀ e, Event.handleError e ∉ dispatchUnit env cmd options data)) ∧
    ((data.GuildId = 0 ∨ data.Member = none) →
      dispatchUnit env cmd options data = []) ∧
    (∀ (m : Nat) (L : PermissionLevel), data.GuildId ≠ 0 → data.Member = some m →
      env.getPermissionLevel m data.GuildId = .ok L →
      (∀ err, env.getTierByGuildId data.GuildId = .error err →
        dispatchUnit env cmd options data =
          [.getTierByGuildId data.GuildId, .sentryError err,
            .getPermissionLevel m data.GuildId]) ∧
      (env.getTierByGuildId data.GuildId = .ok .None →
        dispatchUnit env cmd options data =
          [.getTierByGuildId data.GuildId, .getPermissionLevel m data.GuildId])) := by
  have hsilent : ∀ (fetches : List Event) (L : PermissionLevel),
      authorize env data = (fetches, .ok (L, .None)) →
      dispatchUnit env cmd options data = fetches := by
    intro fetches L ha
    unfold dispatchUnit
    simp only [ha]
    simp [afterAuthorization, hflag]
  refine ⟨?_, ?_, ?_⟩
  · intro fetches L ha
    have hd := hsilent fetches L ha
    have hf : fetches = (authorize env data).1 := by rw [ha]
    have hfetch : ∀ e ∈ fetches,
        e.isSend = false ∧ e.isReply = false ∧ e.isGateCall = false ∧
        e.isCallCommand = false ∧ e.isClose = false ∧ ∀ x, e ≠ Event.handleError x := by
      intro e he
      rw [hf] at he
      unfold authorize at he
      cases hm : data.Member with
      | none => simp [hm] at he
      | some member =>
        by_cases hg : data.GuildId = 0
        · simp [hm, hg] at he
        · have hmem : e = .getTierByGuildId data.GuildId ∨
              (∃ err, e = .sentryError err) ∨
              e = .getPermissionLevel member data.GuildId := by
            cases hp : env.getPermissionLevel member data.GuildId <;>
              cases ht : env.getTierByGuildId data.GuildId <;>
              simp [hm, hg, hp, ht, fetchPremium] at he <;>
              tauto
          rcases hmem with h | ⟨err, h⟩ | h <;> subst h <;>
            simp [Event.isSend, Event.isReply, Event.isGateCall, Event.isCallCommand,
              Event.isClose]
    rw [hd]
    refine ⟨rfl, ?_, ?_, ?_, ?_, ?_, ?_⟩
    · exact List.countP_eq_zero.mpr (fun e he => by simp [(hfetch e he).1])
    · exact List.countP_eq_zero.mpr (fun e he => by simp [(hfetch e he).2.1])
    · exact List.countP_eq_zero.mpr (fun e he => by simp [(hfetch e he).2.2.1])
    · unfold handlerCalls
      exact List.countP_eq_zero.mpr (fun e he => by simp [(hfetch e he).2.2.2.1])
    · exact List.countP_eq_zero.mpr (fun e he => by simp [(hfetch e he).2.2.2.2.1])
    · intro x hx
      exact (hfetch _ hx).2.2.2.2.2 x rfl
  · intro hdm
    exact hsilent [] .Everyone (authorize_direct env data hdm)
  · intro m L hg hm hp
    have ha := authorize_guild env data m hg hm
    simp only [hp] at ha
    refine ⟨?_, ?_⟩
    · intro err ht
      apply hsilent _ L
      rw [ha]
      simp [fetchPremium, ht]
    · intro ht
      apply hsilent _ L
      rw [ha]
      simp [fetchPremium, ht]

/-- C25 at a concrete invocation: `ping` in guild 5, whose premium fetch times out, in a
process started with `PremiumOnly`; the trace is the two fetches and the report of the
premium error. -/
theorem C25_witness :
    dispatchUnit degradedPremiumOnlyEnv pingCommand [] pingData =
      [.getTierByGuildId 5, .sentryError .deadlineExceeded, .getPermissionLevel 1 5] :=
  ((C25_premium_only_ends_silently degradedPremiumOnlyEnv pingCommand [] pingData rfl).2.2
    1 .Support (by decide) rfl rfl).1 .deadlineExceeded rfl

/-! ## Lemmas on the off-call path of the on-call command -/

theorem removeOnCallRole_settled (env : OnCallEnv) (guildId userId roleId : Nat)
    (team : Option SupportTeam) (trace : List OnCallEvent) (h : OnCallOpen trace) :
    OnCallSettled (removeOnCallRole env guildId userId roleId team trace) := by
  obtain ⟨he, hr⟩ := h
  unfold removeOnCallRole OnCallSettled
  rcases hx : env.removeGuildMemberRole (trace.countP OnCallEvent.isRemove) guildId userId
    roleId with err | _
  · by_cases hc : err = .rest 10011
    · cases team with
      | none =>
        rcases hy : env.roles.setGuildOnCallRole (trace.countP OnCallEvent.isSetGuild)
          guildId with err2 | _ <;>
          simp [hc, hy, he, hr, List.countP_append, List.countP_cons, OnCallEvent.isReply,
            OnCallEvent.isHandleError, List.getLast?_append]
      | some t =>
        rcases hy : env.roles.setTeamOnCallRole (trace.countP OnCallEvent.isSetTeam)
          t.Id with err2 | _ <;>
          simp [hc, hy, he, hr, List.countP_append, List.countP_cons, OnCallEvent.isReply,
            OnCallEvent.isHandleError, List.getLast?_append]
    · simp [hc, he, hr, List.countP_append, List.countP_cons, OnCallEvent.isReply,
        OnCallEvent.isHandleError, List.getLast?_append]
  · simp [he, hr, List.countP_append, List.countP_cons, OnCallEvent.isReply,
      OnCallEvent.isHandleError]

theorem onCallOpen_of_settled (r : List OnCallEvent × Bool) (h : OnCallSettled r)
    (hr : r.2 = false) : OnCallOpen r.1 :=
  ⟨h.2.2 hr, h.1⟩

theorem processTargets_settled (env : OnCallEnv) (guildId userId : Nat)
    (targets : List (Option SupportTeam × Nat)) :
    ∀ trace : List OnCallEvent, OnCallOpen trace →
      OnCallSettled (processTargets env guildId userId targets trace) := by
  induction targets with
  | nil =>
    intro trace h
    exact ⟨h.2, by simp [processTargets], fun _ => h.1⟩
  | cons target rest ih =>
    intro trace h
    obtain ⟨team, roleId⟩ := target
    have hs := removeOnCallRole_settled env guildId userId roleId team trace h
    unfold processTargets
    cases hb : (removeOnCallRole env guildId userId roleId team trace).2 with
    | true =>
      simp only [if_true]
      exact hs
    | false =>
      simp only [Bool.false_eq_true, if_false]
      exact ih _ (onCallOpen_of_settled _ hs hb)

theorem removeTeamRoles_eq (env : OnCallEnv) (guildId userId : Nat)
    (teams : Nat → Option SupportTeam) (teamIds : List Nat) :
    ∀ (i : Nat) (trace : List OnCallEvent),
      removeTeamRoles env guildId userId teams i teamIds trace =
        processTargets env guildId userId
          ((teamIds.take (5 - i)).filterMap (fun teamId =>
            match teams teamId with
            | none => none
            | some team =>
              match team.OnCallRole with
              | none => none
              | some roleId => some (some team, roleId))) trace := by
  induction teamIds with
  | nil =>
    intro i trace
    simp [removeTeamRoles, processTargets]
  | cons teamId rest ih =>
    intro i trace
    unfold removeTeamRoles
    by_cases hi : i ≥ 5
    · have h0 : 5 - i = 0 := by omega
      simp [hi, h0, processTargets]
    · have h1 : 5 - i = (5 - (i + 1)) + 1 := by omega
      simp only [hi, if_false]
      rw [h1, List.take_succ_cons]
      cases ht : teams teamId with
      | none =>
        simp only [List.filterMap_cons, ht]
        exact ih (i + 1) trace
      | some team =>
        cases hrole : team.OnCallRole with
        | none =>
          simp only [List.filterMap_cons, ht, hrole]
          exact ih (i + 1) trace
        | some roleId =>
          simp only [List.filterMap_cons, ht, hrole]
          rw [processTargets, ih (i + 1)]

theorem offCallPath_eq (env : OnCallEnv) (guildId userId : Nat) (defaultTeam : Bool)
    (metadataOnCallRole : Option Nat) (teamIds : List Nat)
    (teams : Nat → Option SupportTeam) (trace : List OnCallEvent) :
    offCallPath env guildId userId defaultTeam metadataOnCallRole teamIds teams trace =
      finishOffCall (processTargets env guildId userId
        (offCallTargets defaultTeam metadataOnCallRole teamIds teams) trace) := by
  have hloop := removeTeamRoles_eq env guildId userId teams teamIds 0
  simp only [Nat.sub_zero] at hloop
  unfold offCallPath removeDefaultRole offCallTargets
  cases defaultTeam with
  | false =>
    simp only [Bool.false_eq_true, if_false, List.nil_append]
    rw [hloop]
  | true =>
    cases metadataOnCallRole with
    | none =>
      simp only [if_true, Bool.false_eq_true, if_false, List.nil_append]
      rw [hloop]
    | some roleId =>
      simp only [if_true, List.singleton_append]
      rw [processTargets]
      cases hb : (removeOnCallRole env guildId userId roleId none trace).2 with
      | true => simp [finishOffCall, hb]
      | false =>
        simp only [Bool.false_eq_true, if_false]
        rw [hloop]

/-- C22: on the off-call path of `OnCallCommand.Execute`.  (1) One target, the guild-wide
role (`team` is `nil`) or a team's role: when the removal succeeds the path goes on; when
it fails with another error than the REST error 10011, `HandleError` gets that error and
`Execute` returns; when it fails with the REST error 10011, the setter of exactly that
target is called with `nil`, and the path goes on if the setter succeeds, while
`HandleError` gets the setter's error and `Execute` returns if it fails.  (2) The path
processes in this way, in order, the guild-wide role if the member is in the default team
and a guild-wide role id is recorded, then the teams among the first five team ids that
are found and have a role id recorded, and nothing else: a target without a recorded role
id causes no removal call.  (3) If no target made `Execute` return, the last call is the
success reply, the only `Reply`, and `HandleError` is not called; otherwise the last call
is the only `HandleError` and no `Reply` is made. -/
theorem C22_off_call_self_heal (env : OnCallEnv) (guildId userId : Nat) :
    (∀ (roleId : Nat) (team : Option SupportTeam) (trace : List OnCallEvent),
      (env.removeGuildMemberRole (trace.countP OnCallEvent.isRemove) guildId userId roleId =
          .ok () →
        removeOnCallRole env guildId userId roleId team trace =
          (trace ++ [.removeGuildMemberRole guildId userId roleId], false)) ∧
      (∀ err,
        env.removeGuildMemberRole (trace.countP OnCallEvent.isRemove) guildId userId roleId =
          .error err →
        err ≠ .rest 10011 →
        removeOnCallRole env guildId userId roleId team trace =
          (trace ++ [.removeGuildMemberRole guildId userId roleId, .handleError err],
            true)) ∧
      (env.removeGuildMemberRole (trace.countP OnCallEvent.isRemove) guildId userId roleId =
          .error (.rest 10011) →
        (team = none →
          (env.roles.setGuildOnCallRole (trace.countP OnCallEvent.isSetGuild) guildId =
              .ok () →
            removeOnCallRole env guildId userId roleId team trace =
              (trace ++ [.removeGuildMemberRole guildId userId roleId,
                .role (.setGuildOnCallRole guildId none)], false)) ∧
          (∀ err,
            env.roles.setGuildOnCallRole (trace.countP OnCallEvent.isSetGuild) guildId =
              .error err →
            removeOnCallRole env guildId userId roleId team trace =
              (trace ++ [.removeGuildMemberRole guildId userId roleId,
                .role (.setGuildOnCallRole guildId none), .handleError err], true))) ∧
        (∀ t : SupportTeam, team = some t →
          (env.roles.setTeamOnCallRole (trace.countP OnCallEvent.isSetTeam) t.Id =
              .ok () →
            removeOnCallRole env guildId userId roleId team trace =
              (trace ++ [.removeGuildMemberRole guildId userId roleId,
                .role (.setTeamOnCallRole t.Id none)], false)) ∧
          (∀ err,
            env.roles.setTeamOnCallRole (trace.countP OnCallEvent.isSetTeam) t.Id =
              .error err →
            removeOnCallRole env guildId userId roleId team trace =
              (trace ++ [.removeGuildMemberRole guildId userId roleId,
                .role (.setTeamOnCallRole t.Id none), .handleError err], true))))) ∧
    (∀ (defaultTeam : Bool) (metadataOnCallRole : Option Nat) (teamIds : List Nat)
        (teams : Nat → Option SupportTeam) (trace : List OnCallEvent),
      offCallPath env guildId userId defaultTeam metadataOnCallRole teamIds teams trace =
        finishOffCall (processTargets env guildId userId
          (offCallTargets defaultTeam metadataOnCallRole teamIds teams) trace) ∧
      (OnCallOpen trace →
        ((processTargets env guildId userId
            (offCallTargets defaultTeam metadataOnCallRole teamIds teams) trace).2 = false ∧
          (offCallPath env guildId userId defaultTeam metadataOnCallRole teamIds teams
            trace).getLast? = some removeSuccessReply ∧
          (offCallPath env guildId userId defaultTeam metadataOnCallRole teamIds teams
            trace).countP OnCallEvent.isReply = 1 ∧
          (offCallPath env guildId userId defaultTeam metadataOnCallRole teamIds teams
            trace).countP OnCallEvent.isHandleError = 0) ∨
        ((processTargets env guildId userId
            (offCallTargets defaultTeam metadataOnCallRole teamIds teams) trace).2 = true ∧
          (∃ err,
            (offCallPath env guildId userId defaultTeam metadataOnCallRole teamIds teams
              trace).getLast? = some (.handleError err)) ∧
          (offCallPath env guildId userId defaultTeam metadataOnCallRole teamIds teams
            trace).countP OnCallEvent.isHandleError = 1 ∧
          (offCallPath env guildId userId defaultTeam metadataOnCallRole teamIds teams
            trace).countP OnCallEvent.isReply = 0))) ∧
    (∀ (defaultTeam : Bool) (metadataOnCallRole : Option Nat) (teamIds : List Nat)
        (teams : Nat → Option SupportTeam),
      env.settings = .ok true → env.member = .ok () →
      env.toggle guildId userId = .ok false →
      env.getMemberTeamsWithMember guildId userId = .ok (defaultTeam, teamIds) →
      env.getMulti guildId teamIds = .ok teams →
      env.getGuildMetadata guildId = .ok metadataOnCallRole →
      OnCallCommand.Execute env guildId userId =
        offCallPath env guildId userId defaultTeam metadataOnCallRole teamIds teams
          [.settings, .member, .toggle guildId userId,
            .getMemberTeamsWithMember guildId userId, .getMulti guildId teamIds,
            .getGuildMetadata guildId]) := by
  refine ⟨?_, ?_, ?_⟩
  · intro roleId team trace
    refine ⟨?_, ?_, ?_⟩
    · intro h
      simp only [removeOnCallRole, h]
    · intro err h hne
      simp only [removeOnCallRole, h, hne, if_false]
    · intro h
      refine ⟨?_, ?_⟩
      · intro ht
        subst ht
        refine ⟨?_, ?_⟩
        · intro hs
          simp only [removeOnCallRole, h, hs, if_true]
        · intro err hs
          simp only [removeOnCallRole, h, hs, if_true]
      · intro t ht
        subst ht
        refine ⟨?_, ?_⟩
        · intro hs
          simp only [removeOnCallRole, h, hs, if_true]
        · intro err hs
          simp only [removeOnCallRole, h, hs, if_true]
  · intro defaultTeam metadataOnCallRole teamIds teams trace
    have heq := offCallPath_eq env guildId userId defaultTeam metadataOnCallRole teamIds
      teams trace
    refine ⟨heq, ?_⟩
    intro hopen
    have hs := processTargets_settled env guildId userId
      (offCallTargets defaultTeam metadataOnCallRole teamIds teams) trace hopen
    rw [heq]
    obtain ⟨hreply, hret, hgo⟩ := hs
    cases hb : (processTargets env guildId userId
        (offCallTargets defaultTeam metadataOnCallRole teamIds teams) trace).2 with
    | false =>
      left
      have h0 := hgo hb
      simp [finishOffCall, hb, List.countP_append, List.countP_cons, hreply, h0,
        removeSuccessReply, OnCallEvent.isReply, OnCallEvent.isHandleError,
        List.getLast?_append]
    | true =>
      right
      obtain ⟨h1, err, hlast⟩ := hret hb
      simp only [finishOffCall, hb, if_true]
      exact ⟨trivial, ⟨err, hlast⟩, h1, hreply⟩
  · intro defaultTeam metadataOnCallRole teamIds teams h1 h2 h3 h4 h5 h6
    simp [OnCallCommand.Execute, h1, h2, h3, h4, h5, h6]

/-- C22 at a concrete run: user 7 of guild 5 goes off call; the guild-wide role 50 was
deleted, so its removal fails with the REST error 10011 and the guild-wide role id is
cleared; the role 61 of team 1 is removed; team 2 has no role and team 3 is not found, so
neither causes a call; the success reply ends the run. -/
theorem C22_witness :
    removeOnCallRole staleGuildRoleEnv 5 7 50 none [] =
      ([.removeGuildMemberRole 5 7 50, .role (.setGuildOnCallRole 5 none)], false) ∧
    OnCallCommand.Execute staleGuildRoleEnv 5 7 =
      [.settings, .member, .toggle 5 7, .getMemberTeamsWithMember 5 7, .getMulti 5 [1, 2, 3],
        .getGuildMetadata 5,
        .removeGuildMemberRole 5 7 50, .role (.setGuildOnCallRole 5 none),
        .removeGuildMemberRole 5 7 61, removeSuccessReply] :=
  ⟨((((C22_off_call_self_heal staleGuildRoleEnv 5 7).1 50 none []).2.2 rfl).1 rfl).1 rfl,
    ((C22_off_call_self_heal staleGuildRoleEnv 5 7).2.2 true (some 50) [1, 2, 3] _
      rfl rfl rfl rfl rfl rfl).trans rfl⟩

/-! ## Lemmas on the error replies -/

theorem occursIn_mid (part a b : List Char) : occursIn part (a ++ part ++ b) = true := by
  induction a with
  | nil =>
    have hp : part.isPrefixOf (part ++ b) = true :=
      List.isPrefixOf_iff_prefix.mpr (List.prefix_append part b)
    cases hx : part ++ b with
    | nil =>
      rw [hx] at hp
      simpa [occursIn, hx] using hp
    | cons c rest =>
      rw [hx] at hp
      simp [occursIn, hx, hp]
  | cons x a ih =>
    simp only [List.cons_append, occursIn]
    rw [List.append_assoc] at ih
    simp [ih]

theorem containsText_mid (whole a part b : String) (h : whole = a ++ part ++ b) :
    containsText whole part = true := by
  subst h
  unfold containsText
  simp only [String.data_append]
  exact occursIn_mid part.data a.data b.data

theorem restErrorMessage_undedicated (env : ReplyEnv) (restError : RestError)
    (eventId : String) (h : restError.hasDedicatedMessage = false) :
    restErrorMessage env restError eventId =
      if restError.Code = 50035 then
        env.getMessage .MessageErrorInvalidForm [] ++ "\n\n" ++
          Replyable.formatDiscordError env restError eventId
      else Replyable.formatDiscordError env restError eventId := by
  simp only [RestError.hasDedicatedMessage, Bool.or_eq_false_iff, Bool.and_eq_false_iff,
    decide_eq_false_iff_not, List.mem_cons, List.mem_singleton, not_or, List.not_mem_nil,
    or_false, ne_eq, not_not] at h
  obtain ⟨⟨hc, hf⟩, hs⟩ := h
  unfold restErrorMessage invalidFormMessage
  by_cases h5 : restError.Code = 50035
  · rcases hf with hf | hf
    · exact absurd h5 hf
    · simp [h5, hf]
  · rcases hs with hs | hs
    · exact absurd hs h5
    · simp [h5, hc, hs]

theorem restErrorMessage_dedicated (env : ReplyEnv) (restError restError2 : RestError)
    (eventId eventId2 : String) (h : restError.hasDedicatedMessage = true)
    (hc : restError2.Code = restError.Code)
    (hf : restError2.FirstErrorCode = restError.FirstErrorCode)
    (hs : restError2.StatusCode = restError.StatusCode)
    (hl : restError2.RateLimit = restError.RateLimit) :
    restErrorMessage env restError2 eventId2 = restErrorMessage env restError eventId := by
  simp only [RestError.hasDedicatedMessage, Bool.or_eq_true, Bool.and_eq_true,
    decide_eq_true_eq, List.mem_cons, List.mem_singleton, List.not_mem_nil, or_false,
    ne_eq] at h
  by_cases hlist : restError.Code = 10003 ∨ restError.Code = 10004 ∨
      restError.Code = 10007 ∨ restError.Code = 10008 ∨ restError.Code = 10011 ∨
      restError.Code = 10013 ∨ restError.Code = 10059 ∨ restError.Code = 10062 ∨
      restError.Code = 30007 ∨ restError.Code = 30013 ∨ restError.Code = 40060 ∨
      restError.Code = 50001 ∨ restError.Code = 50013 ∨ restError.Code = 160005 ∨
      restError.Code = 160006 ∨ restError.Code = 160007
  · rcases hlist with c | c | c | c | c | c | c | c | c | c | c | c | c | c | c | c <;>
      simp [restErrorMessage, hc, c]
  · simp only [not_or] at hlist
    rcases h with (h | ⟨h5, hfirst⟩) | ⟨h5, h429⟩
    · exact absurd h (by tauto)
    · rcases hfirst with f | f | f | f | f | f | f <;>
        simp [restErrorMessage, invalidFormMessage, hc, hf, h5, f]
    · simp [restErrorMessage, rateLimitMessage, hc, hs, hl, hlist, h5, h429]

theorem errorMessage_dedicated (env : ReplyEnv) (err : ErrorValue)
    (eventId eventId2 text restText : String)
    (h : err.hasDedicatedMessage = true) :
    errorMessage env (err.withText text restText) eventId2 = errorMessage env err eventId := by
  unfold errorMessage ErrorValue.withText
  unfold ErrorValue.hasDedicatedMessage at h
  cases hr : err.AsRestError with
  | none =>
    rw [hr] at h
    simp at h
    simp [h]
  | some restError =>
    rw [hr] at h
    simp only [Option.map_some']
    exact restErrorMessage_dedicated env restError _ eventId eventId2 h rfl rfl rfl rfl

theorem errorMessage_contains_eventId (env : ReplyEnv) (err : ErrorValue) (eventId : String)
    (h : err.hasDedicatedMessage = false) :
    containsText (errorMessage env err eventId) eventId = true := by
  unfold errorMessage
  unfold ErrorValue.hasDedicatedMessage at h
  cases hr : err.AsRestError with
  | none =>
    rw [hr] at h
    simp only at h
    simp only [h, Bool.false_eq_true, if_false]
    exact containsText_mid _ _ _ "`" rfl
  | some restError =>
    rw [hr] at h
    simp only
    rw [restErrorMessage_undedicated env restError eventId h]
    unfold Replyable.formatDiscordError
    split_ifs
    · exact containsText_mid _
        (env.getMessage .MessageErrorInvalidForm [] ++ "\n\n" ++
          (env.getMessage .MessageErrorGeneral [] ++ ":\n```\n" ++
            restError.Error ++ "\n```\n" ++
            env.getMessage .MessageErrorId [] ++ ": `")) _ "`"
        (by simp only [String.append_assoc])
    · exact containsText_mid _ _ _ "`" rfl

theorem errorMessage_contains_text (env : ReplyEnv) (err : ErrorValue) (eventId : String)
    (restError : RestError) (hr : err.AsRestError = some restError)
    (h : restError.hasDedicatedMessage = false) :
    containsText (errorMessage env err eventId) restError.Error = true := by
  unfold errorMessage
  rw [hr]
  simp only
  rw [restErrorMessage_undedicated env restError eventId h]
  unfold Replyable.formatDiscordError
  split_ifs
  · exact containsText_mid _
      (env.getMessage .MessageErrorInvalidForm [] ++ "\n\n" ++
        (env.getMessage .MessageErrorGeneral [] ++ ":\n```\n")) _
      ("\n```\n" ++ env.getMessage .MessageErrorId [] ++ ": `" ++ eventId ++ "`")
      (by simp only [String.append_assoc])
  · exact containsText_mid _ (env.getMessage .MessageErrorGeneral [] ++ ":\n```\n") _
      ("\n```\n" ++ env.getMessage .MessageErrorId [] ++ ": `" ++ eventId ++ "`")
      (by simp only [String.append_assoc])

/-- C23, the claim as stated fails: an exceeded deadline is not `ErrReplyLimitReached`, and
the reply that `HandleError` makes for it is the timeout message, in which the event id
`abc123` assigned to the error does not occur. -/
theorem C23_counterexample :
    timeoutError.IsReplyLimitReached = false ∧
    exampleReplyEnv.errorWithContext timeoutError = "abc123" ∧
    Replyable.HandleError exampleReplyEnv timeoutError =
      [.errorWithContext timeoutError, .userPermissionLevel,
        .replyWith
          { Ephemeral := true, Colour := .Red, Title := "Error",
            Description := "The request timed out", InviteLink := false }] ∧
    containsText "The request timed out" "abc123" = false :=
  ⟨rfl, rfl, rfl, rfl⟩

/-- C23 (amended): for an error other than `ErrReplyLimitReached`, `HandleError` reports
the error, resolves the permission level and makes exactly one reply, the response built
by `buildErrorResponse` with the event id assigned to the error: an ephemeral red embed
with the localized title `Error`.  Its text contains the event id when
`buildErrorResponse` has no message of its own for the error: an error that is neither a
REST error nor an exceeded deadline, or a REST error whose code is not listed (for the code
50035: whose first error code is not listed) and whose status is not 429.  For the other
errors the text is a localized message that does not depend on the event id. -/
theorem C23_error_reply_carries_event_id (env : ReplyEnv) (err : ErrorValue)
    (hlimit : err.IsReplyLimitReached = false) :
    Replyable.HandleError env err =
      [.errorWithContext err, .userPermissionLevel] ++ buildErrorReports env err ++
        [.replyWith (Replyable.buildErrorResponse env err (env.errorWithContext err)
          (showInviteLink env))] ∧
    (∀ (eventId : String) (includeInviteLink : Bool),
      (Replyable.buildErrorResponse env err eventId includeInviteLink).Ephemeral = true ∧
      (Replyable.buildErrorResponse env err eventId includeInviteLink).Colour = .Red ∧
      (Replyable.buildErrorResponse env err eventId includeInviteLink).Title =
        env.getMessage .Error [] ∧
      (err.hasDedicatedMessage = false →
        containsText
          (Replyable.buildErrorResponse env err eventId includeInviteLink).Description
          eventId = true) ∧
      (err.hasDedicatedMessage = true →
        ∀ eventId2 : String,
          (Replyable.buildErrorResponse env err eventId2 includeInviteLink).Description =
            (Replyable.buildErrorResponse env err eventId includeInviteLink).Description)) := by
  refine ⟨?_, ?_⟩
  · simp [Replyable.HandleError, hlimit]
  · intro eventId includeInviteLink
    refine ⟨rfl, rfl, rfl, ?_, ?_⟩
    · intro h
      exact errorMessage_contains_eventId env err eventId h
    · intro h eventId2
      have hx := errorMessage_dedicated env err eventId eventId2 err.Error
        (match err.AsRestError with
          | some restError => restError.Error
          | none => "") h
      have hw : err.withText err.Error
          (match err.AsRestError with
            | some restError => restError.Error
            | none => "") = err := by
        unfold ErrorValue.withText
        cases hr : err.AsRestError <;> cases err <;> simp_all
      rw [hw] at hx
      exact hx

/-- C23 at a concrete error: an error made by `errors.New`, with the event id `abc123`. -/
theorem C23_witness :
    Replyable.HandleError exampleReplyEnv plainError =
      [.errorWithContext plainError, .userPermissionLevel,
        .replyWith
          { Ephemeral := true, Colour := .Red, Title := "Error",
            Description := "An error occurred\nError ID: `abc123`",
            InviteLink := false }] ∧
    containsText "An error occurred\nError ID: `abc123`" "abc123" = true :=
  ⟨(C23_error_reply_carries_event_id exampleReplyEnv plainError rfl).1,
    ((C23_error_reply_carries_event_id exampleReplyEnv plainError rfl).2
      "abc123" false).2.2.2.1 rfl⟩

/-- C24, the claim as stated fails: for an actor resolved at `Everyone`, the reply to a
REST error for which `buildErrorResponse` has no message of its own embeds the text of the
error: two such errors that differ in their text only get different replies, and the text
occurs in the reply. -/
theorem C24_counterexample :
    exampleReplyEnv.userPermissionLevel = .ok .Everyone ∧
    unlistedRestError "secret A" =
      (unlistedRestError "secret B").withText "secret A" "secret A" ∧
    Replyable.HandleError exampleReplyEnv (unlistedRestError "secret A") =
      [.errorWithContext (unlistedRestError "secret A"), .userPermissionLevel,
        .replyWith
          { Ephemeral := true, Colour := .Red, Title := "Error",
            Description := "An error occurred:\n```\nsecret A\n```\nError ID: `abc123`",
            InviteLink := false }] ∧
    Replyable.HandleError exampleReplyEnv (unlistedRestError "secret B") =
      [.errorWithContext (unlistedRestError "secret B"), .userPermissionLevel,
        .replyWith
          { Ephemeral := true, Colour := .Red, Title := "Error",
            Description := "An error occurred:\n```\nsecret B\n```\nError ID: `abc123`",
            InviteLink := false }] ∧
    containsText "An error occurred:\n```\nsecret A\n```\nError ID: `abc123`" "secret A" =
      true :=
  ⟨rfl, rfl, rfl, rfl, rfl⟩

/-- C24 (amended): the response built by `buildErrorResponse` does not depend on the texts
`err.Error()` and `restError.Error()` when the error is no REST error, or a REST error for
which `buildErrorResponse` has a message of its own.  For the other REST errors the text
`restError.Error()` occurs in the reply, whether the invite link is included or not.  For
an error other than `ErrReplyLimitReached` and an actor resolved at `Everyone`, that
response, without the invite link, is the reply of `HandleError`. -/
theorem C24_text_only_for_unlisted_rest_errors (env : ReplyEnv) (err : ErrorValue)
    (eventId : String) (includeInviteLink : Bool) :
    (err.AsRestError = none ∨ err.hasDedicatedMessage = true →
      ∀ text restText : String,
        Replyable.buildErrorResponse env (err.withText text restText) eventId
            includeInviteLink =
          Replyable.buildErrorResponse env err eventId includeInviteLink) ∧
    (∀ restError : RestError, err.AsRestError = some restError →
      restError.hasDedicatedMessage = false →
      containsText
        (Replyable.buildErrorResponse env err eventId includeInviteLink).Description
        restError.Error = true) ∧
    (err.IsReplyLimitReached = false → env.userPermissionLevel = .ok .Everyone →
      Replyable.HandleError env err =
        [.errorWithContext err, .userPermissionLevel] ++ buildErrorReports env err ++
          [.replyWith
            (Replyable.buildErrorResponse env err (env.errorWithContext err) false)]) := by
  refine ⟨?_, ?_, ?_⟩
  · intro h text restText
    unfold Replyable.buildErrorResponse
    have hm : errorMessage env (err.withText text restText) eventId =
        errorMessage env err eventId := by
      by_cases hd : err.hasDedicatedMessage = true
      · exact errorMessage_dedicated env err eventId eventId text restText hd
      · rcases h with h | h
        · unfold errorMessage ErrorValue.withText
          simp [h]
        · exact absurd h hd
    rw [hm]
  · intro restError hr h
    exact errorMessage_contains_text env err eventId restError hr h
  · intro hlimit hperm
    simp [Replyable.HandleError, hlimit, showInviteLink, hperm]

/-- C24 at a concrete error: the reply to an error made by `errors.New` is the same
whatever the text of the error. -/
theorem C24_witness :
    Replyable.buildErrorResponse exampleReplyEnv
        (plainError.withText "another text" "") "abc123" false =
      Replyable.buildErrorResponse exampleReplyEnv plainError "abc123" false :=
  (C24_text_only_for_unlisted_rest_errors exampleReplyEnv plainError "abc123" false).1
    (Or.inl rfl) "another text" ""

/-! ## Lemmas on decimal identifiers -/

theorem digitValue_digitChar (d : Nat) (h : d < 10) : digitValue (digitChar d) = some d := by
  interval_cases d <;> rfl

theorem digitChar_ne_a (d : Nat) (h : d < 10) : digitChar d ≠ 'a' := by
  interval_cases d <;> decide

theorem parseDigits_append (l1 l2 : List Char) :
    ∀ acc : Nat, parseDigits (l1 ++ l2) acc =
      (parseDigits l1 acc).bind (fun v => parseDigits l2 v) := by
  induction l1 with
  | nil => intro acc; rfl
  | cons c rest ih =>
    intro acc
    simp only [List.cons_append, parseDigits]
    cases digitValue c with
    | none => rfl
    | some d => exact ih _

theorem formatDigits_acc (fuel : Nat) :
    ∀ (n : Nat) (acc : List Char),
      formatDigits fuel n acc = formatDigits fuel n [] ++ acc := by
  induction fuel with
  | zero => intro n acc; rfl
  | succ fuel ih =>
    intro n acc
    simp only [formatDigits]
    by_cases h : n < 10
    · simp [h]
    · simp only [h, if_false]
      rw [ih (n / 10) (digitChar (n % 10) :: acc), ih (n / 10) [digitChar (n % 10)]]
      simp

theorem parseDigits_formatDigits (fuel : Nat) :
    ∀ n : Nat, n < 10 ^ fuel → parseDigits (formatDigits fuel n []) 0 = some n := by
  induction fuel with
  | zero =>
    intro n h
    have h0 : n = 0 := by simpa using h
    subst h0
    rfl
  | succ fuel ih =>
    intro n h
    simp only [formatDigits]
    by_cases h10 : n < 10
    · simp [h10, parseDigits, digitValue_digitChar n h10]
    · simp only [h10, if_false]
      rw [formatDigits_acc, parseDigits_append]
      have hlt : n / 10 < 10 ^ fuel := by
        rw [Nat.div_lt_iff_lt_mul (by decide)]
        rw [pow_succ] at h
        exact h
      rw [ih (n / 10) hlt]
      simp only [Option.some_bind, parseDigits,
        digitValue_digitChar (n % 10) (Nat.mod_lt n (by decide))]
      congr 1
      omega

theorem formatDigits_ne_nil (fuel n : Nat) (acc : List Char) :
    formatDigits (fuel + 1) n acc ≠ [] := by
  rw [formatDigits_acc]
  simp only [formatDigits]
  by_cases h : n < 10
  · simp [h]
  · simp only [h, if_false]
    rw [formatDigits_acc]
    simp

theorem formatDigits_digits (fuel : Nat) :
    ∀ (n : Nat) (acc : List Char), ∀ c ∈ formatDigits fuel n acc,
      c ∈ acc ∨ ∃ d, d < 10 ∧ c = digitChar d := by
  induction fuel with
  | zero =>
    intro n acc c hc
    exact Or.inl hc
  | succ fuel ih =>
    intro n acc c hc
    simp only [formatDigits] at hc
    by_cases h : n < 10
    · simp only [h, if_true, List.mem_cons] at hc
      rcases hc with hc | hc
      · exact Or.inr ⟨n, h, hc⟩
      · exact Or.inl hc
    · simp only [h, if_false] at hc
      rcases ih _ _ c hc with hm | hd
      · rcases List.mem_cons.mp hm with hm | hm
        · exact Or.inr ⟨n % 10, Nat.mod_lt n (by decide), hm⟩
        · exact Or.inl hm
      · exact Or.inr hd

theorem replaceAll_skip (old new : List Char) (l1 rest : List Char) :
    replaceAll old new l1.length (l1 ++ rest) = replaceAll old new 0 rest := by
  induction l1 with
  | nil => rfl
  | cons c l1 ih =>
    simp only [List.length_cons, List.cons_append, replaceAll]
    exact ih

theorem replaceAll_of_no_head (a : Char) (old new : List Char) (l : List Char)
    (h : ∀ c ∈ l, c ≠ a) : replaceAll (a :: old) new 0 l = l := by
  induction l with
  | nil => rfl
  | cons c rest ih =>
    have hc : (a == c) = false := by
      have := h c (List.mem_cons_self c rest)
      simp [beq_iff_eq]
      exact fun e => this e.symm
    simp only [replaceAll, List.isPrefixOf, hc, Bool.false_and, Bool.false_eq_true, if_false]
    rw [ih (fun x hx => h x (List.mem_cons_of_mem c hx))]

theorem replaceAll_removes (a : Char) (old new rest : List Char)
    (h : ∀ c ∈ rest, c ≠ a) :
    replaceAll (a :: old) new 0 ((a :: old) ++ rest) = new ++ rest := by
  have hpre : (a :: old).isPrefixOf (a :: (old ++ rest)) = true :=
    List.isPrefixOf_iff_prefix.mpr (List.prefix_append (a :: old) rest)
  have hlen : (a :: old).length - 1 = old.length := by simp
  rw [List.cons_append, replaceAll, if_pos hpre, hlen, replaceAll_skip,
    replaceAll_of_no_head a old new rest h]

theorem parseUint_formatUint (g : Nat) (h : g < 2 ^ 64) : ParseUint (formatUint g) = some g := by
  unfold ParseUint formatUint
  have hne := formatDigits_ne_nil g g []
  have hlt : g < 10 ^ (g + 1) :=
    lt_trans (Nat.lt_pow_self (by decide) g) (Nat.pow_lt_pow_right (by decide) (by omega))
  simp only [hne, if_false, parseDigits_formatDigits (g + 1) g hlt, h, if_true]

/-- C27: for every guild id `g` below `2^64`, the custom id
`admin_debug_blacklist_reason_<g>`, with `<g>` the decimal text of `g`, is accepted by the
matcher of `AdminDebugServerBlacklistReasonHandler`, and the extraction of the handler
(every occurrence of the beginning removed, the rest parsed as an unsigned 64-bit decimal)
yields `g` without an error. -/
theorem C27_custom_id_round_trip (g : Nat) (h : g < 2 ^ 64) :
    AdminDebugServerBlacklistReasonHandler.Matcher (blacklistReasonCustomId g) = true ∧
    AdminDebugServerBlacklistReasonHandler.guildId (blacklistReasonCustomId g) = some g := by
  refine ⟨?_, ?_⟩
  · unfold AdminDebugServerBlacklistReasonHandler.Matcher HasPrefix blacklistReasonCustomId
    rw [String.data_append]
    exact List.isPrefixOf_iff_prefix.mpr (List.prefix_append _ _)
  · unfold AdminDebugServerBlacklistReasonHandler.guildId Replace blacklistReasonCustomId
    have hdigits : ∀ c ∈ (formatUint g).data, c ≠ 'a' := by
      intro c hc
      rcases formatDigits_digits (g + 1) g [] c hc with hm | ⟨d, hd, he⟩
      · simp at hm
      · rw [he]
        exact digitChar_ne_a d hd
    obtain ⟨old, hold⟩ : ∃ old : List Char,
        "admin_debug_blacklist_reason_".data = 'a' :: old := ⟨_, rfl⟩
    have hrest : replaceAll "admin_debug_blacklist_reason_".data "".data 0
        ("admin_debug_blacklist_reason_".data ++ (formatUint g).data) =
        (formatUint g).data := by
      rw [hold]
      exact replaceAll_removes 'a' old [] (formatUint g).data hdigits
    rw [String.data_append, hrest]
    exact parseUint_formatUint g h

/-- C27 at a concrete guild id. -/
theorem C27_witness :
    blacklistReasonCustomId 1234567890123456789 =
      "admin_debug_blacklist_reason_1234567890123456789" ∧
    AdminDebugServerBlacklistReasonHandler.Matcher
      (blacklistReasonCustomId 1234567890123456789) = true ∧
    AdminDebugServerBlacklistReasonHandler.guildId
      (blacklistReasonCustomId 1234567890123456789) = some 1234567890123456789 :=
  ⟨by decide, C27_custom_id_round_trip 1234567890123456789 (by norm_num)⟩

/-! ## Lemmas on the admin blacklist command -/

theorem blacklistAndLeave_add (env : BlacklistEnv) (w : Option Nat) (guildId : Nat)
    (reason : Option String) (realOwnerId : Option Nat) (g : Nat) (r : Option String)
    (o ro : Option Nat)
    (h : BlacklistEvent.add g r o ro ∈ blacklistAndLeave env w guildId reason realOwnerId) :
    g = guildId ∧ r = reason ∧ ro = realOwnerId := by
  unfold blacklistAndLeave at h
  rcases hg : env.getGuild w guildId with e0 | owner <;>
    simp only [hg] at h
  · rcases ha : env.add guildId reason none realOwnerId with e1 | _ <;>
      simp [ha] at h <;> simp [h]
  · rcases ha : env.add guildId reason (some owner) realOwnerId with e1 | _
    · simp [ha] at h
      simp [h]
    · rcases hl : env.leaveGuild w guildId with e2 | _ <;>
        simp [ha, hl] at h <;> simp [h]

theorem checkAndBlacklist_shape (env : BlacklistEnv) (guildId : Nat) (reason : Option String)
    (realOwnerId : Option Nat) :
    (checkAndBlacklist env guildId reason realOwnerId).countP BlacklistEvent.isEffect = 0 ∨
    ∃ (pre : List BlacklistEvent) (w : Option Nat),
      checkAndBlacklist env guildId reason realOwnerId =
        pre ++ blacklistAndLeave env w guildId reason realOwnerId ∧
      pre.countP BlacklistEvent.isEffect = 0 ∧
      (env.isBlacklisted guildId).1 = false := by
  unfold checkAndBlacklist
  cases hb : (env.isBlacklisted guildId).1 with
  | true =>
    left
    simp [List.countP_cons, BlacklistEvent.isEffect, BlacklistEvent.isAdd,
      BlacklistEvent.isAddGuildToCache, BlacklistEvent.isLeaveGuild]
  | false =>
    simp only [Bool.false_eq_true, if_false]
    rcases hw : env.getBotByGuild guildId with err | ⟨botId, isWhitelabel⟩
    · left
      simp [List.countP_cons, BlacklistEvent.isEffect, BlacklistEvent.isAdd,
        BlacklistEvent.isAddGuildToCache, BlacklistEvent.isLeaveGuild]
    · cases isWhitelabel with
      | false =>
        right
        exact ⟨_, none, rfl, rfl, trivial⟩
      | true =>
        simp only [if_true]
        rcases hbot : env.getByBotId botId with err | bot
        · left
          simp [List.countP_cons, BlacklistEvent.isEffect, BlacklistEvent.isAdd,
            BlacklistEvent.isAddGuildToCache, BlacklistEvent.isLeaveGuild]
        · right
          exact ⟨_, some bot, rfl, rfl, trivial⟩

theorem mem_of_countP_eq_zero (p : BlacklistEvent → Bool) (l : List BlacklistEvent)
    (e : BlacklistEvent) (h : l.countP p = 0) (he : e ∈ l) : p e = false := by
  have := List.countP_eq_zero.mp h e he
  simpa using this

/-- C26: `AdminBlacklistCommand.Execute`.  (1) When `guild_id` is no unsigned 64-bit
decimal, (2) when a non-empty `real_owner_id` is no unsigned 64-bit decimal, and (3) when
the guild is reported blacklisted, the run consists of the listed calls: no record is
added, the cache is not updated and no guild is left.  (4) Every call of
`ServerBlacklist.Add` is for the parsed guild id with the given reason, and its real owner
is `nil` when `real_owner_id` is absent or empty, and the parsed id otherwise.  (5) A run
either makes no call of `Add`, `AddGuildToCache` or `LeaveGuild`, or it ends with lines
103-150, before which no such call is made.  (6) In lines 103-150, when `Add` fails the
error goes to `HandleError` and neither the cache update nor `LeaveGuild` follows; when
`Add` succeeds the cache is updated and the reply is made, and `LeaveGuild` is called
exactly when the guild could be fetched. -/
theorem C26_blacklist_guards (env : BlacklistEnv) (guildIdRaw : String)
    (reason : Option String) (realOwnerIdRaw : Option String) :
    (ParseUint guildIdRaw = none →
      AdminBlacklistCommand.Execute env guildIdRaw reason realOwnerIdRaw =
        [.replyRaw "Invalid guild ID provided"]) ∧
    (∀ raw : String, ParseUint guildIdRaw ≠ none → realOwnerIdRaw = some raw → raw ≠ "" →
      ParseUint raw = none →
      AdminBlacklistCommand.Execute env guildIdRaw reason realOwnerIdRaw =
        [.replyRaw "Invalid real owner ID provided"]) ∧
    (∀ guildId : Nat, ParseUint guildIdRaw = some guildId →
      parseRealOwnerId realOwnerIdRaw ≠ none → (env.isBlacklisted guildId).1 = true →
      AdminBlacklistCommand.Execute env guildIdRaw reason realOwnerIdRaw =
        [.isBlacklisted guildId,
          .replyWith true
            ("Guild is already blacklisted.\n\n**Guild ID:** `" ++ formatUint guildId ++
              "`\n**Reason**: `" ++
              (env.isBlacklisted guildId).2.getD "No reason provided" ++ "`")]) ∧
    (∀ (g : Nat) (r : Option String) (o ro : Option Nat),
      BlacklistEvent.add g r o ro ∈
        AdminBlacklistCommand.Execute env guildIdRaw reason realOwnerIdRaw →
      ParseUint guildIdRaw = some g ∧ r = reason ∧
      (realOwnerIdRaw = none ∨ realOwnerIdRaw = some "" → ro = none) ∧
      (∀ raw : String, realOwnerIdRaw = some raw → raw ≠ "" →
        ro ≠ none ∧ ParseUint raw = ro)) ∧
    ((AdminBlacklistCommand.Execute env guildIdRaw reason realOwnerIdRaw).countP
        BlacklistEvent.isEffect = 0 ∨
      ∃ (pre : List BlacklistEvent) (w : Option Nat) (guildId : Nat)
          (realOwnerId : Option Nat),
        AdminBlacklistCommand.Execute env guildIdRaw reason realOwnerIdRaw =
          pre ++ blacklistAndLeave env w guildId reason realOwnerId ∧
        pre.countP BlacklistEvent.isEffect = 0 ∧
        ParseUint guildIdRaw = some guildId ∧
        parseRealOwnerId realOwnerIdRaw = some realOwnerId ∧
        (env.isBlacklisted guildId).1 = false) ∧
    (∀ (w : Option Nat) (guildId : Nat) (realOwnerId : Option Nat),
      (∀ err0 : Err, env.getGuild w guildId = .error err0 →
        (∀ err : Err, env.add guildId reason none realOwnerId = .error err →
          blacklistAndLeave env w guildId reason realOwnerId =
            [.getGuild w guildId, .add guildId reason none realOwnerId,
              .handleError err]) ∧
        (env.add guildId reason none realOwnerId = .ok () →
          blacklistAndLeave env w guildId reason realOwnerId =
            [.getGuild w guildId, .add guildId reason none realOwnerId,
              .addGuildToCache guildId,
              .replyWith false
                (blacklistSuccessMessage guildId reason none realOwnerId)])) ∧
      (∀ owner : Nat, env.getGuild w guildId = .ok owner →
        (∀ err : Err, env.add guildId reason (some owner) realOwnerId = .error err →
          blacklistAndLeave env w guildId reason realOwnerId =
            [.getGuild w guildId, .add guildId reason (some owner) realOwnerId,
              .handleError err]) ∧
        (env.add guildId reason (some owner) realOwnerId = .ok () →
          (env.leaveGuild w guildId = .ok () →
            blacklistAndLeave env w guildId reason realOwnerId =
              [.getGuild w guildId, .add guildId reason (some owner) realOwnerId,
                .addGuildToCache guildId,
                .replyWith false
                  (blacklistSuccessMessage guildId reason (some owner) realOwnerId),
                .leaveGuild w guildId]) ∧
          (∀ err : Err, env.leaveGuild w guildId = .error err →
            blacklistAndLeave env w guildId reason realOwnerId =
              [.getGuild w guildId, .add guildId reason (some owner) realOwnerId,
                .addGuildToCache guildId,
                .replyWith false
                  (blacklistSuccessMessage guildId reason (some owner) realOwnerId),
                .leaveGuild w guildId, .handleError err])))) := by
  refine ⟨?_, ?_, ?_, ?_, ?_, ?_⟩
  · intro h
    simp only [AdminBlacklistCommand.Execute, h]
  · intro raw hg hraw hne hp
    rcases hgid : ParseUint guildIdRaw with _ | guildId
    · exact absurd hgid hg
    · simp only [AdminBlacklistCommand.Execute, hgid, parseRealOwnerId, hraw, hp, hne,
        ne_eq, not_false_eq_true, if_true]
  · intro guildId hg hro hb
    rcases hr : parseRealOwnerId realOwnerIdRaw with _ | realOwnerId
    · exact absurd hr hro
    · simp only [AdminBlacklistCommand.Execute, hg, hr, checkAndBlacklist, hb, if_true]
  · intro g r o ro hmem
    unfold AdminBlacklistCommand.Execute at hmem
    rcases hgid : ParseUint guildIdRaw with _ | guildId
    · simp [hgid] at hmem
    · rcases hr : parseRealOwnerId realOwnerIdRaw with _ | realOwnerId
      · simp [hgid, hr] at hmem
      · simp only [hgid, hr] at hmem
        have hadd : g = guildId ∧ r = reason ∧ ro = realOwnerId := by
          rcases checkAndBlacklist_shape env guildId reason realOwnerId with h0 | h1
          · have := mem_of_countP_eq_zero _ _ _ h0 hmem
            simp [BlacklistEvent.isEffect, BlacklistEvent.isAdd] at this
          · obtain ⟨pre, w, heq, hpre, _⟩ := h1
            rw [heq] at hmem
            rcases List.mem_append.mp hmem with hm | hm
            · have := mem_of_countP_eq_zero _ _ _ hpre hm
              simp [BlacklistEvent.isEffect, BlacklistEvent.isAdd] at this
            · exact blacklistAndLeave_add env w guildId reason realOwnerId g r o ro hm
        obtain ⟨h1, h2, h3⟩ := hadd
        subst h1 h2 h3
        refine ⟨rfl, rfl, ?_, ?_⟩
        · intro hraw
          rcases hraw with hraw | hraw <;> simp [parseRealOwnerId, hraw] at hr <;>
            exact hr.symm
        · intro raw hraw hne
          rcases hp : ParseUint raw with _ | parsed <;>
            simp [parseRealOwnerId, hraw, hne, hp] at hr
          simp [← hr]
  · unfold AdminBlacklistCommand.Execute
    rcases hgid : ParseUint guildIdRaw with _ | guildId
    · left
      simp [List.countP_cons, BlacklistEvent.isEffect, BlacklistEvent.isAdd,
        BlacklistEvent.isAddGuildToCache, BlacklistEvent.isLeaveGuild]
    · rcases hr : parseRealOwnerId realOwnerIdRaw with _ | realOwnerId
      · left
        simp [List.countP_cons, BlacklistEvent.isEffect, BlacklistEvent.isAdd,
          BlacklistEvent.isAddGuildToCache, BlacklistEvent.isLeaveGuild]
      · simp only
        rcases checkAndBlacklist_shape env guildId reason realOwnerId with h0 | h1
        · exact Or.inl h0
        · obtain ⟨pre, w, heq, hpre, hb⟩ := h1
          exact Or.inr ⟨pre, w, guildId, realOwnerId, heq, hpre, rfl, rfl, hb⟩
  · intro w guildId realOwnerId
    refine ⟨?_, ?_⟩
    · intro err0 hg
      refine ⟨?_, ?_⟩
      · intro err ha
        simp [blacklistAndLeave, hg, ha]
      · intro ha
        simp [blacklistAndLeave, hg, ha]
    · intro owner hg
      refine ⟨?_, ?_⟩
      · intro err ha
        simp [blacklistAndLeave, hg, ha]
      · intro ha
        refine ⟨?_, ?_⟩
        · intro hl
          simp [blacklistAndLeave, hg, ha, hl]
        · intro err hl
          simp [blacklistAndLeave, hg, ha, hl]

/-- C26 at concrete runs: the guild id `12a` is refused; for the guild 5 with an empty
`real_owner_id` the record is added without a real owner, the cache is updated, the reply
is made and the guild is left, in lines 103-150 and in the whole run. -/
theorem C26_witness :
    AdminBlacklistCommand.Execute exampleBlacklistEnv "12a" (some "spam") (some "") =
      [.replyRaw "Invalid guild ID provided"] ∧
    blacklistAndLeave exampleBlacklistEnv none 5 (some "spam") none =
      [.getGuild none 5, .add 5 (some "spam") (some 9) none, .addGuildToCache 5,
        .replyWith false (blacklistSuccessMessage 5 (some "spam") (some 9) none),
        .leaveGuild none 5] ∧
    AdminBlacklistCommand.Execute exampleBlacklistEnv "5" (some "spam") (some "") =
      [.isBlacklisted 5, .getBotByGuild 5, .getGuild none 5,
        .add 5 (some "spam") (some 9) none, .addGuildToCache 5,
        .replyWith false (blacklistSuccessMessage 5 (some "spam") (some 9) none),
        .leaveGuild none 5] :=
  ⟨(C26_blacklist_guards exampleBlacklistEnv "12a" (some "spam") (some "")).1 (by decide),
    ((((C26_blacklist_guards exampleBlacklistEnv "12a" (some "spam")
      (some "")).2.2.2.2.2 none 5 none).2 9 rfl).2 rfl).1 rfl,
    rfl⟩

end Worker
